import Mathlib

/-! # Upstream SPI link controller (`Upstream/Src/upstream_spi.c`)

A shallow embedding of the link state machine and the two-slot packet pool.
The module's global variables become the fields of one record, `Link`, and every
C function becomes a function on `Link`.

* Function pointers are values of an enumeration (`NULL`, the module's own
  `Upstream_BeginReceivePacketSize`, or an application callback identified by a
  number).  What an application callback does when it is called is supplied by
  a `Hooks` record, so every function of the module is parameterised by the
  behaviour of the code around it.
* A result of `none` means that the run left the model: a call through a `NULL`
  function pointer, a dereference of a pointer that is not one of the two pool
  slots, or an application callback that does not return.
* `Link.log` is a ghost field: the list of calls made to code outside the
  module (callbacks, the disconnect hook, SPI transfer starts), oldest first.
* The payload bytes of a packet (`Data`) are not touched by the link code and
  are not modelled.
-/

namespace Upstream

/-- Status codes of the HAL (`HAL_StatusTypeDef`). -/
inductive HAL_StatusTypeDef
  | HAL_OK
  | HAL_ERROR
  | HAL_BUSY
  | HAL_TIMEOUT
  deriving DecidableEq, Repr

/-- Modelled from the spec: the enumeration `InterfaceStateTypeDef` is declared in
`upstream_spi.h`; the ten states are listed in section 4.2 in this order, which
is the order the comparisons `>= UPSTREAM_INTERFACE_RX_SIZE_WAIT` and
`>= UPSTREAM_INTERFACE_ERROR` of the source rely on. -/
inductive InterfaceStateTypeDef
  | UPSTREAM_INTERFACE_IDLE
  | UPSTREAM_INTERFACE_TX_SIZE_WAIT
  | UPSTREAM_INTERFACE_TX_SIZE
  | UPSTREAM_INTERFACE_TX_PACKET_WAIT
  | UPSTREAM_INTERFACE_TX_PACKET
  | UPSTREAM_INTERFACE_RX_SIZE_WAIT
  | UPSTREAM_INTERFACE_RX_SIZE
  | UPSTREAM_INTERFACE_RX_PACKET_WAIT
  | UPSTREAM_INTERFACE_RX_PACKET
  | UPSTREAM_INTERFACE_ERROR
  deriving DecidableEq, Repr

open InterfaceStateTypeDef HAL_StatusTypeDef

/-- The integer value of an enumerator (C enumerators count from 0). -/
def InterfaceStateTypeDef.toNat : InterfaceStateTypeDef → Nat
  | UPSTREAM_INTERFACE_IDLE => 0
  | UPSTREAM_INTERFACE_TX_SIZE_WAIT => 1
  | UPSTREAM_INTERFACE_TX_SIZE => 2
  | UPSTREAM_INTERFACE_TX_PACKET_WAIT => 3
  | UPSTREAM_INTERFACE_TX_PACKET => 4
  | UPSTREAM_INTERFACE_RX_SIZE_WAIT => 5
  | UPSTREAM_INTERFACE_RX_SIZE => 6
  | UPSTREAM_INTERFACE_RX_PACKET_WAIT => 7
  | UPSTREAM_INTERFACE_RX_PACKET => 8
  | UPSTREAM_INTERFACE_ERROR => 9

/-- The ownership flag of a packet buffer (the `Busy` byte); the module stores
no other value than these two in it. -/
inductive PacketBusyTypeDef
  | NOT_BUSY
  | BUSY
  deriving DecidableEq, Repr

open PacketBusyTypeDef

/-- One packet buffer (`UpstreamPacketTypeDef`), without its payload bytes.
`Length16` is a `uint16_t`, `CommandClass` and `Command` are `uint8_t`. -/
structure UpstreamPacketTypeDef where
  Busy : PacketBusyTypeDef
  Length16 : Nat
  CommandClass : Nat
  Command : Nat
  deriving DecidableEq, Repr

/-- A value of type `UpstreamPacketTypeDef*`: `NULL`, the address of one of the
two pool slots, or some other address. -/
inductive PacketPtr
  | NULL
  | UpstreamPacket0
  | UpstreamPacket1
  | foreign (addr : Nat)
  deriving DecidableEq, Repr

/-- A value of type `FreePacketCallbackTypeDef`. -/
inductive FreePacketCallbackTypeDef
  | NULL
  | Upstream_BeginReceivePacketSize
  | app (id : Nat)
  deriving DecidableEq, Repr

/-- A value of type `SpiPacketReceivedCallbackTypeDef`. -/
inductive SpiPacketReceivedCallbackTypeDef
  | NULL
  | app (id : Nat)
  deriving DecidableEq, Repr

/-- The buffers handed to `HAL_SPI_TransmitReceive_IT`. -/
inductive Buffer
  | Length16 (p : PacketPtr)
  | CommandClass (p : PacketPtr)
  | TemporaryIncomingPacketLength
  deriving DecidableEq, Repr

/-- A call from the module to code outside it (entry of the ghost log). -/
inductive Call
  | freePacketCallback (cb : FreePacketCallbackTypeDef) (p : PacketPtr)
  | packetReceivedCallback (cb : SpiPacketReceivedCallbackTypeDef) (p : PacketPtr)
  | Upstream_StateMachine_DeviceDisconnected
  | HAL_SPI_TransmitReceive_IT (pTxData pRxData : Buffer) (Size : Nat)
  deriving DecidableEq, Repr

/-- The module's global variables. `SPI1_NSS` is true while chip select is
asserted, `BASEPRI` is the priority floor register, `log` is the ghost log. -/
structure Link where
  UpstreamPacket0 : UpstreamPacketTypeDef
  UpstreamPacket1 : UpstreamPacketTypeDef
  CurrentWorkingPacket : PacketPtr
  NextTxPacket : PacketPtr
  UpstreamInterfaceState : InterfaceStateTypeDef
  PendingFreePacketCallback : FreePacketCallbackTypeDef
  ReceivePacketCallback : SpiPacketReceivedCallbackTypeDef
  TemporaryIncomingPacketLength : Nat
  TxOkInterruptReceived : Bool
  SpiInterruptCompleted : Bool
  SentCommandClass : Nat
  SentCommand : Nat
  SPI1_NSS : Bool
  BASEPRI : Nat
  log : List Call
  deriving DecidableEq, Repr

/-- Constants of headers that are not part of the source file. Section 6 of the
spec fixes `UPSTREAM_PACKET_LEN_MIN_16` at 2 and leaves the others to the
implementation; `BASEPRI_USB` stands for
`INT_PRIORITY_USB << (8 - __NVIC_PRIO_BITS)`. -/
structure Config where
  UPSTREAM_PACKET_LEN_MIN_16 : Nat
  UPSTREAM_PACKET_LEN_16 : Nat
  COMMAND_CLASS_MASK : Nat
  COMMAND_CLASS_ERROR : Nat
  COMMAND_ERROR_DEVICE_DISCONNECTED : Nat
  BASEPRI_USB : Nat
  deriving DecidableEq, Repr

/-- The code around the module: what an application callback does to the link
when it is called (`none`: it does not return), what the disconnect hook of the
device state machine does, and the status the HAL returns when a transfer is
started. -/
structure Hooks where
  freePacketCallback : Nat → PacketPtr → Link → Option Link
  packetReceivedCallback : Nat → PacketPtr → Link → Option Link
  Upstream_StateMachine_DeviceDisconnected : Link → Option Link
  HAL_SPI_TransmitReceive_IT : Buffer → Buffer → Nat → Link → HAL_StatusTypeDef

/-- Modelled from the spec: the macro `UPSTREAM_SPI_FREAKOUT` is defined in
`upstream_spi.h`; section 7 says that in a production build it sets the state
to ERROR (and may toggle a diagnostic GPIO, which is not modelled). Control
continues after it. -/
def UPSTREAM_SPI_FREAKOUT (s : Link) : Link :=
  { s with UpstreamInterfaceState := UPSTREAM_INTERFACE_ERROR }

/-- The test `UpstreamInterfaceState >= UPSTREAM_INTERFACE_ERROR`. -/
def Link.inError (s : Link) : Bool :=
  decide (UPSTREAM_INTERFACE_ERROR.toNat ≤ s.UpstreamInterfaceState.toNat)

/-- Reading `*p`: defined for the two pool slots only. -/
def Link.deref (s : Link) : PacketPtr → Option UpstreamPacketTypeDef
  | PacketPtr.UpstreamPacket0 => some s.UpstreamPacket0
  | PacketPtr.UpstreamPacket1 => some s.UpstreamPacket1
  | _ => none

/-- Writing `*p`: defined for the two pool slots only. -/
def Link.store (s : Link) (p : PacketPtr)
    (f : UpstreamPacketTypeDef → UpstreamPacketTypeDef) : Option Link :=
  match p with
  | PacketPtr.UpstreamPacket0 => some { s with UpstreamPacket0 := f s.UpstreamPacket0 }
  | PacketPtr.UpstreamPacket1 => some { s with UpstreamPacket1 := f s.UpstreamPacket1 }
  | _ => none

/-- Appends one entry to the ghost log. -/
def Link.logged (s : Link) (e : Call) : Link :=
  { s with log := s.log ++ [e] }

/-- A call `callback(p)` through a `FreePacketCallbackTypeDef`, without the
module's own callback (see `callFreePacketCallback`). -/
def callAppFreePacketCallback (k : Hooks) (id : Nat) (p : PacketPtr) (s : Link) :
    Option Link :=
  k.freePacketCallback id p
    (s.logged (Call.freePacketCallback (FreePacketCallbackTypeDef.app id) p))

/-- A call `callback(p)` through a `SpiPacketReceivedCallbackTypeDef`. -/
def callPacketReceivedCallback (k : Hooks) (cb : SpiPacketReceivedCallbackTypeDef)
    (p : PacketPtr) (s : Link) : Option Link :=
  match cb with
  | SpiPacketReceivedCallbackTypeDef.NULL => none
  | SpiPacketReceivedCallbackTypeDef.app id =>
    k.packetReceivedCallback id p (s.logged (Call.packetReceivedCallback cb p))

/-- A call of `Upstream_StateMachine_DeviceDisconnected()`. -/
def callDeviceDisconnected (k : Hooks) (s : Link) : Option Link :=
  k.Upstream_StateMachine_DeviceDisconnected
    (s.logged Call.Upstream_StateMachine_DeviceDisconnected)

/-- A call of `HAL_SPI_TransmitReceive_IT(&Hspi1, pTxData, pRxData, Size)`:
the call is logged and the HAL's status is returned. -/
def startTransfer (k : Hooks) (pTxData pRxData : Buffer) (Size : Nat) (s : Link) :
    Link × HAL_StatusTypeDef :=
  (s.logged (Call.HAL_SPI_TransmitReceive_IT pTxData pRxData Size),
   k.HAL_SPI_TransmitReceive_IT pTxData pRxData Size s)

/-- The static initialisers of the globals (zero where the source gives none). -/
def bootLink : Link :=
  { UpstreamPacket0 := ⟨NOT_BUSY, 0, 0, 0⟩
    UpstreamPacket1 := ⟨NOT_BUSY, 0, 0, 0⟩
    CurrentWorkingPacket := PacketPtr.NULL
    NextTxPacket := PacketPtr.NULL
    UpstreamInterfaceState := UPSTREAM_INTERFACE_IDLE
    PendingFreePacketCallback := FreePacketCallbackTypeDef.NULL
    ReceivePacketCallback := SpiPacketReceivedCallbackTypeDef.NULL
    TemporaryIncomingPacketLength := 0
    TxOkInterruptReceived := false
    SpiInterruptCompleted := false
    SentCommandClass := 0
    SentCommand := 0
    SPI1_NSS := false
    BASEPRI := 0
    log := [] }

/-- `Upstream_InitSPI`: both slots are marked free and, when the ready line is
already active (`DOWNSTREAM_TX_OK_ACTIVE`), the ready flag is set. The set-up of
the SPI peripheral is outside the model. -/
def Upstream_InitSPI (DOWNSTREAM_TX_OK_ACTIVE : Bool) (s : Link) : Link :=
  let s1 := { s with UpstreamPacket0 := { s.UpstreamPacket0 with Busy := NOT_BUSY } }
  let s2 := { s1 with UpstreamPacket1 := { s1.UpstreamPacket1 with Busy := NOT_BUSY } }
  if DOWNSTREAM_TX_OK_ACTIVE then { s2 with TxOkInterruptReceived := true } else s2

/-- `Upstream_BeginTransmitPacketSize`. -/
def Upstream_BeginTransmitPacketSize (k : Hooks) (s : Link) : Link :=
  let s1 := { s with UpstreamInterfaceState := UPSTREAM_INTERFACE_TX_SIZE, SPI1_NSS := true }
  let r := startTransfer k (Buffer.Length16 s1.CurrentWorkingPacket)
    Buffer.TemporaryIncomingPacketLength 2 s1
  if r.2 ≠ HAL_OK then UPSTREAM_SPI_FREAKOUT r.1 else r.1

/-- `Upstream_BeginTransmitPacketBody`. -/
def Upstream_BeginTransmitPacketBody (k : Hooks) (s : Link) : Option Link :=
  let s1 := { s with UpstreamInterfaceState := UPSTREAM_INTERFACE_TX_PACKET, SPI1_NSS := true }
  match s1.deref s1.CurrentWorkingPacket with
  | none => none
  | some pkt =>
    let r := startTransfer k (Buffer.CommandClass s1.CurrentWorkingPacket)
      (Buffer.CommandClass s1.CurrentWorkingPacket)
      (if pkt.Length16 < 2 then 2 else pkt.Length16) s1
    some (if r.2 ≠ HAL_OK then UPSTREAM_SPI_FREAKOUT r.1 else r.1)

/-- `Upstream_BeginReceivePacketSize`. -/
def Upstream_BeginReceivePacketSize (k : Hooks) (freePacket : PacketPtr) (s : Link) :
    Option Link :=
  if s.inError then some s
  else if s.UpstreamInterfaceState ≠ UPSTREAM_INTERFACE_RX_SIZE_WAIT then
    some (UPSTREAM_SPI_FREAKOUT s)
  else
    let s1 := { s with UpstreamInterfaceState := UPSTREAM_INTERFACE_RX_SIZE,
                       CurrentWorkingPacket := freePacket }
    match s1.store s1.CurrentWorkingPacket (fun p => { p with Length16 := 0 }) with
    | none => none
    | some s2 =>
      let s3 := { s2 with SPI1_NSS := true, TemporaryIncomingPacketLength := 0 }
      let r := startTransfer k Buffer.TemporaryIncomingPacketLength
        (Buffer.Length16 s3.CurrentWorkingPacket) 2 s3
      some (if r.2 ≠ HAL_OK then UPSTREAM_SPI_FREAKOUT r.1 else r.1)

/-- `Upstream_BeginReceivePacketBody`. -/
def Upstream_BeginReceivePacketBody (k : Hooks) (s : Link) : Option Link :=
  let s1 := { s with UpstreamInterfaceState := UPSTREAM_INTERFACE_RX_PACKET, SPI1_NSS := true }
  match s1.deref s1.CurrentWorkingPacket with
  | none => none
  | some pkt =>
    let r := startTransfer k (Buffer.CommandClass s1.CurrentWorkingPacket)
      (Buffer.CommandClass s1.CurrentWorkingPacket)
      (if pkt.Length16 < 2 then 2 else pkt.Length16) s1
    some (if r.2 ≠ HAL_OK then UPSTREAM_SPI_FREAKOUT r.1 else r.1)

/-- A call `callback(p)` through a `FreePacketCallbackTypeDef`: it is logged and
then the callee runs. -/
def callFreePacketCallback (k : Hooks) (cb : FreePacketCallbackTypeDef) (p : PacketPtr)
    (s : Link) : Option Link :=
  match cb with
  | FreePacketCallbackTypeDef.NULL => none
  | FreePacketCallbackTypeDef.Upstream_BeginReceivePacketSize =>
    Upstream_BeginReceivePacketSize k p (s.logged (Call.freePacketCallback cb p))
  | FreePacketCallbackTypeDef.app id => callAppFreePacketCallback k id p s

/-- `Upstream_GetFreePacket`. -/
def Upstream_GetFreePacket (k : Hooks) (callback : FreePacketCallbackTypeDef) (s : Link) :
    Option (Link × HAL_StatusTypeDef) :=
  if s.inError then some (s, HAL_ERROR)
  else if s.PendingFreePacketCallback ≠ FreePacketCallbackTypeDef.NULL then
    some (UPSTREAM_SPI_FREAKOUT s, HAL_ERROR)
  else if s.UpstreamPacket0.Busy = NOT_BUSY then
    match callFreePacketCallback k callback PacketPtr.UpstreamPacket0
        { s with UpstreamPacket0 := { s.UpstreamPacket0 with Busy := BUSY } } with
    | none => none
    | some s1 => some (s1, HAL_OK)
  else if s.UpstreamPacket1.Busy = NOT_BUSY then
    match callFreePacketCallback k callback PacketPtr.UpstreamPacket1
        { s with UpstreamPacket1 := { s.UpstreamPacket1 with Busy := BUSY } } with
    | none => none
    | some s1 => some (s1, HAL_OK)
  else some ({ s with PendingFreePacketCallback := callback }, HAL_OK)

/-- `Upstream_GetFreePacketImmediately`. -/
def Upstream_GetFreePacketImmediately (s : Link) : Link × PacketPtr :=
  if s.inError then (s, PacketPtr.NULL)
  else if s.UpstreamPacket0.Busy = NOT_BUSY then
    ({ s with UpstreamPacket0 := { s.UpstreamPacket0 with Busy := BUSY } },
     PacketPtr.UpstreamPacket0)
  else if s.UpstreamPacket1.Busy = NOT_BUSY then
    ({ s with UpstreamPacket1 := { s.UpstreamPacket1 with Busy := BUSY } },
     PacketPtr.UpstreamPacket1)
  else (UPSTREAM_SPI_FREAKOUT s, PacketPtr.NULL)

/-- `Upstream_ReleasePacket`. -/
def Upstream_ReleasePacket (k : Hooks) (packetToRelease : PacketPtr) (s : Link) :
    Option Link :=
  if s.inError then some s
  else if packetToRelease ≠ PacketPtr.UpstreamPacket0 ∧
      packetToRelease ≠ PacketPtr.UpstreamPacket1 then
    some (UPSTREAM_SPI_FREAKOUT s)
  else if s.PendingFreePacketCallback ≠ FreePacketCallbackTypeDef.NULL then
    let tempCallback := s.PendingFreePacketCallback
    callFreePacketCallback k tempCallback packetToRelease
      { s with PendingFreePacketCallback := FreePacketCallbackTypeDef.NULL }
  else s.store packetToRelease (fun p => { p with Busy := NOT_BUSY })

/-- `Upstream_TransmitPacket`. -/
def Upstream_TransmitPacket (c : Config) (k : Hooks) (packetToWrite : PacketPtr) (s : Link) :
    Option (Link × HAL_StatusTypeDef) :=
  if s.inError then some (s, HAL_ERROR)
  else if packetToWrite ≠ PacketPtr.UpstreamPacket0 ∧
      packetToWrite ≠ PacketPtr.UpstreamPacket1 then
    some (UPSTREAM_SPI_FREAKOUT s, HAL_ERROR)
  else
    match s.deref packetToWrite with
    | none => none
    | some pkt =>
      if pkt.Busy ≠ BUSY ∨ pkt.Length16 < c.UPSTREAM_PACKET_LEN_MIN_16 ∨
          pkt.Length16 > c.UPSTREAM_PACKET_LEN_16 then
        some (UPSTREAM_SPI_FREAKOUT s, HAL_ERROR)
      else if s.NextTxPacket ≠ PacketPtr.NULL then
        some (UPSTREAM_SPI_FREAKOUT s, HAL_ERROR)
      else
        match s.UpstreamInterfaceState with
        | UPSTREAM_INTERFACE_TX_SIZE_WAIT
        | UPSTREAM_INTERFACE_TX_SIZE
        | UPSTREAM_INTERFACE_TX_PACKET_WAIT
        | UPSTREAM_INTERFACE_TX_PACKET =>
          some ({ s with NextTxPacket := packetToWrite }, HAL_OK)
        | UPSTREAM_INTERFACE_IDLE =>
          let s1 := { s with UpstreamInterfaceState := UPSTREAM_INTERFACE_TX_SIZE_WAIT,
                             CurrentWorkingPacket := packetToWrite,
                             SentCommandClass := pkt.CommandClass,
                             SentCommand := pkt.Command }
          if s1.TxOkInterruptReceived then
            some (Upstream_BeginTransmitPacketSize k { s1 with TxOkInterruptReceived := false },
                  HAL_OK)
          else some (s1, HAL_OK)
        | _ => some (UPSTREAM_SPI_FREAKOUT s, HAL_ERROR)

/-- `HAL_SPI_TxRxCpltCallback`. -/
def HAL_SPI_TxRxCpltCallback (c : Config) (s : Link) : Link :=
  { s with SpiInterruptCompleted := true, BASEPRI := c.BASEPRI_USB }

/-- `Upstream_CheckBeginPacketReception`. -/
def Upstream_CheckBeginPacketReception (k : Hooks) (s : Link) :
    Option (Link × HAL_StatusTypeDef) :=
  if s.inError then some (s, HAL_ERROR)
  else if UPSTREAM_INTERFACE_RX_SIZE_WAIT.toNat ≤ s.UpstreamInterfaceState.toNat then
    some (UPSTREAM_SPI_FREAKOUT s, HAL_ERROR)
  else if s.UpstreamInterfaceState = UPSTREAM_INTERFACE_IDLE then
    let s1 := { s with UpstreamInterfaceState := UPSTREAM_INTERFACE_RX_SIZE_WAIT }
    if s1.TxOkInterruptReceived then
      match Upstream_GetFreePacket k FreePacketCallbackTypeDef.Upstream_BeginReceivePacketSize
          { s1 with TxOkInterruptReceived := false } with
      | none => none
      | some r => some (r.1, HAL_OK)
    else some (s1, HAL_OK)
  else some (s, HAL_OK)

/-- `Upstream_ReceivePacket`. -/
def Upstream_ReceivePacket (k : Hooks) (callback : SpiPacketReceivedCallbackTypeDef)
    (s : Link) : Option (Link × HAL_StatusTypeDef) :=
  if s.inError then some (s, HAL_ERROR)
  else if s.ReceivePacketCallback ≠ SpiPacketReceivedCallbackTypeDef.NULL then
    some (UPSTREAM_SPI_FREAKOUT s, HAL_ERROR)
  else Upstream_CheckBeginPacketReception k { s with ReceivePacketCallback := callback }

/-- `Upstream_SPIProcess`. -/
def Upstream_SPIProcess (c : Config) (k : Hooks) (s0 : Link) : Option Link :=
  let s := { s0 with SPI1_NSS := false }
  if s.inError then some s
  else if s.UpstreamInterfaceState = UPSTREAM_INTERFACE_TX_SIZE then
    let s1 := { s with UpstreamInterfaceState := UPSTREAM_INTERFACE_TX_PACKET_WAIT }
    if s1.TxOkInterruptReceived then
      Upstream_BeginTransmitPacketBody k { s1 with TxOkInterruptReceived := false }
    else some s1
  else if s.UpstreamInterfaceState = UPSTREAM_INTERFACE_TX_PACKET then
    if s.PendingFreePacketCallback ≠ FreePacketCallbackTypeDef.NULL ∧
        s.NextTxPacket = PacketPtr.NULL then
      some (UPSTREAM_SPI_FREAKOUT s)
    else
      let tempPacketToFree := s.CurrentWorkingPacket
      if s.NextTxPacket ≠ PacketPtr.NULL then
        match s.deref s.NextTxPacket with
        | none => none
        | some next =>
          let s1 := { s with UpstreamInterfaceState := UPSTREAM_INTERFACE_TX_SIZE_WAIT,
                             CurrentWorkingPacket := s.NextTxPacket,
                             NextTxPacket := PacketPtr.NULL,
                             SentCommandClass := next.CommandClass,
                             SentCommand := next.Command }
          let s2 := if s1.TxOkInterruptReceived then
              Upstream_BeginTransmitPacketSize k { s1 with TxOkInterruptReceived := false }
            else s1
          Upstream_ReleasePacket k tempPacketToFree s2
      else
        let s1 := { s with UpstreamInterfaceState := UPSTREAM_INTERFACE_IDLE }
        if s1.ReceivePacketCallback ≠ SpiPacketReceivedCallbackTypeDef.NULL then
          match Upstream_CheckBeginPacketReception k s1 with
          | none => none
          | some r => Upstream_ReleasePacket k tempPacketToFree r.1
        else Upstream_ReleasePacket k tempPacketToFree s1
  else if s.UpstreamInterfaceState = UPSTREAM_INTERFACE_RX_SIZE then
    match s.deref s.CurrentWorkingPacket with
    | none => none
    | some pkt =>
      if pkt.Length16 < c.UPSTREAM_PACKET_LEN_MIN_16 ∨
          pkt.Length16 > c.UPSTREAM_PACKET_LEN_16 then
        some (UPSTREAM_SPI_FREAKOUT s)
      else
        let s1 := { s with UpstreamInterfaceState := UPSTREAM_INTERFACE_RX_PACKET_WAIT }
        if s1.TxOkInterruptReceived then
          Upstream_BeginReceivePacketBody k { s1 with TxOkInterruptReceived := false }
        else some s1
  else if s.UpstreamInterfaceState = UPSTREAM_INTERFACE_RX_PACKET then
    let s1 := { s with UpstreamInterfaceState := UPSTREAM_INTERFACE_IDLE }
    if s1.ReceivePacketCallback = SpiPacketReceivedCallbackTypeDef.NULL then
      some (UPSTREAM_SPI_FREAKOUT s1)
    else
      match s1.deref s1.CurrentWorkingPacket with
      | none => none
      | some pkt =>
        if pkt.CommandClass = c.COMMAND_CLASS_ERROR ∧
            pkt.Command = c.COMMAND_ERROR_DEVICE_DISCONNECTED then
          match Upstream_ReleasePacket k s1.CurrentWorkingPacket s1 with
          | none => none
          | some s2 =>
            callDeviceDisconnected k
              { s2 with ReceivePacketCallback := SpiPacketReceivedCallbackTypeDef.NULL }
        else if (pkt.CommandClass &&& c.COMMAND_CLASS_MASK) ≠
              (s1.SentCommandClass &&& c.COMMAND_CLASS_MASK) ∨
            pkt.Command ≠ s1.SentCommand then
          match Upstream_ReleasePacket k s1.CurrentWorkingPacket (UPSTREAM_SPI_FREAKOUT s1) with
          | none => none
          | some s2 =>
            let s3 := { s2 with CurrentWorkingPacket := PacketPtr.NULL }
            let tempPacketCallback := s3.ReceivePacketCallback
            callPacketReceivedCallback k tempPacketCallback s3.CurrentWorkingPacket
              { s3 with ReceivePacketCallback := SpiPacketReceivedCallbackTypeDef.NULL }
        else
          let tempPacketCallback := s1.ReceivePacketCallback
          callPacketReceivedCallback k tempPacketCallback s1.CurrentWorkingPacket
            { s1 with ReceivePacketCallback := SpiPacketReceivedCallbackTypeDef.NULL }
  else some (UPSTREAM_SPI_FREAKOUT s)

/-- `Upstream_SPIProcess_InterruptSafe`. -/
def Upstream_SPIProcess_InterruptSafe (c : Config) (k : Hooks) (s : Link) : Option Link :=
  if s.SpiInterruptCompleted = false then some s
  else
    match Upstream_SPIProcess c k { s with SpiInterruptCompleted := false } with
    | none => none
    | some s1 => some { s1 with BASEPRI := 0 }

/-- `Upstream_TxOkInterrupt`. -/
def Upstream_TxOkInterrupt (k : Hooks) (s : Link) : Option Link :=
  if s.inError then some s
  else
    match s.UpstreamInterfaceState with
    | UPSTREAM_INTERFACE_IDLE => some { s with TxOkInterruptReceived := true }
    | UPSTREAM_INTERFACE_TX_SIZE_WAIT => some (Upstream_BeginTransmitPacketSize k s)
    | UPSTREAM_INTERFACE_TX_PACKET_WAIT => Upstream_BeginTransmitPacketBody k s
    | UPSTREAM_INTERFACE_RX_SIZE_WAIT =>
      match Upstream_GetFreePacket k
          FreePacketCallbackTypeDef.Upstream_BeginReceivePacketSize s with
      | none => none
      | some r => some r.1
    | UPSTREAM_INTERFACE_RX_PACKET_WAIT => Upstream_BeginReceivePacketBody k s
    | _ => some (UPSTREAM_SPI_FREAKOUT s)

/-- `HAL_SPI_ErrorCallback`. -/
def HAL_SPI_ErrorCallback (k : Hooks) (s : Link) : Option Link :=
  if s.inError then some s
  else
    let s1 := UPSTREAM_SPI_FREAKOUT s
    if s1.ReceivePacketCallback ≠ SpiPacketReceivedCallbackTypeDef.NULL then
      let tempPacketCallback := s1.ReceivePacketCallback
      callPacketReceivedCallback k tempPacketCallback PacketPtr.NULL
        { s1 with ReceivePacketCallback := SpiPacketReceivedCallbackTypeDef.NULL }
    else some s1

/-! ## Entry points, upper-layer code and events -/

/-- The nine entry points of the module that act on the link state, with their
arguments. -/
inductive EntryPoint
  | Upstream_GetFreePacket (callback : FreePacketCallbackTypeDef)
  | Upstream_GetFreePacketImmediately
  | Upstream_ReleasePacket (packetToRelease : PacketPtr)
  | Upstream_TransmitPacket (packetToWrite : PacketPtr)
  | Upstream_ReceivePacket (callback : SpiPacketReceivedCallbackTypeDef)
  | Upstream_TxOkInterrupt
  | Upstream_SPIProcess
  | HAL_SPI_ErrorCallback
  | Upstream_BeginReceivePacketSize (freePacket : PacketPtr)

/-- The link after one call of an entry point (the returned value is dropped). -/
def EntryPoint.call (c : Config) (k : Hooks) : EntryPoint → Link → Option Link
  | EntryPoint.Upstream_GetFreePacket callback, s =>
    (Upstream.Upstream_GetFreePacket k callback s).map Prod.fst
  | EntryPoint.Upstream_GetFreePacketImmediately, s =>
    some (Upstream.Upstream_GetFreePacketImmediately s).1
  | EntryPoint.Upstream_ReleasePacket p, s => Upstream.Upstream_ReleasePacket k p s
  | EntryPoint.Upstream_TransmitPacket p, s =>
    (Upstream.Upstream_TransmitPacket c k p s).map Prod.fst
  | EntryPoint.Upstream_ReceivePacket callback, s =>
    (Upstream.Upstream_ReceivePacket k callback s).map Prod.fst
  | EntryPoint.Upstream_TxOkInterrupt, s => Upstream.Upstream_TxOkInterrupt k s
  | EntryPoint.Upstream_SPIProcess, s => Upstream.Upstream_SPIProcess c k s
  | EntryPoint.HAL_SPI_ErrorCallback, s => Upstream.HAL_SPI_ErrorCallback k s
  | EntryPoint.Upstream_BeginReceivePacketSize p, s =>
    Upstream.Upstream_BeginReceivePacketSize k p s

/-- The link after a sequence of entry-point calls, first call first. -/
def EntryPoint.callAll (c : Config) (k : Hooks) : List EntryPoint → Link → Option Link
  | [], s => some s
  | e :: es, s =>
    match e.call c k s with
    | none => none
    | some s1 => EntryPoint.callAll c k es s1

/-- Surroundings in which every application callback and the disconnect hook
return at once and every transfer start succeeds. -/
def Hooks.quiet : Hooks :=
  { freePacketCallback := fun _ _ s => some s
    packetReceivedCallback := fun _ _ s => some s
    Upstream_StateMachine_DeviceDisconnected := fun s => some s
    HAL_SPI_TransmitReceive_IT := fun _ _ _ _ => HAL_OK }

/-- Surroundings like `Hooks.quiet`, except that the HAL refuses every transfer
start with `HAL_BUSY`. -/
def Hooks.halBusy : Hooks :=
  { Hooks.quiet with HAL_SPI_TransmitReceive_IT := fun _ _ _ _ => HAL_BUSY }

/-- Sample constants: lengths from 2 to 257 words, class mask 0x7F, error class
0x7F with disconnect code 1. -/
def Config.sample : Config :=
  { UPSTREAM_PACKET_LEN_MIN_16 := 2
    UPSTREAM_PACKET_LEN_16 := 257
    COMMAND_CLASS_MASK := 127
    COMMAND_CLASS_ERROR := 127
    COMMAND_ERROR_DEVICE_DISCONNECTED := 1
    BASEPRI_USB := 160 }

/-- The link right after `Upstream_InitSPI` at boot. -/
def initLink (DOWNSTREAM_TX_OK_ACTIVE : Bool) : Link :=
  Upstream_InitSPI DOWNSTREAM_TX_OK_ACTIVE bootLink

/-- A pointer to one of the two pool slots. -/
def PacketPtr.isPool : PacketPtr → Bool
  | PacketPtr.UpstreamPacket0 => true
  | PacketPtr.UpstreamPacket1 => true
  | _ => false

/-- The state is one of the four transmit states. -/
def InterfaceStateTypeDef.isTx : InterfaceStateTypeDef → Bool
  | UPSTREAM_INTERFACE_TX_SIZE_WAIT => true
  | UPSTREAM_INTERFACE_TX_SIZE => true
  | UPSTREAM_INTERFACE_TX_PACKET_WAIT => true
  | UPSTREAM_INTERFACE_TX_PACKET => true
  | _ => false

/-- The state is one of the four receive states. -/
def InterfaceStateTypeDef.isRx : InterfaceStateTypeDef → Bool
  | UPSTREAM_INTERFACE_RX_SIZE_WAIT => true
  | UPSTREAM_INTERFACE_RX_SIZE => true
  | UPSTREAM_INTERFACE_RX_PACKET_WAIT => true
  | UPSTREAM_INTERFACE_RX_PACKET => true
  | _ => false

/-- The `Busy` flag of the slot a pointer refers to (`none` outside the pool). -/
def Link.busyOf (s : Link) (p : PacketPtr) : Option PacketBusyTypeDef :=
  (s.deref p).map UpstreamPacketTypeDef.Busy

/-- A link in which slot 0 is on loan and holds a four-word packet of class 0x10
and command 0x01; otherwise as at boot. -/
def sampleLoan : Link :=
  { bootLink with UpstreamPacket0 := ⟨BUSY, 4, 16, 1⟩ }

/-- A link in which both slots are on loan and application callback 7 waits for
a free packet; otherwise as at boot. -/
def sampleWaiting : Link :=
  { bootLink with UpstreamPacket0 := ⟨BUSY, 4, 16, 1⟩
                  UpstreamPacket1 := ⟨BUSY, 4, 16, 2⟩
                  PendingFreePacketCallback := FreePacketCallbackTypeDef.app 7 }

/-! ## Upper-layer code, events and reachable links -/

/-- The state is one in which an SPI transfer of `CurrentWorkingPacket` is
pending or under way: the four transmit states and the receive states after
a packet has been acquired. -/
def InterfaceStateTypeDef.inTransfer : InterfaceStateTypeDef → Bool
  | UPSTREAM_INTERFACE_TX_SIZE_WAIT => true
  | UPSTREAM_INTERFACE_TX_SIZE => true
  | UPSTREAM_INTERFACE_TX_PACKET_WAIT => true
  | UPSTREAM_INTERFACE_TX_PACKET => true
  | UPSTREAM_INTERFACE_RX_SIZE => true
  | UPSTREAM_INTERFACE_RX_PACKET_WAIT => true
  | UPSTREAM_INTERFACE_RX_PACKET => true
  | _ => false

/-- The link currently refers to the packet `p`: it is queued in `NextTxPacket`,
or it is the `CurrentWorkingPacket` of a transfer. -/
def Link.holds (s : Link) (p : PacketPtr) : Bool :=
  decide (p ≠ PacketPtr.NULL) &&
    (decide (s.NextTxPacket = p) ||
      (decide (s.CurrentWorkingPacket = p) && s.UpstreamInterfaceState.inTransfer))

/-- The packet `p` is the `CurrentWorkingPacket` of a transmission. -/
def Link.sending (s : Link) (p : PacketPtr) : Bool :=
  decide (p ≠ PacketPtr.NULL) && decide (s.CurrentWorkingPacket = p) &&
    s.UpstreamInterfaceState.isTx

/-- The words of a packet buffer are overwritten (by the application filling a
packet it has on loan, or by the SPI peripheral storing received data). The
values are cut to the width of the fields; `Busy` is untouched; a pointer that
is not a pool slot leaves the link as it is. -/
def Link.fill (s : Link) (p : PacketPtr) (Length16 CommandClass Command : Nat) : Link :=
  match s.store p (fun q => { q with Length16 := Length16 % 65536,
                                     CommandClass := CommandClass % 256,
                                     Command := Command % 256 }) with
  | some s1 => s1
  | none => s

/-- Code of the upper layers: a tree of calls of the public API, each followed
by code that may depend on the value returned. `fill` overwrites the words of a
packet buffer and `look` lets the code depend on anything in the link. -/
inductive Script
  | done
  | Upstream_GetFreePacket (callback : FreePacketCallbackTypeDef)
      (next : HAL_StatusTypeDef → Script)
  | Upstream_GetFreePacketImmediately (next : PacketPtr → Script)
  | Upstream_ReleasePacket (packetToRelease : PacketPtr) (next : Script)
  | Upstream_TransmitPacket (packetToWrite : PacketPtr) (next : HAL_StatusTypeDef → Script)
  | Upstream_ReceivePacket (callback : SpiPacketReceivedCallbackTypeDef)
      (next : HAL_StatusTypeDef → Script)
  | fill (p : PacketPtr) (Length16 CommandClass Command : Nat) (next : Script)
  | look (next : Link → Script)

/-- Runs upper-layer code on the link. With `careful` set, the run is cut off
(`none`) at a call that releases a packet the link holds or that submits the
packet under transmission once more. -/
def Script.run (c : Config) (careful : Bool) (k : Hooks) : Script → Link → Option Link
  | Script.done, s => some s
  | Script.Upstream_GetFreePacket callback next, s =>
    match Upstream.Upstream_GetFreePacket k callback s with
    | none => none
    | some r => Script.run c careful k (next r.2) r.1
  | Script.Upstream_GetFreePacketImmediately next, s =>
    Script.run c careful k (next (Upstream.Upstream_GetFreePacketImmediately s).2)
      (Upstream.Upstream_GetFreePacketImmediately s).1
  | Script.Upstream_ReleasePacket p next, s =>
    if careful && s.holds p then none
    else
      match Upstream.Upstream_ReleasePacket k p s with
      | none => none
      | some s1 => Script.run c careful k next s1
  | Script.Upstream_TransmitPacket p next, s =>
    if careful && s.sending p then none
    else
      match Upstream.Upstream_TransmitPacket c k p s with
      | none => none
      | some r => Script.run c careful k (next r.2) r.1
  | Script.Upstream_ReceivePacket callback next, s =>
    match Upstream.Upstream_ReceivePacket k callback s with
    | none => none
    | some r => Script.run c careful k (next r.2) r.1
  | Script.fill p l cc cmd next, s => Script.run c careful k next (s.fill p l cc cmd)
  | Script.look next, s => Script.run c careful k (next s) s

/-- The code around the module as a program: the body of every application
callback (by number and argument), the body of the disconnect hook, and the
status the HAL returns when a transfer is started. -/
structure Program where
  freePacketCallback : Nat → PacketPtr → Script
  packetReceivedCallback : Nat → PacketPtr → Script
  Upstream_StateMachine_DeviceDisconnected : Script
  HAL_SPI_TransmitReceive_IT : Buffer → Buffer → Nat → Link → HAL_StatusTypeDef

/-- The behaviour of the callbacks of a program, for callbacks nested at most
`depth` deep (a callback may call the API, which may call a callback, and so
on; deeper nesting counts as not returning). -/
def Program.hooks (c : Config) (careful : Bool) (prog : Program) : Nat → Hooks
  | 0 =>
    { freePacketCallback := fun _ _ _ => none
      packetReceivedCallback := fun _ _ _ => none
      Upstream_StateMachine_DeviceDisconnected := fun _ => none
      HAL_SPI_TransmitReceive_IT := prog.HAL_SPI_TransmitReceive_IT }
  | depth + 1 =>
    { freePacketCallback := fun id p s =>
        Script.run c careful (Program.hooks c careful prog depth) (prog.freePacketCallback id p) s
      packetReceivedCallback := fun id p s =>
        Script.run c careful (Program.hooks c careful prog depth)
          (prog.packetReceivedCallback id p) s
      Upstream_StateMachine_DeviceDisconnected := fun s =>
        Script.run c careful (Program.hooks c careful prog depth)
          prog.Upstream_StateMachine_DeviceDisconnected s
      HAL_SPI_TransmitReceive_IT := prog.HAL_SPI_TransmitReceive_IT }

/-- What can happen to the link: upper-layer code runs (from the USB interrupt
or the main loop), the ready edge arrives, the SPI transfer completes, the
main loop processes the completion, or the SPI peripheral reports an error. -/
inductive Event
  | upper (code : Script)
  | Upstream_TxOkInterrupt
  | HAL_SPI_TxRxCpltCallback
  | Upstream_SPIProcess_InterruptSafe
  | Upstream_SPIProcess
  | HAL_SPI_ErrorCallback

/-- The link after an event. -/
def Event.run (c : Config) (careful : Bool) (k : Hooks) : Event → Link → Option Link
  | Event.upper code, s => Script.run c careful k code s
  | Event.Upstream_TxOkInterrupt, s => Upstream.Upstream_TxOkInterrupt k s
  | Event.HAL_SPI_TxRxCpltCallback, s => some (Upstream.HAL_SPI_TxRxCpltCallback c s)
  | Event.Upstream_SPIProcess_InterruptSafe, s => Upstream.Upstream_SPIProcess_InterruptSafe c k s
  | Event.Upstream_SPIProcess, s => Upstream.Upstream_SPIProcess c k s
  | Event.HAL_SPI_ErrorCallback, s => Upstream.HAL_SPI_ErrorCallback k s

/-- The link after a sequence of events, first event first. -/
def Event.runAll (c : Config) (careful : Bool) (k : Hooks) : List Event → Link → Option Link
  | [], s => some s
  | e :: es, s =>
    match e.run c careful k s with
    | none => none
    | some s1 => Event.runAll c careful k es s1

/-- The links that a program can bring about: the link after `Upstream_InitSPI`
at boot, and every link reached from there by events, each with callbacks
nested to any depth. -/
inductive Reachable (c : Config) (careful : Bool) (prog : Program) : Link → Prop
  | boot (DOWNSTREAM_TX_OK_ACTIVE : Bool) :
    Reachable c careful prog (initLink DOWNSTREAM_TX_OK_ACTIVE)
  | step (depth : Nat) (e : Event) (s s1 : Link) :
    Reachable c careful prog s →
    e.run c careful (Program.hooks c careful prog depth) s = some s1 →
    Reachable c careful prog s1

/-- A program in which every callback returns at once and every transfer start
succeeds. -/
def Program.quiet : Program :=
  { freePacketCallback := fun _ _ => Script.done
    packetReceivedCallback := fun _ _ => Script.done
    Upstream_StateMachine_DeviceDisconnected := Script.done
    HAL_SPI_TransmitReceive_IT := fun _ _ _ _ => HAL_OK }

/-- Pool invariant I2: a registered free-packet waiter implies that both slots
are `BUSY`. -/
def Link.poolInv (s : Link) : Prop :=
  s.PendingFreePacketCallback ≠ FreePacketCallbackTypeDef.NULL →
    s.UpstreamPacket0.Busy = BUSY ∧ s.UpstreamPacket1.Busy = BUSY

/-- Exclusive ownership: a queued packet is not the current one, and a queued
packet and the packet of a transfer are `BUSY`. -/
def Link.exclusive (s : Link) : Prop :=
  (s.NextTxPacket ≠ PacketPtr.NULL → s.NextTxPacket ≠ s.CurrentWorkingPacket) ∧
  (∀ pkt, s.deref s.NextTxPacket = some pkt → pkt.Busy = BUSY) ∧
  (s.UpstreamInterfaceState.inTransfer = true →
    ∀ pkt, s.deref s.CurrentWorkingPacket = some pkt → pkt.Busy = BUSY)

/-- The invariant behind exclusive ownership: a queued packet is a `BUSY` pool
slot other than the current one and is queued only while transmitting (or
after a fault), the packet of a transfer is a `BUSY` pool slot, and the pool
invariant holds. -/
structure Link.ownInv (s : Link) : Prop where
  next_busy : s.NextTxPacket ≠ PacketPtr.NULL → s.busyOf s.NextTxPacket = some BUSY
  next_ne : s.NextTxPacket ≠ PacketPtr.NULL → s.NextTxPacket ≠ s.CurrentWorkingPacket
  next_tx : s.NextTxPacket ≠ PacketPtr.NULL →
    s.UpstreamInterfaceState.isTx = true ∨
      s.UpstreamInterfaceState = UPSTREAM_INTERFACE_ERROR
  cur_busy : s.UpstreamInterfaceState.inTransfer = true →
    s.busyOf s.CurrentWorkingPacket = some BUSY
  pool : s.poolInv

/-- Every callback of the surroundings keeps the property `P` of the link. -/
structure Hooks.Preserves (P : Link → Prop) (k : Hooks) : Prop where
  freePacketCallback : ∀ id p s s1, P s → k.freePacketCallback id p s = some s1 → P s1
  packetReceivedCallback :
    ∀ id p s s1, P s → k.packetReceivedCallback id p s = some s1 → P s1
  Upstream_StateMachine_DeviceDisconnected :
    ∀ s s1, P s → k.Upstream_StateMachine_DeviceDisconnected s = some s1 → P s1

/-- Upper-layer code that asks for a free packet three times, with callbacks
1, 2 and 3. -/
def sampleThreeRequests : Script :=
  Script.Upstream_GetFreePacket (FreePacketCallbackTypeDef.app 1) fun _ =>
  Script.Upstream_GetFreePacket (FreePacketCallbackTypeDef.app 2) fun _ =>
  Script.Upstream_GetFreePacket (FreePacketCallbackTypeDef.app 3) fun _ => Script.done

/-- The link after `sampleThreeRequests` at boot: both slots on loan, callback 3
waiting. -/
def sampleAfterThreeRequests : Link :=
  { bootLink with
    UpstreamPacket0 := ⟨BUSY, 0, 0, 0⟩
    UpstreamPacket1 := ⟨BUSY, 0, 0, 0⟩
    PendingFreePacketCallback := FreePacketCallbackTypeDef.app 3
    log := [Call.freePacketCallback (FreePacketCallbackTypeDef.app 1) PacketPtr.UpstreamPacket0,
            Call.freePacketCallback (FreePacketCallbackTypeDef.app 2) PacketPtr.UpstreamPacket1] }

/-- Upper-layer code that takes a packet, fills it and submits it twice. -/
def sampleSubmitTwice : Script :=
  Script.Upstream_GetFreePacketImmediately fun p =>
  Script.fill p 4 16 1 <|
  Script.Upstream_TransmitPacket p fun _ =>
  Script.Upstream_TransmitPacket p fun _ => Script.done

/-- The link after `sampleSubmitTwice` at boot. -/
def sampleAfterSubmitTwice : Link :=
  { bootLink with
    UpstreamPacket0 := ⟨BUSY, 4, 16, 1⟩
    CurrentWorkingPacket := PacketPtr.UpstreamPacket0
    NextTxPacket := PacketPtr.UpstreamPacket0
    UpstreamInterfaceState := UPSTREAM_INTERFACE_TX_SIZE_WAIT
    SentCommandClass := 16
    SentCommand := 1 }

/-- Upper-layer code that takes a packet, fills it, submits it and releases it
while it is waiting to be transmitted. -/
def sampleReleaseInFlight : Script :=
  Script.Upstream_GetFreePacketImmediately fun p =>
  Script.fill p 4 16 1 <|
  Script.Upstream_TransmitPacket p fun _ =>
  Script.Upstream_ReleasePacket p Script.done

/-- The link after `sampleReleaseInFlight` at boot. -/
def sampleAfterReleaseInFlight : Link :=
  { bootLink with
    UpstreamPacket0 := ⟨NOT_BUSY, 4, 16, 1⟩
    CurrentWorkingPacket := PacketPtr.UpstreamPacket0
    UpstreamInterfaceState := UPSTREAM_INTERFACE_TX_SIZE_WAIT
    SentCommandClass := 16
    SentCommand := 1 }

/-- Upper-layer code that submits two packets, one behind the other; with
`thenRelease` set it then releases the queued one. -/
def sampleQueueTwo (thenRelease : Bool) : Script :=
  Script.Upstream_GetFreePacketImmediately fun p =>
  Script.fill p 4 16 1 <|
  Script.Upstream_TransmitPacket p fun _ =>
  Script.Upstream_GetFreePacketImmediately fun q =>
  Script.fill q 5 16 2 <|
  Script.Upstream_TransmitPacket q fun _ =>
  if thenRelease then Script.Upstream_ReleasePacket q Script.done else Script.done

/-- The link after `sampleQueueTwo` at boot. -/
def sampleAfterQueueTwo (thenRelease : Bool) : Link :=
  { bootLink with
    UpstreamPacket0 := ⟨BUSY, 4, 16, 1⟩
    UpstreamPacket1 := ⟨if thenRelease then NOT_BUSY else BUSY, 5, 16, 2⟩
    CurrentWorkingPacket := PacketPtr.UpstreamPacket0
    NextTxPacket := PacketPtr.UpstreamPacket1
    UpstreamInterfaceState := UPSTREAM_INTERFACE_TX_SIZE_WAIT
    SentCommandClass := 16
    SentCommand := 1 }

/-- A link that is transmitting the body of the packet in slot 0 while slot 1
is on loan and holds a five-word packet; otherwise as at boot. -/
def sampleInBody : Link :=
  { bootLink with
    UpstreamPacket0 := ⟨BUSY, 4, 16, 1⟩
    UpstreamPacket1 := ⟨BUSY, 5, 16, 2⟩
    CurrentWorkingPacket := PacketPtr.UpstreamPacket0
    UpstreamInterfaceState := UPSTREAM_INTERFACE_TX_PACKET
    SentCommandClass := 16
    SentCommand := 1 }

/-- The link `sampleInBody` with application callback 7 waiting for a free
packet. -/
def sampleTxWaiting : Link :=
  { sampleInBody with PendingFreePacketCallback := FreePacketCallbackTypeDef.app 7 }

/-- The link `sampleInBody` with slot 1 free, or on loan when `bothBusy` is set,
application callback 5 waiting for a reply and, when `ready` is set, a ready
edge pending. -/
def sampleTxReply (ready bothBusy : Bool) : Link :=
  { sampleInBody with
    UpstreamPacket1 := ⟨if bothBusy then BUSY else NOT_BUSY, 5, 16, 2⟩
    ReceivePacketCallback := SpiPacketReceivedCallbackTypeDef.app 5
    TxOkInterruptReceived := ready }

/-- What holds of the link whatever the upper layers do: a pending ready edge
is kept only in IDLE (or after a fault), a packet is queued only while
transmitting (or after a fault) and is a pool slot, and the current packet of a
transfer is a pool slot. -/
structure Link.linkInv (s : Link) : Prop where
  ready : s.TxOkInterruptReceived = true →
    s.UpstreamInterfaceState = UPSTREAM_INTERFACE_IDLE ∨
      s.UpstreamInterfaceState = UPSTREAM_INTERFACE_ERROR
  next_tx : s.NextTxPacket ≠ PacketPtr.NULL →
    s.UpstreamInterfaceState.isTx = true ∨
      s.UpstreamInterfaceState = UPSTREAM_INTERFACE_ERROR
  next_pool : s.NextTxPacket ≠ PacketPtr.NULL → s.NextTxPacket.isPool = true
  cur_pool : s.UpstreamInterfaceState.inTransfer = true →
    s.CurrentWorkingPacket.isPool = true

/-- A link that has received the body of a reply into slot 0, with the given
class and command bytes, after a request of class 0x10 and command 0x01;
application callback 5 waits for the reply. -/
def sampleInReply (CommandClass Command : Nat) : Link :=
  { bootLink with
    UpstreamPacket0 := ⟨BUSY, 4, CommandClass, Command⟩
    CurrentWorkingPacket := PacketPtr.UpstreamPacket0
    UpstreamInterfaceState := UPSTREAM_INTERFACE_RX_PACKET
    ReceivePacketCallback := SpiPacketReceivedCallbackTypeDef.app 5
    SentCommandClass := 16
    SentCommand := 1 }

/-- A link that has received the length word `Length16` of a reply into slot 0;
application callback 5 waits for the reply and, when `ready` is set, a ready
edge is pending. -/
def sampleInSize (Length16 : Nat) (ready : Bool) : Link :=
  { bootLink with
    UpstreamPacket0 := ⟨BUSY, Length16, 0, 0⟩
    CurrentWorkingPacket := PacketPtr.UpstreamPacket0
    UpstreamInterfaceState := UPSTREAM_INTERFACE_RX_SIZE
    ReceivePacketCallback := SpiPacketReceivedCallbackTypeDef.app 5
    TxOkInterruptReceived := ready }

/-- Upper-layer code that takes a packet, fills it and submits it. -/
def sampleSubmitOne : Script :=
  Script.Upstream_GetFreePacketImmediately fun p =>
  Script.fill p 4 16 1 <|
  Script.Upstream_TransmitPacket p fun _ => Script.done

/-- The events of a transmission without reply: the packet is submitted, the
ready edge arrives, the size transfer completes, the ready edge arrives and
the body transfer completes. -/
def sampleRoundTrip : List Event :=
  [Event.upper sampleSubmitOne, Event.Upstream_TxOkInterrupt, Event.Upstream_SPIProcess,
   Event.Upstream_TxOkInterrupt, Event.Upstream_SPIProcess]

/-- The link after `sampleRoundTrip` at boot: back in IDLE, slot 0 free again
and still the current packet. -/
def sampleAfterRoundTrip : Link :=
  { bootLink with
    UpstreamPacket0 := ⟨NOT_BUSY, 4, 16, 1⟩
    CurrentWorkingPacket := PacketPtr.UpstreamPacket0
    SentCommandClass := 16
    SentCommand := 1
    log := [Call.HAL_SPI_TransmitReceive_IT (Buffer.Length16 PacketPtr.UpstreamPacket0)
              Buffer.TemporaryIncomingPacketLength 2,
            Call.HAL_SPI_TransmitReceive_IT (Buffer.CommandClass PacketPtr.UpstreamPacket0)
              (Buffer.CommandClass PacketPtr.UpstreamPacket0) 4] }

/-- Upper-layer code that asks for a reply with callback 5. -/
def sampleReceive : Script :=
  Script.Upstream_ReceivePacket (SpiPacketReceivedCallbackTypeDef.app 5) fun _ => Script.done

/-- The link after `sampleReceive` at boot: waiting for the ready edge, no
packet acquired yet. -/
def sampleAfterReceive : Link :=
  { bootLink with
    UpstreamInterfaceState := UPSTREAM_INTERFACE_RX_SIZE_WAIT
    ReceivePacketCallback := SpiPacketReceivedCallbackTypeDef.app 5 }

/-- The link `sampleAfterQueueTwo false` after a fault: in ERROR, with the
second packet still queued. -/
def sampleQueuedInError : Link :=
  { sampleAfterQueueTwo false with UpstreamInterfaceState := UPSTREAM_INTERFACE_ERROR }

/-- The link after `sampleSubmitOne` at boot with the ready line active: the
size transfer of slot 0 has been started. -/
def sampleInSizeTransfer : Link :=
  { bootLink with
    UpstreamPacket0 := ⟨BUSY, 4, 16, 1⟩
    CurrentWorkingPacket := PacketPtr.UpstreamPacket0
    UpstreamInterfaceState := UPSTREAM_INTERFACE_TX_SIZE
    SentCommandClass := 16
    SentCommand := 1
    SPI1_NSS := true
    log := [Call.HAL_SPI_TransmitReceive_IT (Buffer.Length16 PacketPtr.UpstreamPacket0)
              Buffer.TemporaryIncomingPacketLength 2] }

/-- The log entry is a call that only the processing of a link event makes: a
call of a packet-received callback or of the disconnect hook. -/
def Call.fromLink : Call → Bool
  | Call.packetReceivedCallback _ _ => true
  | Call.Upstream_StateMachine_DeviceDisconnected => true
  | _ => false

/-- The calls of packet-received callbacks and of the disconnect hook made so
far, oldest first. -/
def Link.upcalls (s : Link) : List Call :=
  s.log.filter Call.fromLink

/-- A program like `Program.quiet`, except that the HAL refuses every transfer
start with `HAL_BUSY`. -/
def Program.halBusy : Program :=
  { Program.quiet with HAL_SPI_TransmitReceive_IT := fun _ _ _ _ => HAL_BUSY }

/-- Upper-layer code that takes both packets and asks for one more with
callback 7. -/
def sampleTakeBoth : Script :=
  Script.Upstream_GetFreePacketImmediately fun _ =>
  Script.Upstream_GetFreePacketImmediately fun _ =>
  Script.Upstream_GetFreePacket (FreePacketCallbackTypeDef.app 7) fun _ => Script.done

/-- The link after a ready edge and `sampleTakeBoth` at boot: in IDLE with the
edge pending, both slots on loan and callback 7 waiting for a free packet. -/
def sampleBothOnLoanReady : Link :=
  { bootLink with
    UpstreamPacket0 := ⟨BUSY, 0, 0, 0⟩
    UpstreamPacket1 := ⟨BUSY, 0, 0, 0⟩
    PendingFreePacketCallback := FreePacketCallbackTypeDef.app 7
    TxOkInterruptReceived := true }

/-! ## Basic facts -/

theorem inError_iff (s : Link) :
    s.inError = true ↔ s.UpstreamInterfaceState = UPSTREAM_INTERFACE_ERROR := by
  unfold Link.inError
  cases s.UpstreamInterfaceState <;> simp [InterfaceStateTypeDef.toNat]

theorem inError_eq_false_iff (s : Link) :
    s.inError = false ↔ s.UpstreamInterfaceState ≠ UPSTREAM_INTERFACE_ERROR := by
  unfold Link.inError
  cases s.UpstreamInterfaceState <;> simp [InterfaceStateTypeDef.toNat]

theorem call_in_error (c : Config) (k : Hooks) (e : EntryPoint) (s : Link)
    (h : s.UpstreamInterfaceState = UPSTREAM_INTERFACE_ERROR) :
    ∃ s1, e.call c k s = some s1 ∧
      s1.UpstreamInterfaceState = UPSTREAM_INTERFACE_ERROR := by
  have he : s.inError = true := (inError_iff s).2 h
  cases e <;>
    simp [EntryPoint.call, Upstream_GetFreePacket, Upstream_GetFreePacketImmediately,
      Upstream_ReleasePacket, Upstream_TransmitPacket, Upstream_ReceivePacket,
      Upstream_TxOkInterrupt, Upstream_SPIProcess, HAL_SPI_ErrorCallback,
      Upstream_BeginReceivePacketSize, he, h, Link.inError, InterfaceStateTypeDef.toNat]

theorem callAll_in_error (c : Config) (k : Hooks) (es : List EntryPoint) :
    ∀ s : Link, s.UpstreamInterfaceState = UPSTREAM_INTERFACE_ERROR →
      ∃ s1, EntryPoint.callAll c k es s = some s1 ∧
        s1.UpstreamInterfaceState = UPSTREAM_INTERFACE_ERROR := by
  induction es with
  | nil => intro s h; exact ⟨s, rfl, h⟩
  | cons e es ih =>
    intro s h
    obtain ⟨s1, h1, h2⟩ := call_in_error c k e s h
    obtain ⟨s2, h3, h4⟩ := ih s1 h2
    exact ⟨s2, by simp [EntryPoint.callAll, h1, h3], h4⟩

theorem callAll_append (c : Config) (k : Hooks) (es fs : List EntryPoint) :
    ∀ s : Link, EntryPoint.callAll c k (es ++ fs) s =
      (EntryPoint.callAll c k es s).bind (EntryPoint.callAll c k fs) := by
  induction es with
  | nil => intro s; simp [EntryPoint.callAll]
  | cons e es ih =>
    intro s
    simp only [List.cons_append, EntryPoint.callAll]
    cases e.call c k s with
    | none => simp
    | some s1 => simpa using ih s1

theorem transmit_not_pool (c : Config) (k : Hooks) (p : PacketPtr) (s : Link)
    (h : s.inError = false) (hp : p.isPool = false) :
    Upstream_TransmitPacket c k p s = some (UPSTREAM_SPI_FREAKOUT s, HAL_ERROR) := by
  unfold Upstream_TransmitPacket
  cases p <;> simp_all [PacketPtr.isPool]

theorem transmit_pool (c : Config) (k : Hooks) (p : PacketPtr) (s : Link)
    (pkt : UpstreamPacketTypeDef)
    (h : s.inError = false) (hp : s.deref p = some pkt) :
    Upstream_TransmitPacket c k p s =
      if pkt.Busy ≠ BUSY ∨ pkt.Length16 < c.UPSTREAM_PACKET_LEN_MIN_16 ∨
          pkt.Length16 > c.UPSTREAM_PACKET_LEN_16 then
        some (UPSTREAM_SPI_FREAKOUT s, HAL_ERROR)
      else if s.NextTxPacket ≠ PacketPtr.NULL then
        some (UPSTREAM_SPI_FREAKOUT s, HAL_ERROR)
      else if s.UpstreamInterfaceState.isTx = true then
        some ({ s with NextTxPacket := p }, HAL_OK)
      else if s.UpstreamInterfaceState = UPSTREAM_INTERFACE_IDLE then
        let s1 := { s with UpstreamInterfaceState := UPSTREAM_INTERFACE_TX_SIZE_WAIT,
                           CurrentWorkingPacket := p,
                           SentCommandClass := pkt.CommandClass,
                           SentCommand := pkt.Command }
        if s.TxOkInterruptReceived = true then
          some (Upstream_BeginTransmitPacketSize k { s1 with TxOkInterruptReceived := false },
                HAL_OK)
        else some (s1, HAL_OK)
      else some (UPSTREAM_SPI_FREAKOUT s, HAL_ERROR) := by
  have hpool : ¬ (p ≠ PacketPtr.UpstreamPacket0 ∧ p ≠ PacketPtr.UpstreamPacket1) := by
    cases p <;> simp_all [Link.deref]
  unfold Upstream_TransmitPacket
  rw [if_neg (by simp [h]), if_neg hpool, hp]
  dsimp only
  split_ifs with h1 h2 h3 h4 h5 <;> first | rfl | skip
  all_goals (cases hst : s.UpstreamInterfaceState <;> simp_all [InterfaceStateTypeDef.isTx])

theorem deref_isSome_iff (s : Link) (p : PacketPtr) :
    p.isPool = true ↔ ∃ pkt, s.deref p = some pkt := by
  cases p <;> simp [PacketPtr.isPool, Link.deref]

/-! ## The claims -/

/-- C1: ERROR is absorbing. From a link whose state is ERROR, each of the nine
entry points, with any arguments and in any surroundings, returns and leaves
the state ERROR; and in any sequence of entry-point calls that has reached
ERROR after some calls, every further call is made in state ERROR and the
sequence, however it is continued, ends in state ERROR. -/
theorem error_is_absorbing (c : Config) (k : Hooks) (s : Link)
    (h : s.UpstreamInterfaceState = UPSTREAM_INTERFACE_ERROR) :
    (∀ e : EntryPoint, ∃ s1, e.call c k s = some s1 ∧
        s1.UpstreamInterfaceState = UPSTREAM_INTERFACE_ERROR) ∧
    (∀ es : List EntryPoint, ∃ s1, EntryPoint.callAll c k es s = some s1 ∧
        s1.UpstreamInterfaceState = UPSTREAM_INTERFACE_ERROR) ∧
    (∀ (s0 : Link) (es fs : List EntryPoint), EntryPoint.callAll c k es s0 = some s →
        ∃ s1, EntryPoint.callAll c k (es ++ fs) s0 = some s1 ∧
          s1.UpstreamInterfaceState = UPSTREAM_INTERFACE_ERROR) := by
  refine ⟨fun e => call_in_error c k e s h,
    fun es => callAll_in_error c k es s h, ?_⟩
  intro s0 es fs h0
  obtain ⟨s1, h1, h2⟩ := callAll_in_error c k fs s h
  exact ⟨s1, by simp [callAll_append, h0, h1], h2⟩

theorem error_is_absorbing_witness :
    (UPSTREAM_SPI_FREAKOUT bootLink).UpstreamInterfaceState = UPSTREAM_INTERFACE_ERROR ∧
    ∃ s1, EntryPoint.callAll Config.sample Hooks.quiet
        [EntryPoint.Upstream_TxOkInterrupt,
         EntryPoint.Upstream_ReceivePacket (SpiPacketReceivedCallbackTypeDef.app 0),
         EntryPoint.Upstream_SPIProcess] (UPSTREAM_SPI_FREAKOUT bootLink) = some s1 ∧
      s1.UpstreamInterfaceState = UPSTREAM_INTERFACE_ERROR :=
  ⟨rfl, (error_is_absorbing Config.sample Hooks.quiet (UPSTREAM_SPI_FREAKOUT bootLink) rfl).2.1 _⟩

/-- C2: in state ERROR each of the five public API calls, with any argument and
in any surroundings, returns failure (`HAL_ERROR`, or `NULL` from the immediate
variant; `Upstream_ReleasePacket` just returns) and leaves the whole link
unchanged: every field, both `Busy` flags and the log of outside calls, so no
callback is invoked. -/
theorem api_in_error_fails (c : Config) (k : Hooks) (s : Link)
    (h : s.UpstreamInterfaceState = UPSTREAM_INTERFACE_ERROR) :
    (∀ callback, Upstream_GetFreePacket k callback s = some (s, HAL_ERROR)) ∧
    Upstream_GetFreePacketImmediately s = (s, PacketPtr.NULL) ∧
    (∀ p, Upstream_ReleasePacket k p s = some s) ∧
    (∀ p, Upstream_TransmitPacket c k p s = some (s, HAL_ERROR)) ∧
    (∀ callback, Upstream_ReceivePacket k callback s = some (s, HAL_ERROR)) := by
  have he : s.inError = true := (inError_iff s).2 h
  simp [Upstream_GetFreePacket, Upstream_GetFreePacketImmediately, Upstream_ReleasePacket,
    Upstream_TransmitPacket, Upstream_ReceivePacket, he]

theorem api_in_error_fails_witness :
    (UPSTREAM_SPI_FREAKOUT bootLink).UpstreamInterfaceState = UPSTREAM_INTERFACE_ERROR ∧
    Upstream_TransmitPacket Config.sample Hooks.quiet PacketPtr.UpstreamPacket0
      (UPSTREAM_SPI_FREAKOUT bootLink) = some (UPSTREAM_SPI_FREAKOUT bootLink, HAL_ERROR) :=
  ⟨rfl, (api_in_error_fails Config.sample Hooks.quiet (UPSTREAM_SPI_FREAKOUT bootLink) rfl).2.2.2.1 _⟩

/-- C3: outside ERROR, `Upstream_TransmitPacket p` returns, and it returns
`HAL_OK` exactly when `p` is one of the two pool slots, that slot is `BUSY`, its
`Length16` lies between the minimum and the maximum length, `NextTxPacket` is
empty and the state is IDLE or one of the four transmit states; every other
call returns `HAL_ERROR`. A success from a transmit state changes nothing but
`NextTxPacket`, which becomes `p`; a success from IDLE makes `p` the
`CurrentWorkingPacket` and copies its class and command into
`SentCommandClass` and `SentCommand`. -/
theorem transmit_packet_result (c : Config) (k : Hooks) (p : PacketPtr) (s : Link)
    (h : s.UpstreamInterfaceState ≠ UPSTREAM_INTERFACE_ERROR) :
    ∃ s1 r, Upstream_TransmitPacket c k p s = some (s1, r) ∧
      (r = HAL_OK ↔
        (p.isPool = true ∧
         (∃ pkt, s.deref p = some pkt ∧ pkt.Busy = BUSY ∧
            c.UPSTREAM_PACKET_LEN_MIN_16 ≤ pkt.Length16 ∧
            pkt.Length16 ≤ c.UPSTREAM_PACKET_LEN_16) ∧
         s.NextTxPacket = PacketPtr.NULL ∧
         (s.UpstreamInterfaceState = UPSTREAM_INTERFACE_IDLE ∨
            s.UpstreamInterfaceState.isTx = true))) ∧
      (r ≠ HAL_OK → r = HAL_ERROR) ∧
      (r = HAL_OK → s.UpstreamInterfaceState.isTx = true →
        s1 = { s with NextTxPacket := p }) ∧
      (r = HAL_OK → s.UpstreamInterfaceState = UPSTREAM_INTERFACE_IDLE →
        s1.CurrentWorkingPacket = p ∧
        ∃ pkt, s.deref p = some pkt ∧ s1.SentCommandClass = pkt.CommandClass ∧
          s1.SentCommand = pkt.Command) := by
  have he : s.inError = false := (inError_eq_false_iff s).2 h
  by_cases hp : p.isPool = true
  · obtain ⟨pkt, hpkt⟩ := (deref_isSome_iff s p).1 hp
    rw [transmit_pool c k p s pkt he hpkt]
    have hgood : (pkt.Busy = BUSY ∧ c.UPSTREAM_PACKET_LEN_MIN_16 ≤ pkt.Length16 ∧
        pkt.Length16 ≤ c.UPSTREAM_PACKET_LEN_16) ↔
        ¬ (pkt.Busy ≠ BUSY ∨ pkt.Length16 < c.UPSTREAM_PACKET_LEN_MIN_16 ∨
          pkt.Length16 > c.UPSTREAM_PACKET_LEN_16) := by
      constructor
      · rintro ⟨a, b, d⟩ (e | e | e)
        · exact e a
        · omega
        · omega
      · intro e
        refine ⟨?_, ?_, ?_⟩
        · by_contra a; exact e (Or.inl a)
        · by_contra a; exact e (Or.inr (Or.inl (by omega)))
        · by_contra a; exact e (Or.inr (Or.inr (by omega)))
    split_ifs with h1 h2 h3 h4 h5
    · refine ⟨_, _, rfl, ?_, by simp, by simp, by simp⟩
      simp only [hp, hpkt, Option.some.injEq, exists_eq_left', true_and, reduceCtorEq,
        false_iff, not_and]
      intro a
      exact absurd h1 (hgood.1 a)
    · refine ⟨_, _, rfl, ?_, by simp, by simp, by simp⟩
      simp only [hp, hpkt, Option.some.injEq, exists_eq_left', true_and, reduceCtorEq,
        false_iff, not_and]
      intro _ a
      exact absurd a h2
    · refine ⟨_, _, rfl, ?_, by simp, by simp, ?_⟩
      · simp only [hp, hpkt, Option.some.injEq, exists_eq_left', true_and, true_iff]
        exact ⟨hgood.2 h1, by simpa using h2, Or.inr h3⟩
      · intro _ a
        rw [a] at h3
        simp [InterfaceStateTypeDef.isTx] at h3
    · refine ⟨_, _, rfl, ?_, by simp, ?_, ?_⟩
      · simp only [hp, hpkt, Option.some.injEq, exists_eq_left', true_and, true_iff]
        exact ⟨hgood.2 h1, by simpa using h2, Or.inl h4⟩
      · intro _ a
        exact absurd a h3
      · intro _ _
        simp [Upstream_BeginTransmitPacketSize, startTransfer, Link.logged,
          UPSTREAM_SPI_FREAKOUT, hpkt]
        split_ifs <;> simp
    · refine ⟨_, _, rfl, ?_, by simp, ?_, ?_⟩
      · simp only [hp, hpkt, Option.some.injEq, exists_eq_left', true_and, true_iff]
        exact ⟨hgood.2 h1, by simpa using h2, Or.inl h4⟩
      · intro _ a
        exact absurd a h3
      · intro _ _
        simp [hpkt]
    · refine ⟨_, _, rfl, ?_, by simp, by simp, by simp⟩
      simp only [hp, hpkt, Option.some.injEq, exists_eq_left', true_and, reduceCtorEq,
        false_iff, not_and]
      intro _ _ a
      rcases a with a | a
      · exact h4 a
      · exact h3 a
  · rw [transmit_not_pool c k p s he (by simpa using hp)]
    exact ⟨_, _, rfl, by simp [hp]⟩

theorem transmit_packet_result_witness :
    sampleLoan.UpstreamInterfaceState ≠ UPSTREAM_INTERFACE_ERROR ∧
    ∃ s1 r, Upstream_TransmitPacket Config.sample Hooks.quiet PacketPtr.UpstreamPacket0
      sampleLoan = some (s1, r) :=
  ⟨by decide,
   (transmit_packet_result Config.sample Hooks.quiet PacketPtr.UpstreamPacket0 sampleLoan
      (by decide)).imp fun _ h1 => h1.imp fun _ h2 => h2.1⟩

/-- C4: outside ERROR, `Upstream_ReleasePacket p` for a pool slot `p` with a
waiter registered clears `PendingFreePacketCallback` and then calls the stored
callback once with `p`: the callee starts from the link in which only the
waiter slot has changed (both `Busy` flags, `p` still `BUSY`, and the state are
as before), and what it returns is what the release returns. With no waiter the
release only sets `p.Busy` to `NOT_BUSY` and calls nothing. For a pointer that
is not a pool slot the link goes to ERROR and nothing else changes. -/
theorem release_packet_cases (k : Hooks) (p : PacketPtr) (s : Link)
    (h : s.UpstreamInterfaceState ≠ UPSTREAM_INTERFACE_ERROR) :
    (p.isPool = true →
      s.PendingFreePacketCallback ≠ FreePacketCallbackTypeDef.NULL →
      Upstream_ReleasePacket k p s =
        callFreePacketCallback k s.PendingFreePacketCallback p
          { s with PendingFreePacketCallback := FreePacketCallbackTypeDef.NULL }) ∧
    (∀ id, p.isPool = true →
      s.PendingFreePacketCallback = FreePacketCallbackTypeDef.app id →
      Upstream_ReleasePacket k p s =
        k.freePacketCallback id p
          { s with PendingFreePacketCallback := FreePacketCallbackTypeDef.NULL,
                   log := s.log ++
                     [Call.freePacketCallback (FreePacketCallbackTypeDef.app id) p] }) ∧
    (s.PendingFreePacketCallback = FreePacketCallbackTypeDef.NULL →
      (p = PacketPtr.UpstreamPacket0 →
        Upstream_ReleasePacket k p s =
          some { s with UpstreamPacket0 := { s.UpstreamPacket0 with Busy := NOT_BUSY } }) ∧
      (p = PacketPtr.UpstreamPacket1 →
        Upstream_ReleasePacket k p s =
          some { s with UpstreamPacket1 := { s.UpstreamPacket1 with Busy := NOT_BUSY } })) ∧
    (p.isPool = false →
      Upstream_ReleasePacket k p s =
        some { s with UpstreamInterfaceState := UPSTREAM_INTERFACE_ERROR }) := by
  have he : s.inError = false := (inError_eq_false_iff s).2 h
  unfold Upstream_ReleasePacket
  simp only [he]
  refine ⟨?_, ?_, ?_, ?_⟩
  · intro hp hw
    cases p <;> simp_all [PacketPtr.isPool]
  · intro id hp hw
    cases p <;>
      simp_all [PacketPtr.isPool, callFreePacketCallback, callAppFreePacketCallback,
        Link.logged]
  · intro hw
    constructor <;> intro hp <;> subst hp <;> simp [hw, Link.store]
  · intro hp
    cases p <;> simp_all [PacketPtr.isPool, UPSTREAM_SPI_FREAKOUT]

theorem release_packet_cases_witness :
    sampleWaiting.UpstreamInterfaceState ≠ UPSTREAM_INTERFACE_ERROR ∧
    Upstream_ReleasePacket Hooks.quiet PacketPtr.UpstreamPacket1 sampleWaiting =
      some { sampleWaiting with
        PendingFreePacketCallback := FreePacketCallbackTypeDef.NULL,
        log := [Call.freePacketCallback (FreePacketCallbackTypeDef.app 7)
                  PacketPtr.UpstreamPacket1] } :=
  ⟨by decide,
   (release_packet_cases Hooks.quiet PacketPtr.UpstreamPacket1 sampleWaiting
      (by decide)).2.1 7 rfl rfl⟩

/-- C5: outside ERROR, `Upstream_GetFreePacket cb` is this case analysis. With a
waiter already registered it returns `HAL_ERROR`, the link goes to ERROR and
nothing is called. Otherwise, if `UpstreamPacket0` is `NOT_BUSY` it is marked
`BUSY`, `cb` is called with its address before the function returns, and the
result is `HAL_OK`; otherwise the same is done with `UpstreamPacket1` if that
is `NOT_BUSY`; otherwise `cb` is stored in `PendingFreePacketCallback`,
nothing is called and the result is `HAL_OK`. -/
theorem get_free_packet_cases (k : Hooks) (cb : FreePacketCallbackTypeDef) (s : Link)
    (h : s.UpstreamInterfaceState ≠ UPSTREAM_INTERFACE_ERROR) :
    (s.PendingFreePacketCallback ≠ FreePacketCallbackTypeDef.NULL →
      Upstream_GetFreePacket k cb s =
        some ({ s with UpstreamInterfaceState := UPSTREAM_INTERFACE_ERROR }, HAL_ERROR)) ∧
    (s.PendingFreePacketCallback = FreePacketCallbackTypeDef.NULL →
      s.UpstreamPacket0.Busy = NOT_BUSY →
      Upstream_GetFreePacket k cb s =
        (callFreePacketCallback k cb PacketPtr.UpstreamPacket0
          { s with UpstreamPacket0 := { s.UpstreamPacket0 with Busy := BUSY } }).map
          fun s1 => (s1, HAL_OK)) ∧
    (s.PendingFreePacketCallback = FreePacketCallbackTypeDef.NULL →
      s.UpstreamPacket0.Busy = BUSY → s.UpstreamPacket1.Busy = NOT_BUSY →
      Upstream_GetFreePacket k cb s =
        (callFreePacketCallback k cb PacketPtr.UpstreamPacket1
          { s with UpstreamPacket1 := { s.UpstreamPacket1 with Busy := BUSY } }).map
          fun s1 => (s1, HAL_OK)) ∧
    (s.PendingFreePacketCallback = FreePacketCallbackTypeDef.NULL →
      s.UpstreamPacket0.Busy = BUSY → s.UpstreamPacket1.Busy = BUSY →
      Upstream_GetFreePacket k cb s =
        some ({ s with PendingFreePacketCallback := cb }, HAL_OK)) ∧
    (∀ id p s0, callFreePacketCallback k (FreePacketCallbackTypeDef.app id) p s0 =
      k.freePacketCallback id p
        { s0 with log := s0.log ++
            [Call.freePacketCallback (FreePacketCallbackTypeDef.app id) p] }) := by
  have he : s.inError = false := (inError_eq_false_iff s).2 h
  unfold Upstream_GetFreePacket
  simp only [he]
  refine ⟨?_, ?_, ?_, ?_, ?_⟩
  · intro hw
    simp [hw, UPSTREAM_SPI_FREAKOUT]
  · intro hw h0
    generalize callFreePacketCallback k cb PacketPtr.UpstreamPacket0 _ = r
    cases r <;> simp [hw, h0]
  · intro hw h0 h1
    generalize callFreePacketCallback k cb PacketPtr.UpstreamPacket1 _ = r
    cases r <;> simp [hw, h0, h1]
  · intro hw h0 h1
    simp [hw, h0, h1]
  · intro id p s0
    rfl

theorem get_free_packet_cases_witness :
    sampleLoan.UpstreamInterfaceState ≠ UPSTREAM_INTERFACE_ERROR ∧
    Upstream_GetFreePacket Hooks.quiet (FreePacketCallbackTypeDef.app 3) sampleLoan =
      some ({ sampleLoan with
                UpstreamPacket1 := { sampleLoan.UpstreamPacket1 with Busy := BUSY },
                log := [Call.freePacketCallback (FreePacketCallbackTypeDef.app 3)
                          PacketPtr.UpstreamPacket1] }, HAL_OK) :=
  ⟨by decide,
   ((get_free_packet_cases Hooks.quiet (FreePacketCallbackTypeDef.app 3) sampleLoan
      (by decide)).2.2.1 rfl rfl rfl).trans rfl⟩

/-! ## Pool invariant I2 -/

theorem poolInv_of_same (s s1 : Link) (h : s.poolInv)
    (h0 : s1.UpstreamPacket0.Busy = s.UpstreamPacket0.Busy)
    (h1 : s1.UpstreamPacket1.Busy = s.UpstreamPacket1.Busy)
    (hw : s1.PendingFreePacketCallback = s.PendingFreePacketCallback) : s1.poolInv := by
  unfold Link.poolInv at *
  rw [h0, h1, hw]
  exact h

theorem startTransfer_poolInv (k : Hooks) (a b : Buffer) (n : Nat) (s : Link)
    (h : s.poolInv) : (startTransfer k a b n s).1.poolInv :=
  poolInv_of_same s _ h rfl rfl rfl

theorem FREAKOUT_poolInv (s : Link) (h : s.poolInv) : (UPSTREAM_SPI_FREAKOUT s).poolInv :=
  poolInv_of_same s _ h rfl rfl rfl

theorem Upstream_BeginTransmitPacketSize_poolInv (k : Hooks) (s : Link) (h : s.poolInv) :
    (Upstream_BeginTransmitPacketSize k s).poolInv := by
  unfold Upstream_BeginTransmitPacketSize
  dsimp only
  split_ifs
  · exact poolInv_of_same s _ h rfl rfl rfl
  · exact poolInv_of_same s _ h rfl rfl rfl

theorem Upstream_BeginTransmitPacketBody_poolInv (k : Hooks) (s s1 : Link) (h : s.poolInv)
    (hr : Upstream_BeginTransmitPacketBody k s = some s1) : s1.poolInv := by
  unfold Upstream_BeginTransmitPacketBody at hr
  dsimp only at hr
  split at hr
  · cases hr
  · split_ifs at hr <;> cases hr <;> exact poolInv_of_same s _ h rfl rfl rfl

theorem Upstream_BeginReceivePacketBody_poolInv (k : Hooks) (s s1 : Link) (h : s.poolInv)
    (hr : Upstream_BeginReceivePacketBody k s = some s1) : s1.poolInv := by
  unfold Upstream_BeginReceivePacketBody at hr
  dsimp only at hr
  split at hr
  · cases hr
  · split_ifs at hr <;> cases hr <;> exact poolInv_of_same s _ h rfl rfl rfl

theorem Upstream_BeginReceivePacketSize_poolInv (k : Hooks) (p : PacketPtr) (s s1 : Link)
    (h : s.poolInv) (hr : Upstream_BeginReceivePacketSize k p s = some s1) : s1.poolInv := by
  unfold Upstream_BeginReceivePacketSize at hr
  split_ifs at hr
  · cases hr; exact h
  · cases hr; exact FREAKOUT_poolInv s h
  · cases p <;> simp only [Link.store] at hr <;> cases hr <;> split_ifs <;>
      exact poolInv_of_same s _ h rfl rfl rfl

theorem callFreePacketCallback_poolInv (k : Hooks) (hk : k.Preserves Link.poolInv)
    (cb : FreePacketCallbackTypeDef) (p : PacketPtr) (s s1 : Link) (h : s.poolInv)
    (hr : callFreePacketCallback k cb p s = some s1) : s1.poolInv := by
  cases cb with
  | NULL => simp [callFreePacketCallback] at hr
  | Upstream_BeginReceivePacketSize =>
    exact Upstream_BeginReceivePacketSize_poolInv k p
      (s.logged (Call.freePacketCallback
        FreePacketCallbackTypeDef.Upstream_BeginReceivePacketSize p)) s1
      (poolInv_of_same s _ h rfl rfl rfl) hr
  | app id =>
    exact hk.freePacketCallback id p
      (s.logged (Call.freePacketCallback (FreePacketCallbackTypeDef.app id) p)) s1
      (poolInv_of_same s _ h rfl rfl rfl) hr

theorem callPacketReceivedCallback_poolInv (k : Hooks) (hk : k.Preserves Link.poolInv)
    (cb : SpiPacketReceivedCallbackTypeDef) (p : PacketPtr) (s s1 : Link) (h : s.poolInv)
    (hr : callPacketReceivedCallback k cb p s = some s1) : s1.poolInv := by
  cases cb with
  | NULL => simp [callPacketReceivedCallback] at hr
  | app id =>
    exact hk.packetReceivedCallback id p
      (s.logged (Call.packetReceivedCallback (SpiPacketReceivedCallbackTypeDef.app id) p)) s1
      (poolInv_of_same s _ h rfl rfl rfl) hr

theorem callDeviceDisconnected_poolInv (k : Hooks) (hk : k.Preserves Link.poolInv)
    (s s1 : Link) (h : s.poolInv) (hr : callDeviceDisconnected k s = some s1) :
    s1.poolInv :=
  hk.Upstream_StateMachine_DeviceDisconnected
    (s.logged Call.Upstream_StateMachine_DeviceDisconnected) s1
    (poolInv_of_same s _ h rfl rfl rfl) hr

theorem Upstream_GetFreePacket_poolInv (k : Hooks) (hk : k.Preserves Link.poolInv)
    (cb : FreePacketCallbackTypeDef) (s s1 : Link) (r : HAL_StatusTypeDef) (h : s.poolInv)
    (hr : Upstream_GetFreePacket k cb s = some (s1, r)) : s1.poolInv := by
  unfold Upstream_GetFreePacket at hr
  split_ifs at hr with h1 h2 h3 h4
  · cases hr; exact h
  · cases hr; exact FREAKOUT_poolInv s h
  · split at hr
    · cases hr
    · rename_i s2 hc
      cases hr
      refine callFreePacketCallback_poolInv k hk cb _ _ _ ?_ hc
      intro hw
      exact absurd hw h2
  · split at hr
    · cases hr
    · rename_i s2 hc
      cases hr
      refine callFreePacketCallback_poolInv k hk cb _ _ _ ?_ hc
      intro hw
      exact absurd hw h2
  · cases hr
    intro _
    constructor
    · cases hb : s.UpstreamPacket0.Busy
      · exact absurd hb h3
      · rfl
    · cases hb : s.UpstreamPacket1.Busy
      · exact absurd hb h4
      · rfl

theorem Upstream_GetFreePacketImmediately_poolInv (s : Link) (h : s.poolInv) :
    (Upstream_GetFreePacketImmediately s).1.poolInv := by
  unfold Upstream_GetFreePacketImmediately
  split_ifs with h1 h2 h3
  · exact h
  · intro hw
    have := h hw
    rw [this.1] at h2
    cases h2
  · intro hw
    have := h hw
    rw [this.2] at h3
    cases h3
  · exact FREAKOUT_poolInv s h

theorem Upstream_ReleasePacket_poolInv (k : Hooks) (hk : k.Preserves Link.poolInv)
    (p : PacketPtr) (s s1 : Link) (h : s.poolInv)
    (hr : Upstream_ReleasePacket k p s = some s1) : s1.poolInv := by
  unfold Upstream_ReleasePacket at hr
  split_ifs at hr with h1 h2 h3
  · cases hr; exact h
  · cases hr; exact FREAKOUT_poolInv s h
  · refine callFreePacketCallback_poolInv k hk _ p _ s1 ?_ hr
    intro hw
    exact absurd rfl hw
  · have hw : s.PendingFreePacketCallback = FreePacketCallbackTypeDef.NULL := by
      simpa using h3
    cases p <;> simp only [Link.store] at hr <;> cases hr <;> intro hw1 <;>
      exact absurd hw hw1

theorem Upstream_TransmitPacket_poolInv (c : Config) (k : Hooks) (p : PacketPtr)
    (s s1 : Link) (r : HAL_StatusTypeDef) (h : s.poolInv)
    (hr : Upstream_TransmitPacket c k p s = some (s1, r)) : s1.poolInv := by
  by_cases he : s.inError = true
  · simp [Upstream_TransmitPacket, he] at hr
    rw [← hr.1]; exact h
  · by_cases hp : p.isPool = true
    · obtain ⟨pkt, hpkt⟩ := (deref_isSome_iff s p).1 hp
      rw [transmit_pool c k p s pkt (by simpa using he) hpkt] at hr
      dsimp only at hr
      split_ifs at hr <;> cases hr <;>
        first
        | exact FREAKOUT_poolInv s h
        | exact poolInv_of_same s _ h rfl rfl rfl
        | exact Upstream_BeginTransmitPacketSize_poolInv k _
            (poolInv_of_same s _ h rfl rfl rfl)
    · rw [transmit_not_pool c k p s (by simpa using he) (by simpa using hp)] at hr
      cases hr
      exact FREAKOUT_poolInv s h

theorem Upstream_CheckBeginPacketReception_poolInv (k : Hooks)
    (hk : k.Preserves Link.poolInv) (s s1 : Link) (r : HAL_StatusTypeDef) (h : s.poolInv)
    (hr : Upstream_CheckBeginPacketReception k s = some (s1, r)) : s1.poolInv := by
  unfold Upstream_CheckBeginPacketReception at hr
  dsimp only at hr
  split_ifs at hr with h1 h2 h3 h4
  · cases hr; exact h
  · cases hr; exact FREAKOUT_poolInv s h
  · split at hr
    · cases hr
    · rename_i r2 hg
      cases hr
      refine Upstream_GetFreePacket_poolInv k hk _ _ r2.1 r2.2 ?_ hg
      exact poolInv_of_same s _ h rfl rfl rfl
  · cases hr; exact poolInv_of_same s _ h rfl rfl rfl
  · cases hr; exact h

theorem Upstream_ReceivePacket_poolInv (k : Hooks) (hk : k.Preserves Link.poolInv)
    (cb : SpiPacketReceivedCallbackTypeDef) (s s1 : Link) (r : HAL_StatusTypeDef)
    (h : s.poolInv) (hr : Upstream_ReceivePacket k cb s = some (s1, r)) : s1.poolInv := by
  unfold Upstream_ReceivePacket at hr
  split_ifs at hr
  · cases hr; exact h
  · cases hr; exact FREAKOUT_poolInv s h
  · refine Upstream_CheckBeginPacketReception_poolInv k hk _ s1 r ?_ hr
    exact poolInv_of_same s _ h rfl rfl rfl

theorem Upstream_TxOkInterrupt_poolInv (k : Hooks) (hk : k.Preserves Link.poolInv)
    (s s1 : Link) (h : s.poolInv) (hr : Upstream_TxOkInterrupt k s = some s1) :
    s1.poolInv := by
  unfold Upstream_TxOkInterrupt at hr
  split_ifs at hr
  · cases hr; exact h
  · split at hr
    · cases hr; exact poolInv_of_same s _ h rfl rfl rfl
    · cases hr; exact Upstream_BeginTransmitPacketSize_poolInv k s h
    · exact Upstream_BeginTransmitPacketBody_poolInv k s s1 h hr
    · split at hr
      · cases hr
      · rename_i r2 hg
        cases hr
        exact Upstream_GetFreePacket_poolInv k hk _ s r2.1 r2.2 h hg
    · exact Upstream_BeginReceivePacketBody_poolInv k s s1 h hr
    · cases hr; exact FREAKOUT_poolInv s h

theorem HAL_SPI_ErrorCallback_poolInv (k : Hooks) (hk : k.Preserves Link.poolInv)
    (s s1 : Link) (h : s.poolInv) (hr : HAL_SPI_ErrorCallback k s = some s1) :
    s1.poolInv := by
  unfold HAL_SPI_ErrorCallback at hr
  dsimp only at hr
  split_ifs at hr
  · cases hr; exact h
  · refine callPacketReceivedCallback_poolInv k hk _ _ _ s1 ?_ hr
    exact poolInv_of_same s _ h rfl rfl rfl
  · cases hr; exact FREAKOUT_poolInv s h

theorem Upstream_SPIProcess_poolInv (c : Config) (k : Hooks) (hk : k.Preserves Link.poolInv)
    (s s1 : Link) (h : s.poolInv) (hr : Upstream_SPIProcess c k s = some s1) :
    s1.poolInv := by
  have h0 : ({ s with SPI1_NSS := false } : Link).poolInv :=
    poolInv_of_same s _ h rfl rfl rfl
  unfold Upstream_SPIProcess at hr
  dsimp only at hr
  split_ifs at hr with e1 e2 e3 e4 e5 e6 e7 e8 e9 e10 e11 e12
  · cases hr; exact h0
  · refine Upstream_BeginTransmitPacketBody_poolInv k _ s1 ?_ hr
    exact poolInv_of_same s _ h rfl rfl rfl
  · cases hr; exact poolInv_of_same s _ h rfl rfl rfl
  · cases hr; exact poolInv_of_same s _ h rfl rfl rfl
  · split at hr
    · cases hr
    · refine Upstream_ReleasePacket_poolInv k hk _ _ s1 ?_ hr
      exact Upstream_BeginTransmitPacketSize_poolInv k _ (poolInv_of_same s _ h rfl rfl rfl)
  · split at hr
    · cases hr
    · refine Upstream_ReleasePacket_poolInv k hk _ _ s1 ?_ hr
      exact poolInv_of_same s _ h rfl rfl rfl
  · split at hr
    · cases hr
    · rename_i r2 hg
      refine Upstream_ReleasePacket_poolInv k hk _ _ s1 ?_ hr
      refine Upstream_CheckBeginPacketReception_poolInv k hk _ r2.1 r2.2 ?_ hg
      exact poolInv_of_same s _ h rfl rfl rfl
  · refine Upstream_ReleasePacket_poolInv k hk _ _ s1 ?_ hr
    exact poolInv_of_same s _ h rfl rfl rfl
  · split at hr
    · cases hr
    · split_ifs at hr
      · cases hr; exact poolInv_of_same s _ h rfl rfl rfl
      · refine Upstream_BeginReceivePacketBody_poolInv k _ s1 ?_ hr
        exact poolInv_of_same s _ h rfl rfl rfl
  · split at hr
    · cases hr
    · split_ifs at hr
      · cases hr; exact poolInv_of_same s _ h rfl rfl rfl
      · cases hr; exact poolInv_of_same s _ h rfl rfl rfl
  · cases hr; exact poolInv_of_same s _ h rfl rfl rfl
  · split at hr
    · cases hr
    · split_ifs at hr
      · split at hr
        · cases hr
        · rename_i s2 hrel
          refine callDeviceDisconnected_poolInv k hk _ s1 ?_ hr
          have h2 : s2.poolInv := by
            refine Upstream_ReleasePacket_poolInv k hk _ _ s2 ?_ hrel
            exact poolInv_of_same s _ h rfl rfl rfl
          exact poolInv_of_same s2 _ h2 rfl rfl rfl
      · split at hr
        · cases hr
        · rename_i s2 hrel
          refine callPacketReceivedCallback_poolInv k hk _ _ _ s1 ?_ hr
          have h2 : s2.poolInv := by
            refine Upstream_ReleasePacket_poolInv k hk _ _ s2 ?_ hrel
            exact poolInv_of_same s _ h rfl rfl rfl
          exact poolInv_of_same s2 _ h2 rfl rfl rfl
      · refine callPacketReceivedCallback_poolInv k hk _ _ _ s1 ?_ hr
        exact poolInv_of_same s _ h rfl rfl rfl
  · cases hr; exact poolInv_of_same s _ h rfl rfl rfl

theorem Upstream_SPIProcess_InterruptSafe_poolInv (c : Config) (k : Hooks)
    (hk : k.Preserves Link.poolInv) (s s1 : Link) (h : s.poolInv)
    (hr : Upstream_SPIProcess_InterruptSafe c k s = some s1) : s1.poolInv := by
  unfold Upstream_SPIProcess_InterruptSafe at hr
  split_ifs at hr
  · cases hr; exact h
  · split at hr
    · cases hr
    · rename_i s2 hp
      cases hr
      have h2 : s2.poolInv := by
        refine Upstream_SPIProcess_poolInv c k hk _ s2 ?_ hp
        exact poolInv_of_same s _ h rfl rfl rfl
      exact poolInv_of_same s2 _ h2 rfl rfl rfl

theorem fill_poolInv (s : Link) (p : PacketPtr) (l cc cmd : Nat) (h : s.poolInv) :
    (s.fill p l cc cmd).poolInv := by
  cases p <;> exact poolInv_of_same s _ h rfl rfl rfl

theorem scriptRun_poolInv (c : Config) (careful : Bool) (k : Hooks)
    (hk : k.Preserves Link.poolInv) (code : Script) :
    ∀ s s1 : Link, s.poolInv → Script.run c careful k code s = some s1 → s1.poolInv := by
  induction code with
  | done => intro s s1 h hr; cases hr; exact h
  | Upstream_GetFreePacket cb next ih =>
    intro s s1 h hr
    simp only [Script.run] at hr
    split at hr
    · cases hr
    · rename_i r hg
      exact ih r.2 r.1 s1 (Upstream_GetFreePacket_poolInv k hk cb s r.1 r.2 h hg) hr
  | Upstream_GetFreePacketImmediately next ih =>
    intro s s1 h hr
    simp only [Script.run] at hr
    exact ih _ _ s1 (Upstream_GetFreePacketImmediately_poolInv s h) hr
  | Upstream_ReleasePacket p next ih =>
    intro s s1 h hr
    simp only [Script.run] at hr
    split_ifs at hr
    split at hr
    · cases hr
    · rename_i s2 hg
      exact ih s2 s1 (Upstream_ReleasePacket_poolInv k hk p s s2 h hg) hr
  | Upstream_TransmitPacket p next ih =>
    intro s s1 h hr
    simp only [Script.run] at hr
    split_ifs at hr
    split at hr
    · cases hr
    · rename_i r hg
      exact ih r.2 r.1 s1 (Upstream_TransmitPacket_poolInv c k p s r.1 r.2 h hg) hr
  | Upstream_ReceivePacket cb next ih =>
    intro s s1 h hr
    simp only [Script.run] at hr
    split at hr
    · cases hr
    · rename_i r hg
      exact ih r.2 r.1 s1 (Upstream_ReceivePacket_poolInv k hk cb s r.1 r.2 h hg) hr
  | fill p l cc cmd next ih =>
    intro s s1 h hr
    simp only [Script.run] at hr
    exact ih _ s1 (fill_poolInv s p l cc cmd h) hr
  | look next ih =>
    intro s s1 h hr
    simp only [Script.run] at hr
    exact ih s s s1 h hr

theorem programHooks_poolInv (c : Config) (careful : Bool) (prog : Program) (depth : Nat) :
    (Program.hooks c careful prog depth).Preserves Link.poolInv := by
  induction depth with
  | zero =>
    constructor <;> intros <;> simp_all [Program.hooks]
  | succ n ih =>
    constructor
    · intro id p s s1 h hr
      exact scriptRun_poolInv c careful _ ih _ s s1 h hr
    · intro id p s s1 h hr
      exact scriptRun_poolInv c careful _ ih _ s s1 h hr
    · intro s s1 h hr
      exact scriptRun_poolInv c careful _ ih _ s s1 h hr

theorem eventRun_poolInv (c : Config) (careful : Bool) (k : Hooks)
    (hk : k.Preserves Link.poolInv) (e : Event) (s s1 : Link) (h : s.poolInv)
    (hr : e.run c careful k s = some s1) : s1.poolInv := by
  cases e with
  | upper code => exact scriptRun_poolInv c careful k hk code s s1 h hr
  | Upstream_TxOkInterrupt => exact Upstream_TxOkInterrupt_poolInv k hk s s1 h hr
  | HAL_SPI_TxRxCpltCallback =>
    simp only [Event.run, Option.some.injEq] at hr
    subst hr
    exact poolInv_of_same s _ h rfl rfl rfl
  | Upstream_SPIProcess_InterruptSafe =>
    exact Upstream_SPIProcess_InterruptSafe_poolInv c k hk s s1 h hr
  | Upstream_SPIProcess => exact Upstream_SPIProcess_poolInv c k hk s s1 h hr
  | HAL_SPI_ErrorCallback => exact HAL_SPI_ErrorCallback_poolInv k hk s s1 h hr

/-- C6: pool invariant I2. In every link that a program can bring about from the
link after `Upstream_InitSPI`, by any sequence of events (upper-layer code
calling the public API, ready edges, SPI completions and their processing, SPI
errors) with callbacks that are themselves code calling the public API, nested
to any depth, a registered free-packet waiter implies that both pool slots are
`BUSY`. -/
theorem pool_invariant (c : Config) (careful : Bool) (prog : Program) (s : Link)
    (h : Reachable c careful prog s) :
    s.PendingFreePacketCallback ≠ FreePacketCallbackTypeDef.NULL →
      s.UpstreamPacket0.Busy = BUSY ∧ s.UpstreamPacket1.Busy = BUSY := by
  induction h with
  | boot b => cases b <;> intro hw <;> exact absurd rfl hw
  | step depth e s s1 _ hr ih =>
    exact eventRun_poolInv c careful _ (programHooks_poolInv c careful prog depth)
      e s s1 ih hr


theorem pool_invariant_witness :
    Reachable Config.sample false Program.quiet sampleAfterThreeRequests ∧
    sampleAfterThreeRequests.UpstreamPacket0.Busy = BUSY ∧
    sampleAfterThreeRequests.UpstreamPacket1.Busy = BUSY :=
  ⟨Reachable.step 1 (Event.upper sampleThreeRequests) _ _ (Reachable.boot false) rfl,
   pool_invariant Config.sample false Program.quiet sampleAfterThreeRequests
     (Reachable.step 1 (Event.upper sampleThreeRequests) _ _ (Reachable.boot false) rfl)
     (by decide)⟩
/-! ## Exclusive ownership -/

@[simp] theorem busyOf_NULL (s : Link) : s.busyOf PacketPtr.NULL = none := rfl

@[simp] theorem busyOf_foreign (s : Link) (a : Nat) : s.busyOf (PacketPtr.foreign a) = none :=
  rfl

@[simp] theorem busyOf_UpstreamPacket0 (s : Link) :
    s.busyOf PacketPtr.UpstreamPacket0 = some s.UpstreamPacket0.Busy := rfl

@[simp] theorem busyOf_UpstreamPacket1 (s : Link) :
    s.busyOf PacketPtr.UpstreamPacket1 = some s.UpstreamPacket1.Busy := rfl

theorem busyOf_of_same (s s1 : Link) (p : PacketPtr)
    (h0 : s1.UpstreamPacket0.Busy = s.UpstreamPacket0.Busy)
    (h1 : s1.UpstreamPacket1.Busy = s.UpstreamPacket1.Busy) : s1.busyOf p = s.busyOf p := by
  cases p <;> simp [h0, h1]

theorem ownInv_of_same (s s1 : Link) (h : s.ownInv)
    (h0 : s1.UpstreamPacket0.Busy = s.UpstreamPacket0.Busy)
    (h1 : s1.UpstreamPacket1.Busy = s.UpstreamPacket1.Busy)
    (hw : s1.PendingFreePacketCallback = s.PendingFreePacketCallback)
    (hn : s1.NextTxPacket = s.NextTxPacket)
    (hc : s1.CurrentWorkingPacket = s.CurrentWorkingPacket)
    (hs : s1.UpstreamInterfaceState = s.UpstreamInterfaceState) : s1.ownInv := by
  obtain ⟨a, b, d, e, f⟩ := h
  constructor
  · rw [hn, busyOf_of_same s s1 _ h0 h1]; exact a
  · rw [hn, hc]; exact b
  · rw [hn, hs]; exact d
  · rw [hs, hc, busyOf_of_same s s1 _ h0 h1]; exact e
  · exact poolInv_of_same s s1 f h0 h1 hw

theorem ownInv_of_error (s s1 : Link) (h : s.ownInv)
    (h0 : s1.UpstreamPacket0.Busy = s.UpstreamPacket0.Busy)
    (h1 : s1.UpstreamPacket1.Busy = s.UpstreamPacket1.Busy)
    (hw : s1.PendingFreePacketCallback = s.PendingFreePacketCallback)
    (hn : s1.NextTxPacket = s.NextTxPacket)
    (hc : s1.CurrentWorkingPacket = s.CurrentWorkingPacket)
    (hs : s1.UpstreamInterfaceState = UPSTREAM_INTERFACE_ERROR) : s1.ownInv := by
  obtain ⟨a, b, d, e, f⟩ := h
  constructor
  · rw [hn, busyOf_of_same s s1 _ h0 h1]; exact a
  · rw [hn, hc]; exact b
  · intro _; exact Or.inr hs
  · rw [hs]; intro x; cases x
  · exact poolInv_of_same s s1 f h0 h1 hw

/-- Moving between states in which the same packet is in transfer. -/
theorem ownInv_of_state (s s1 : Link) (h : s.ownInv)
    (h0 : s1.UpstreamPacket0.Busy = s.UpstreamPacket0.Busy)
    (h1 : s1.UpstreamPacket1.Busy = s.UpstreamPacket1.Busy)
    (hw : s1.PendingFreePacketCallback = s.PendingFreePacketCallback)
    (hn : s1.NextTxPacket = s.NextTxPacket)
    (hc : s1.CurrentWorkingPacket = s.CurrentWorkingPacket)
    (ht : s1.UpstreamInterfaceState.inTransfer = true →
      s.UpstreamInterfaceState.inTransfer = true)
    (hx : s.NextTxPacket ≠ PacketPtr.NULL → s1.UpstreamInterfaceState.isTx = true ∨
      s1.UpstreamInterfaceState = UPSTREAM_INTERFACE_ERROR) : s1.ownInv := by
  obtain ⟨a, b, d, e, f⟩ := h
  constructor
  · rw [hn, busyOf_of_same s s1 _ h0 h1]; exact a
  · rw [hn, hc]; exact b
  · rw [hn]; exact hx
  · rw [hc, busyOf_of_same s s1 _ h0 h1]; exact fun x => e (ht x)
  · exact poolInv_of_same s s1 f h0 h1 hw

theorem Upstream_BeginTransmitPacketSize_ownInv (k : Hooks) (s : Link) (h : s.ownInv)
    (ht : s.UpstreamInterfaceState.isTx = true) :
    (Upstream_BeginTransmitPacketSize k s).ownInv := by
  have hin : s.UpstreamInterfaceState.inTransfer = true := by
    revert ht; cases s.UpstreamInterfaceState <;> simp [InterfaceStateTypeDef.isTx,
      InterfaceStateTypeDef.inTransfer]
  unfold Upstream_BeginTransmitPacketSize
  dsimp only
  split_ifs
  · exact ownInv_of_error s _ h rfl rfl rfl rfl rfl rfl
  · exact ownInv_of_state s _ h rfl rfl rfl rfl rfl (fun _ => hin) (fun _ => Or.inl rfl)

theorem Upstream_BeginTransmitPacketBody_ownInv (k : Hooks) (s s1 : Link) (h : s.ownInv)
    (ht : s.UpstreamInterfaceState.isTx = true)
    (hr : Upstream_BeginTransmitPacketBody k s = some s1) : s1.ownInv := by
  have hin : s.UpstreamInterfaceState.inTransfer = true := by
    revert ht; cases s.UpstreamInterfaceState <;> simp [InterfaceStateTypeDef.isTx,
      InterfaceStateTypeDef.inTransfer]
  unfold Upstream_BeginTransmitPacketBody at hr
  dsimp only at hr
  split at hr
  · cases hr
  · split_ifs at hr <;> cases hr <;>
      first
      | exact ownInv_of_error s _ h rfl rfl rfl rfl rfl rfl
      | exact ownInv_of_state s _ h rfl rfl rfl rfl rfl (fun _ => hin) (fun _ => Or.inl rfl)

theorem Upstream_BeginReceivePacketBody_ownInv (k : Hooks) (s s1 : Link) (h : s.ownInv)
    (ht : s.UpstreamInterfaceState = UPSTREAM_INTERFACE_RX_PACKET_WAIT)
    (hr : Upstream_BeginReceivePacketBody k s = some s1) : s1.ownInv := by
  have hnext : s.NextTxPacket = PacketPtr.NULL := by
    by_contra hne
    have := h.next_tx hne
    rw [ht] at this
    simp [InterfaceStateTypeDef.isTx] at this
  unfold Upstream_BeginReceivePacketBody at hr
  dsimp only at hr
  split at hr
  · cases hr
  · split_ifs at hr <;> cases hr <;>
      first
      | exact ownInv_of_error s _ h rfl rfl rfl rfl rfl rfl
      | exact ownInv_of_state s _ h rfl rfl rfl rfl rfl (fun _ => by rw [ht]; rfl)
          (fun x => absurd hnext x)

theorem Upstream_BeginReceivePacketSize_ownInv (k : Hooks) (p : PacketPtr) (s s1 : Link)
    (h : s.ownInv)
    (hp : s.UpstreamInterfaceState = UPSTREAM_INTERFACE_RX_SIZE_WAIT →
      s.busyOf p = some BUSY)
    (hr : Upstream_BeginReceivePacketSize k p s = some s1) : s1.ownInv := by
  unfold Upstream_BeginReceivePacketSize at hr
  split_ifs at hr with e1 e2
  · cases hr; exact h
  · cases hr; exact ownInv_of_error s _ h rfl rfl rfl rfl rfl rfl
  · have hst : s.UpstreamInterfaceState = UPSTREAM_INTERFACE_RX_SIZE_WAIT := by
      simpa using e2
    have hnext : s.NextTxPacket = PacketPtr.NULL := by
      by_contra hne
      have := h.next_tx hne
      rw [hst] at this
      simp [InterfaceStateTypeDef.isTx] at this
    have hb := hp hst
    obtain ⟨a, b, d, e, f⟩ := h
    cases p <;> simp only [Link.store] at hr <;> cases hr <;> split_ifs <;>
      constructor <;>
      simp_all [UPSTREAM_SPI_FREAKOUT, startTransfer, Link.logged, Link.poolInv,
        InterfaceStateTypeDef.inTransfer, InterfaceStateTypeDef.isTx]

theorem callFreePacketCallback_ownInv (k : Hooks) (hk : k.Preserves Link.ownInv)
    (cb : FreePacketCallbackTypeDef) (p : PacketPtr) (s s1 : Link) (h : s.ownInv)
    (hp : s.UpstreamInterfaceState = UPSTREAM_INTERFACE_RX_SIZE_WAIT →
      s.busyOf p = some BUSY)
    (hr : callFreePacketCallback k cb p s = some s1) : s1.ownInv := by
  cases cb with
  | NULL => simp [callFreePacketCallback] at hr
  | Upstream_BeginReceivePacketSize =>
    exact Upstream_BeginReceivePacketSize_ownInv k p
      (s.logged (Call.freePacketCallback
        FreePacketCallbackTypeDef.Upstream_BeginReceivePacketSize p)) s1
      (ownInv_of_same s _ h rfl rfl rfl rfl rfl rfl)
      (fun x => (busyOf_of_same s _ p rfl rfl).trans (hp x)) hr
  | app id =>
    exact hk.freePacketCallback id p
      (s.logged (Call.freePacketCallback (FreePacketCallbackTypeDef.app id) p)) s1
      (ownInv_of_same s _ h rfl rfl rfl rfl rfl rfl) hr

theorem callPacketReceivedCallback_ownInv (k : Hooks) (hk : k.Preserves Link.ownInv)
    (cb : SpiPacketReceivedCallbackTypeDef) (p : PacketPtr) (s s1 : Link) (h : s.ownInv)
    (hr : callPacketReceivedCallback k cb p s = some s1) : s1.ownInv := by
  cases cb with
  | NULL => simp [callPacketReceivedCallback] at hr
  | app id =>
    exact hk.packetReceivedCallback id p
      (s.logged (Call.packetReceivedCallback (SpiPacketReceivedCallbackTypeDef.app id) p)) s1
      (ownInv_of_same s _ h rfl rfl rfl rfl rfl rfl) hr

theorem callDeviceDisconnected_ownInv (k : Hooks) (hk : k.Preserves Link.ownInv)
    (s s1 : Link) (h : s.ownInv) (hr : callDeviceDisconnected k s = some s1) :
    s1.ownInv :=
  hk.Upstream_StateMachine_DeviceDisconnected
    (s.logged Call.Upstream_StateMachine_DeviceDisconnected) s1
    (ownInv_of_same s _ h rfl rfl rfl rfl rfl rfl) hr

theorem busy_cases (b : PacketBusyTypeDef) (h : ¬ b = NOT_BUSY) : b = BUSY := by
  cases b
  · exact absurd rfl h
  · rfl

theorem ownInv_mark0 (s : Link) (h : s.ownInv)
    (hw : s.PendingFreePacketCallback = FreePacketCallbackTypeDef.NULL) :
    ({ s with UpstreamPacket0 := { s.UpstreamPacket0 with Busy := BUSY } } : Link).ownInv := by
  obtain ⟨a, b, d, e, f⟩ := h
  constructor
  · intro x; have := a x; revert this
    cases s.NextTxPacket <;> simp
  · exact b
  · exact d
  · intro x; have := e x; revert this
    cases s.CurrentWorkingPacket <;> simp
  · intro x; exact absurd hw x

theorem ownInv_mark1 (s : Link) (h : s.ownInv)
    (hw : s.PendingFreePacketCallback = FreePacketCallbackTypeDef.NULL) :
    ({ s with UpstreamPacket1 := { s.UpstreamPacket1 with Busy := BUSY } } : Link).ownInv := by
  obtain ⟨a, b, d, e, f⟩ := h
  constructor
  · intro x; have := a x; revert this
    cases s.NextTxPacket <;> simp
  · exact b
  · exact d
  · intro x; have := e x; revert this
    cases s.CurrentWorkingPacket <;> simp
  · intro x; exact absurd hw x

theorem Upstream_GetFreePacket_ownInv (k : Hooks) (hk : k.Preserves Link.ownInv)
    (cb : FreePacketCallbackTypeDef) (s s1 : Link) (r : HAL_StatusTypeDef) (h : s.ownInv)
    (hr : Upstream_GetFreePacket k cb s = some (s1, r)) : s1.ownInv := by
  unfold Upstream_GetFreePacket at hr
  split_ifs at hr with h1 h2 h3 h4
  · cases hr; exact h
  · cases hr; exact ownInv_of_error s _ h rfl rfl rfl rfl rfl rfl
  · split at hr
    · cases hr
    · rename_i s2 hc
      cases hr
      refine callFreePacketCallback_ownInv k hk cb _ _ _ ?_ ?_ hc
      · exact ownInv_mark0 s h (by simpa using h2)
      · intro _; rfl
  · split at hr
    · cases hr
    · rename_i s2 hc
      cases hr
      refine callFreePacketCallback_ownInv k hk cb _ _ _ ?_ ?_ hc
      · exact ownInv_mark1 s h (by simpa using h2)
      · intro _; rfl
  · cases hr
    obtain ⟨a, b, d, e, f⟩ := h
    exact ⟨a, b, d, e, fun _ => ⟨busy_cases _ h3, busy_cases _ h4⟩⟩

theorem Upstream_GetFreePacketImmediately_ownInv (s : Link) (h : s.ownInv) :
    (Upstream_GetFreePacketImmediately s).1.ownInv := by
  unfold Upstream_GetFreePacketImmediately
  split_ifs with h1 h2 h3
  · exact h
  · refine ownInv_mark0 s h ?_
    by_contra hw
    have := (h.pool hw).1
    rw [h2] at this
    cases this
  · refine ownInv_mark1 s h ?_
    by_contra hw
    have := (h.pool hw).2
    rw [h3] at this
    cases this
  · exact ownInv_of_error s _ h rfl rfl rfl rfl rfl rfl

theorem Upstream_ReleasePacket_ownInv (k : Hooks) (hk : k.Preserves Link.ownInv)
    (p : PacketPtr) (s s1 : Link) (h : s.ownInv) (hg : s.holds p = false)
    (hr : Upstream_ReleasePacket k p s = some s1) : s1.ownInv := by
  unfold Upstream_ReleasePacket at hr
  split_ifs at hr with h1 h2 h3
  · cases hr; exact h
  · cases hr; exact ownInv_of_error s _ h rfl rfl rfl rfl rfl rfl
  · refine callFreePacketCallback_ownInv k hk _ p _ s1 ?_ ?_ hr
    · obtain ⟨a, b, d, e, f⟩ := h
      exact ⟨a, b, d, e, fun x => absurd rfl x⟩
    · intro _
      have hb := h.pool h3
      cases p <;> simp_all
  · obtain ⟨a, b, d, e, f⟩ := h
    have hw : s.PendingFreePacketCallback = FreePacketCallbackTypeDef.NULL := by
      simpa using h3
    unfold Link.holds at hg
    cases p <;> simp only [Link.store] at hr <;> cases hr <;> constructor <;>
      first
      | (intro x; exact absurd hw x)
      | assumption
      | (intro x
         first
         | (have hx := a x; revert hx hg; cases s.NextTxPacket <;> simp)
         | (have hx := e x; revert hx hg; rw [x]; cases s.CurrentWorkingPacket <;> simp))

theorem next_null_of_not_tx (s : Link) (h : s.ownInv)
    (ht : s.UpstreamInterfaceState.isTx = false)
    (he : s.UpstreamInterfaceState ≠ UPSTREAM_INTERFACE_ERROR) :
    s.NextTxPacket = PacketPtr.NULL := by
  by_contra hne
  rcases h.next_tx hne with x | x
  · rw [ht] at x; cases x
  · exact he x

theorem Upstream_TransmitPacket_ownInv (c : Config) (k : Hooks) (p : PacketPtr)
    (s s1 : Link) (r : HAL_StatusTypeDef) (h : s.ownInv) (hg : s.sending p = false)
    (hr : Upstream_TransmitPacket c k p s = some (s1, r)) : s1.ownInv := by
  by_cases he : s.inError = true
  · simp [Upstream_TransmitPacket, he] at hr
    rw [← hr.1]; exact h
  · by_cases hp : p.isPool = true
    · obtain ⟨pkt, hpkt⟩ := (deref_isSome_iff s p).1 hp
      rw [transmit_pool c k p s pkt (by simpa using he) hpkt] at hr
      dsimp only at hr
      have hbusy : pkt.Busy = BUSY → s.busyOf p = some BUSY := by
        intro hb
        simp [Link.busyOf, hpkt, hb]
      split_ifs at hr with h1 h2 h3 h4 h5 <;> cases hr
      · exact ownInv_of_error s _ h rfl rfl rfl rfl rfl rfl
      · exact ownInv_of_error s _ h rfl rfl rfl rfl rfl rfl
      · have hb : pkt.Busy = BUSY := by
          by_contra x; exact h1 (Or.inl x)
        obtain ⟨a, b, d, e, f⟩ := h
        refine ⟨fun _ => hbusy hb, ?_, fun _ => Or.inl h3, e, f⟩
        intro _ x
        have x1 : s.CurrentWorkingPacket = p := x.symm
        unfold Link.sending at hg
        rw [h3, x1] at hg
        revert hg hp
        cases p <;> simp [PacketPtr.isPool]
      · have hb : pkt.Busy = BUSY := by
          by_contra x; exact h1 (Or.inl x)
        have hn : s.NextTxPacket = PacketPtr.NULL := by simpa using h2
        refine Upstream_BeginTransmitPacketSize_ownInv k _ ?_ rfl
        obtain ⟨a, b, d, e, f⟩ := h
        exact ⟨fun x => absurd hn x, fun x => absurd hn x, fun x => absurd hn x,
          fun _ => hbusy hb, f⟩
      · have hb : pkt.Busy = BUSY := by
          by_contra x; exact h1 (Or.inl x)
        have hn : s.NextTxPacket = PacketPtr.NULL := by simpa using h2
        obtain ⟨a, b, d, e, f⟩ := h
        exact ⟨fun x => absurd hn x, fun x => absurd hn x, fun x => absurd hn x,
          fun _ => hbusy hb, f⟩
      · exact ownInv_of_error s _ h rfl rfl rfl rfl rfl rfl
    · rw [transmit_not_pool c k p s (by simpa using he) (by simpa using hp)] at hr
      cases hr
      exact ownInv_of_error s _ h rfl rfl rfl rfl rfl rfl

theorem Upstream_CheckBeginPacketReception_ownInv (k : Hooks)
    (hk : k.Preserves Link.ownInv) (s s1 : Link) (r : HAL_StatusTypeDef) (h : s.ownInv)
    (hr : Upstream_CheckBeginPacketReception k s = some (s1, r)) : s1.ownInv := by
  unfold Upstream_CheckBeginPacketReception at hr
  dsimp only at hr
  split_ifs at hr with h1 h2 h3 h4
  · cases hr; exact h
  · cases hr; exact ownInv_of_error s _ h rfl rfl rfl rfl rfl rfl
  · have hn := next_null_of_not_tx s h (by rw [h3]; rfl) (by rw [h3]; simp)
    split at hr
    · cases hr
    · rename_i r2 hg
      cases hr
      refine Upstream_GetFreePacket_ownInv k hk _ _ r2.1 r2.2 ?_ hg
      exact ownInv_of_state s _ h rfl rfl rfl rfl rfl (fun x => by cases x)
        (fun x => absurd hn x)
  · have hn := next_null_of_not_tx s h (by rw [h3]; rfl) (by rw [h3]; simp)
    cases hr
    exact ownInv_of_state s _ h rfl rfl rfl rfl rfl (fun x => by cases x)
      (fun x => absurd hn x)
  · cases hr; exact h

theorem Upstream_ReceivePacket_ownInv (k : Hooks) (hk : k.Preserves Link.ownInv)
    (cb : SpiPacketReceivedCallbackTypeDef) (s s1 : Link) (r : HAL_StatusTypeDef)
    (h : s.ownInv) (hr : Upstream_ReceivePacket k cb s = some (s1, r)) : s1.ownInv := by
  unfold Upstream_ReceivePacket at hr
  split_ifs at hr
  · cases hr; exact h
  · cases hr; exact ownInv_of_error s _ h rfl rfl rfl rfl rfl rfl
  · refine Upstream_CheckBeginPacketReception_ownInv k hk _ s1 r ?_ hr
    exact ownInv_of_same s _ h rfl rfl rfl rfl rfl rfl

theorem Upstream_TxOkInterrupt_ownInv (k : Hooks) (hk : k.Preserves Link.ownInv)
    (s s1 : Link) (h : s.ownInv) (hr : Upstream_TxOkInterrupt k s = some s1) :
    s1.ownInv := by
  unfold Upstream_TxOkInterrupt at hr
  split_ifs at hr
  · cases hr; exact h
  · split at hr
    · cases hr; exact ownInv_of_same s _ h rfl rfl rfl rfl rfl rfl
    · rename_i hst
      cases hr; exact Upstream_BeginTransmitPacketSize_ownInv k s h (by rw [hst]; rfl)
    · rename_i hst
      exact Upstream_BeginTransmitPacketBody_ownInv k s s1 h (by rw [hst]; rfl) hr
    · split at hr
      · cases hr
      · rename_i r2 hg
        cases hr
        exact Upstream_GetFreePacket_ownInv k hk _ s r2.1 r2.2 h hg
    · rename_i hst
      exact Upstream_BeginReceivePacketBody_ownInv k s s1 h hst hr
    · cases hr; exact ownInv_of_error s _ h rfl rfl rfl rfl rfl rfl

theorem HAL_SPI_ErrorCallback_ownInv (k : Hooks) (hk : k.Preserves Link.ownInv)
    (s s1 : Link) (h : s.ownInv) (hr : HAL_SPI_ErrorCallback k s = some s1) :
    s1.ownInv := by
  unfold HAL_SPI_ErrorCallback at hr
  dsimp only at hr
  split_ifs at hr
  · cases hr; exact h
  · refine callPacketReceivedCallback_ownInv k hk _ _ _ s1 ?_ hr
    exact ownInv_of_error s _ h rfl rfl rfl rfl rfl rfl
  · cases hr; exact ownInv_of_error s _ h rfl rfl rfl rfl rfl rfl

theorem fill_ownInv (s : Link) (p : PacketPtr) (l cc cmd : Nat) (h : s.ownInv) :
    (s.fill p l cc cmd).ownInv := by
  cases p <;> exact ownInv_of_same s _ h rfl rfl rfl rfl rfl rfl

theorem release_in_error (k : Hooks) (p : PacketPtr) (s : Link)
    (h : s.UpstreamInterfaceState = UPSTREAM_INTERFACE_ERROR) :
    Upstream_ReleasePacket k p s = some s := by
  simp [Upstream_ReleasePacket, (inError_iff s).2 h]

theorem holds_eq_false (s : Link) (p : PacketPtr) (hn : s.NextTxPacket = PacketPtr.NULL)
    (h : s.CurrentWorkingPacket ≠ p ∨ s.UpstreamInterfaceState.inTransfer = false) :
    s.holds p = false := by
  unfold Link.holds
  rw [hn]
  rcases h with h | h
  · cases p <;> simp [h]
  · cases p <;> simp [h]

theorem holds_BeginTransmitPacketSize (k : Hooks) (p : PacketPtr) (s : Link)
    (hn : s.NextTxPacket = PacketPtr.NULL) (hc : s.CurrentWorkingPacket ≠ p) :
    (Upstream_BeginTransmitPacketSize k s).holds p = false := by
  unfold Upstream_BeginTransmitPacketSize
  dsimp only
  split_ifs <;> exact holds_eq_false _ p hn (Or.inl hc)

theorem holds_BeginReceivePacketSize (k : Hooks) (p q : PacketPtr) (s s1 : Link)
    (hr : Upstream_BeginReceivePacketSize k q s = some s1)
    (hn : s.NextTxPacket = PacketPtr.NULL) (hq : q ≠ p)
    (hst : s.UpstreamInterfaceState.inTransfer = false) : s1.holds p = false := by
  unfold Upstream_BeginReceivePacketSize at hr
  split_ifs at hr with e1 e2
  · cases hr; exact holds_eq_false s p hn (Or.inr hst)
  · cases hr; exact holds_eq_false _ p hn (Or.inr rfl)
  · cases q <;> simp only [Link.store] at hr <;> cases hr <;> split_ifs <;>
      exact holds_eq_false _ p hn (Or.inl hq)

theorem holds_CheckBeginPacketReception (k : Hooks) (p : PacketPtr) (s s1 : Link)
    (r : HAL_StatusTypeDef)
    (hr : Upstream_CheckBeginPacketReception k s = some (s1, r))
    (hs : s.UpstreamInterfaceState = UPSTREAM_INTERFACE_IDLE)
    (hn : s.NextTxPacket = PacketPtr.NULL) (hb : s.busyOf p = some BUSY) :
    s1.holds p = false := by
  unfold Upstream_CheckBeginPacketReception at hr
  dsimp only at hr
  split_ifs at hr with h1 h2 h3
  · cases hr; exact holds_eq_false s p hn (Or.inr (by rw [hs]; rfl))
  · cases hr; exact holds_eq_false _ p hn (Or.inr rfl)
  · split at hr
    · cases hr
    · rename_i r2 hg
      cases hr
      unfold Upstream_GetFreePacket at hg
      split_ifs at hg with g1 g2 g3 g4
      · cases hg; exact holds_eq_false _ p hn (Or.inr rfl)
      · cases hg; exact holds_eq_false _ p hn (Or.inr rfl)
      · split at hg
        · cases hg
        · rename_i s2 hc
          cases hg
          refine holds_BeginReceivePacketSize k p PacketPtr.UpstreamPacket0 _ _ hc ?_ ?_ ?_
          · exact hn
          · intro x
            rw [← x] at hb
            have g : s.UpstreamPacket0.Busy = NOT_BUSY := g3
            simp [g] at hb
          · rfl
      · split at hg
        · cases hg
        · rename_i s2 hc
          cases hg
          refine holds_BeginReceivePacketSize k p PacketPtr.UpstreamPacket1 _ _ hc ?_ ?_ ?_
          · exact hn
          · intro x
            rw [← x] at hb
            have g : s.UpstreamPacket1.Busy = NOT_BUSY := g4
            simp [g] at hb
          · rfl
      · cases hg; exact holds_eq_false _ p hn (Or.inr rfl)
  · cases hr; exact holds_eq_false _ p hn (Or.inr rfl)

theorem Upstream_SPIProcess_ownInv (c : Config) (k : Hooks) (hk : k.Preserves Link.ownInv)
    (s s1 : Link) (h : s.ownInv) (hr : Upstream_SPIProcess c k s = some s1) :
    s1.ownInv := by
  unfold Upstream_SPIProcess at hr
  dsimp only at hr
  split_ifs at hr with e1 e2 e3 e4 e5 e6 e7 e8 e9 e10 e11 e12
  · cases hr; exact ownInv_of_same s _ h rfl rfl rfl rfl rfl rfl
  · refine Upstream_BeginTransmitPacketBody_ownInv k _ s1 ?_ ?_ hr
    · exact ownInv_of_state s _ h rfl rfl rfl rfl rfl (fun _ => by rw [e2]; rfl)
        (fun _ => Or.inl rfl)
    · rfl
  · cases hr
    exact ownInv_of_state s _ h rfl rfl rfl rfl rfl (fun _ => by rw [e2]; rfl)
      (fun _ => Or.inl rfl)
  · cases hr; exact ownInv_of_error s _ h rfl rfl rfl rfl rfl rfl
  · -- a queued packet becomes the current one; a ready edge is pending
    have hcur : s.busyOf s.NextTxPacket = some BUSY := h.next_busy e6
    have hne : s.NextTxPacket ≠ s.CurrentWorkingPacket := h.next_ne e6
    split at hr
    · cases hr
    · rename_i next hd
      refine Upstream_ReleasePacket_ownInv k hk _ _ s1 ?_ ?_ hr
      · refine Upstream_BeginTransmitPacketSize_ownInv k _ ?_ ?_
        · exact ⟨fun x => absurd rfl x, fun x => absurd rfl x, fun x => absurd rfl x,
            fun _ => (busyOf_of_same s _ _ rfl rfl).trans hcur, h.pool⟩
        · rfl
      · exact holds_BeginTransmitPacketSize k _ _ rfl hne
  · have hcur : s.busyOf s.NextTxPacket = some BUSY := h.next_busy e6
    have hne : s.NextTxPacket ≠ s.CurrentWorkingPacket := h.next_ne e6
    split at hr
    · cases hr
    · rename_i next hd
      refine Upstream_ReleasePacket_ownInv k hk _ _ s1 ?_ ?_ hr
      · exact ⟨fun x => absurd rfl x, fun x => absurd rfl x, fun x => absurd rfl x,
          fun _ => (busyOf_of_same s _ _ rfl rfl).trans hcur, h.pool⟩
      · exact holds_eq_false _ _ rfl (Or.inl hne)
  · -- nothing queued, a receive waiter is registered
    have hn : s.NextTxPacket = PacketPtr.NULL := by simpa using e6
    have hb : s.busyOf s.CurrentWorkingPacket = some BUSY := h.cur_busy (by rw [e4]; rfl)
    split at hr
    · cases hr
    · rename_i r2 hg
      refine Upstream_ReleasePacket_ownInv k hk _ _ s1 ?_ ?_ hr
      · refine Upstream_CheckBeginPacketReception_ownInv k hk _ r2.1 r2.2 ?_ hg
        exact ownInv_of_state s _ h rfl rfl rfl rfl rfl (fun x => (by cases x))
          (fun x => absurd hn x)
      · exact holds_CheckBeginPacketReception k _ _ r2.1 r2.2 hg rfl hn
          ((busyOf_of_same s _ _ rfl rfl).trans hb)
  · have hn : s.NextTxPacket = PacketPtr.NULL := by simpa using e6
    refine Upstream_ReleasePacket_ownInv k hk _ _ s1 ?_ ?_ hr
    · exact ownInv_of_state s _ h rfl rfl rfl rfl rfl (fun x => (by cases x))
        (fun x => absurd hn x)
    · exact holds_eq_false _ _ hn (Or.inr rfl)
  · have hn := next_null_of_not_tx s h (by rw [e9]; rfl) (by rw [e9]; simp)
    split at hr
    · cases hr
    · split_ifs at hr
      · cases hr; exact ownInv_of_error s _ h rfl rfl rfl rfl rfl rfl
      · refine Upstream_BeginReceivePacketBody_ownInv k _ s1 ?_ ?_ hr
        · exact ownInv_of_state s _ h rfl rfl rfl rfl rfl (fun _ => by rw [e9]; rfl)
            (fun x => absurd hn x)
        · rfl
  · have hn := next_null_of_not_tx s h (by rw [e9]; rfl) (by rw [e9]; simp)
    split at hr
    · cases hr
    · split_ifs at hr
      · cases hr; exact ownInv_of_error s _ h rfl rfl rfl rfl rfl rfl
      · cases hr
        exact ownInv_of_state s _ h rfl rfl rfl rfl rfl (fun _ => by rw [e9]; rfl)
          (fun x => absurd hn x)
  · cases hr; exact ownInv_of_error s _ h rfl rfl rfl rfl rfl rfl
  · have hn := next_null_of_not_tx s h (by rw [e11]; rfl) (by rw [e11]; simp)
    split at hr
    · cases hr
    · split_ifs at hr
      · split at hr
        · cases hr
        · rename_i s2 hrel
          refine callDeviceDisconnected_ownInv k hk _ s1 ?_ hr
          have h2 : s2.ownInv := by
            refine Upstream_ReleasePacket_ownInv k hk _ _ s2 ?_ ?_ hrel
            · exact ownInv_of_state s _ h rfl rfl rfl rfl rfl (fun x => (by cases x))
                (fun x => absurd hn x)
            · exact holds_eq_false _ _ hn (Or.inr rfl)
          exact ownInv_of_same s2 _ h2 rfl rfl rfl rfl rfl rfl
      · rw [release_in_error k _ _ rfl] at hr
        dsimp only at hr
        refine callPacketReceivedCallback_ownInv k hk _ _ _ s1 ?_ hr
        obtain ⟨a, b, d, e, f⟩ := h
        exact ⟨fun x => absurd hn x, fun x => absurd hn x, fun x => absurd hn x,
          fun x => (by cases x), f⟩
      · refine callPacketReceivedCallback_ownInv k hk _ _ _ s1 ?_ hr
        exact ownInv_of_state s _ h rfl rfl rfl rfl rfl (fun x => (by cases x))
          (fun x => absurd hn x)
  · cases hr; exact ownInv_of_error s _ h rfl rfl rfl rfl rfl rfl

theorem Upstream_SPIProcess_InterruptSafe_ownInv (c : Config) (k : Hooks)
    (hk : k.Preserves Link.ownInv) (s s1 : Link) (h : s.ownInv)
    (hr : Upstream_SPIProcess_InterruptSafe c k s = some s1) : s1.ownInv := by
  unfold Upstream_SPIProcess_InterruptSafe at hr
  split_ifs at hr
  · cases hr; exact h
  · split at hr
    · cases hr
    · rename_i s2 hp
      cases hr
      have h2 : s2.ownInv := by
        refine Upstream_SPIProcess_ownInv c k hk _ s2 ?_ hp
        exact ownInv_of_same s _ h rfl rfl rfl rfl rfl rfl
      exact ownInv_of_same s2 _ h2 rfl rfl rfl rfl rfl rfl

theorem scriptRun_release (c : Config) (careful : Bool) (k : Hooks) (p : PacketPtr)
    (next : Script) (s : Link) :
    Script.run c careful k (Script.Upstream_ReleasePacket p next) s =
      if careful && s.holds p then none
      else
        match Upstream.Upstream_ReleasePacket k p s with
        | none => none
        | some s1 => Script.run c careful k next s1 := rfl

theorem scriptRun_transmit (c : Config) (careful : Bool) (k : Hooks) (p : PacketPtr)
    (next : HAL_StatusTypeDef → Script) (s : Link) :
    Script.run c careful k (Script.Upstream_TransmitPacket p next) s =
      if careful && s.sending p then none
      else
        match Upstream.Upstream_TransmitPacket c k p s with
        | none => none
        | some r => Script.run c careful k (next r.2) r.1 := by
  simp only [Script.run]

theorem scriptRun_ownInv (c : Config) (k : Hooks) (hk : k.Preserves Link.ownInv)
    (code : Script) :
    ∀ s s1 : Link, s.ownInv → Script.run c true k code s = some s1 → s1.ownInv := by
  induction code with
  | done => intro s s1 h hr; cases hr; exact h
  | Upstream_GetFreePacket cb next ih =>
    intro s s1 h hr
    simp only [Script.run] at hr
    split at hr
    · cases hr
    · rename_i r hg
      exact ih r.2 r.1 s1 (Upstream_GetFreePacket_ownInv k hk cb s r.1 r.2 h hg) hr
  | Upstream_GetFreePacketImmediately next ih =>
    intro s s1 h hr
    simp only [Script.run] at hr
    exact ih _ _ s1 (Upstream_GetFreePacketImmediately_ownInv s h) hr
  | Upstream_ReleasePacket p next ih =>
    intro s s1 h hr
    rw [scriptRun_release] at hr
    split_ifs at hr with hg
    split at hr
    · cases hr
    · rename_i s2 hrel
      exact ih s2 s1
        (Upstream_ReleasePacket_ownInv k hk p s s2 h (by simpa using hg) hrel) hr
  | Upstream_TransmitPacket p next ih =>
    intro s s1 h hr
    rw [scriptRun_transmit] at hr
    split_ifs at hr with hg
    split at hr
    · cases hr
    · rename_i r htx
      exact ih r.2 r.1 s1
        (Upstream_TransmitPacket_ownInv c k p s r.1 r.2 h (by simpa using hg) htx) hr
  | Upstream_ReceivePacket cb next ih =>
    intro s s1 h hr
    simp only [Script.run] at hr
    split at hr
    · cases hr
    · rename_i r hg
      exact ih r.2 r.1 s1 (Upstream_ReceivePacket_ownInv k hk cb s r.1 r.2 h hg) hr
  | fill p l cc cmd next ih =>
    intro s s1 h hr
    simp only [Script.run] at hr
    exact ih _ s1 (fill_ownInv s p l cc cmd h) hr
  | look next ih =>
    intro s s1 h hr
    simp only [Script.run] at hr
    exact ih s s s1 h hr

theorem programHooks_ownInv (c : Config) (prog : Program) (depth : Nat) :
    (Program.hooks c true prog depth).Preserves Link.ownInv := by
  induction depth with
  | zero =>
    constructor <;> intros <;> simp_all [Program.hooks]
  | succ n ih =>
    constructor
    · intro id p s s1 h hr
      exact scriptRun_ownInv c _ ih _ s s1 h hr
    · intro id p s s1 h hr
      exact scriptRun_ownInv c _ ih _ s s1 h hr
    · intro s s1 h hr
      exact scriptRun_ownInv c _ ih _ s s1 h hr

theorem eventRun_ownInv (c : Config) (k : Hooks) (hk : k.Preserves Link.ownInv)
    (e : Event) (s s1 : Link) (h : s.ownInv) (hr : e.run c true k s = some s1) :
    s1.ownInv := by
  cases e with
  | upper code => exact scriptRun_ownInv c k hk code s s1 h hr
  | Upstream_TxOkInterrupt => exact Upstream_TxOkInterrupt_ownInv k hk s s1 h hr
  | HAL_SPI_TxRxCpltCallback =>
    simp only [Event.run, Option.some.injEq] at hr
    subst hr
    exact ownInv_of_same s _ h rfl rfl rfl rfl rfl rfl
  | Upstream_SPIProcess_InterruptSafe =>
    exact Upstream_SPIProcess_InterruptSafe_ownInv c k hk s s1 h hr
  | Upstream_SPIProcess => exact Upstream_SPIProcess_ownInv c k hk s s1 h hr
  | HAL_SPI_ErrorCallback => exact HAL_SPI_ErrorCallback_ownInv k hk s s1 h hr

theorem reachable_ownInv (c : Config) (prog : Program) (s : Link)
    (h : Reachable c true prog s) : s.ownInv := by
  induction h with
  | boot b =>
    cases b <;> exact ⟨fun x => absurd rfl x, fun x => absurd rfl x, fun x => absurd rfl x,
      fun x => (by cases x), fun x => absurd rfl x⟩
  | step depth e s s1 _ hr ih =>
    exact eventRun_ownInv c _ (programHooks_ownInv c prog depth) e s s1 ih hr

theorem ownInv_exclusive (s : Link) (h : s.ownInv) : s.exclusive := by
  obtain ⟨a, b, d, e, f⟩ := h
  refine ⟨b, ?_, ?_⟩
  · intro pkt hp
    have hne : s.NextTxPacket ≠ PacketPtr.NULL := by
      intro x; rw [x] at hp; cases hp
    have := a hne
    simp only [Link.busyOf, hp, Option.map_some', Option.some.injEq] at this
    exact this
  · intro ht pkt hp
    have := e ht
    simp only [Link.busyOf, hp, Option.map_some', Option.some.injEq] at this
    exact this

/-- C7, as stated, fails: upper-layer code that submits the same packet twice
reaches a link whose queued packet is its current packet; code that releases a
packet it has submitted reaches a transmit state whose current packet is
`NOT_BUSY`; code that releases a queued packet leaves a queued packet that is
`NOT_BUSY`. So exclusive ownership does not hold in every reachable link. -/
theorem exclusive_ownership_counterexample :
    (Reachable Config.sample false Program.quiet sampleAfterSubmitTwice ∧
      sampleAfterSubmitTwice.NextTxPacket ≠ PacketPtr.NULL ∧
      sampleAfterSubmitTwice.NextTxPacket = sampleAfterSubmitTwice.CurrentWorkingPacket) ∧
    (Reachable Config.sample false Program.quiet sampleAfterReleaseInFlight ∧
      sampleAfterReleaseInFlight.UpstreamInterfaceState = UPSTREAM_INTERFACE_TX_SIZE_WAIT ∧
      sampleAfterReleaseInFlight.busyOf sampleAfterReleaseInFlight.CurrentWorkingPacket =
        some NOT_BUSY) ∧
    (Reachable Config.sample false Program.quiet (sampleAfterQueueTwo true) ∧
      (sampleAfterQueueTwo true).busyOf (sampleAfterQueueTwo true).NextTxPacket =
        some NOT_BUSY) ∧
    ¬ (∀ s, Reachable Config.sample false Program.quiet s → s.exclusive) := by
  have h1 : Reachable Config.sample false Program.quiet sampleAfterSubmitTwice :=
    Reachable.step 0 (Event.upper sampleSubmitTwice) _ _ (Reachable.boot false) rfl
  have h2 : Reachable Config.sample false Program.quiet sampleAfterReleaseInFlight :=
    Reachable.step 0 (Event.upper sampleReleaseInFlight) _ _ (Reachable.boot false) rfl
  have h3 : Reachable Config.sample false Program.quiet (sampleAfterQueueTwo true) :=
    Reachable.step 0 (Event.upper (sampleQueueTwo true)) _ _ (Reachable.boot false) rfl
  refine ⟨⟨h1, by decide, rfl⟩, ⟨h2, rfl, rfl⟩, ⟨h3, rfl⟩, ?_⟩
  intro hall
  exact (hall _ h1).1 (by decide) rfl

/-- C7, amended: exclusive ownership holds for upper layers that keep to the
loan discipline, that is, that never release a packet the link holds (the
queued packet, or the current packet of a transfer) and never submit the packet
under transmission once more. In every link such a program can bring about by
events from the link after `Upstream_InitSPI`, a queued packet is not the
current packet, and the queued packet and, in the seven transfer states, the
current packet are pool slots that are `BUSY`. -/
theorem exclusive_ownership (c : Config) (prog : Program) (s : Link)
    (h : Reachable c true prog s) :
    s.exclusive ∧
    (s.NextTxPacket ≠ PacketPtr.NULL → s.busyOf s.NextTxPacket = some BUSY) ∧
    (s.UpstreamInterfaceState.inTransfer = true →
      s.busyOf s.CurrentWorkingPacket = some BUSY) :=
  ⟨ownInv_exclusive s (reachable_ownInv c prog s h),
   (reachable_ownInv c prog s h).next_busy, (reachable_ownInv c prog s h).cur_busy⟩

theorem exclusive_ownership_witness :
    Reachable Config.sample true Program.quiet (sampleAfterQueueTwo false) ∧
    (sampleAfterQueueTwo false).exclusive :=
  ⟨Reachable.step 0 (Event.upper (sampleQueueTwo false)) _ _ (Reachable.boot false) rfl,
   (exclusive_ownership Config.sample Program.quiet (sampleAfterQueueTwo false)
     (Reachable.step 0 (Event.upper (sampleQueueTwo false)) _ _ (Reachable.boot false)
       rfl)).1⟩


/-! ## Single steps of the transmit sequence -/

theorem txOk_in_tx_size_wait (k : Hooks) (s : Link)
    (hal : ∀ a b n t, k.HAL_SPI_TransmitReceive_IT a b n t = HAL_OK)
    (hs : s.UpstreamInterfaceState = UPSTREAM_INTERFACE_TX_SIZE_WAIT) :
    Upstream_TxOkInterrupt k s =
      some { s with UpstreamInterfaceState := UPSTREAM_INTERFACE_TX_SIZE,
                    SPI1_NSS := true,
                    log := s.log ++ [Call.HAL_SPI_TransmitReceive_IT
                      (Buffer.Length16 s.CurrentWorkingPacket)
                      Buffer.TemporaryIncomingPacketLength 2] } := by
  have he : s.inError = false := (inError_eq_false_iff s).2 (by rw [hs]; simp)
  simp [Upstream_TxOkInterrupt, he, hs, Upstream_BeginTransmitPacketSize, startTransfer, hal,
    Link.logged]

theorem txOk_in_tx_packet_wait (k : Hooks) (s : Link) (pkt : UpstreamPacketTypeDef)
    (hal : ∀ a b n t, k.HAL_SPI_TransmitReceive_IT a b n t = HAL_OK)
    (hs : s.UpstreamInterfaceState = UPSTREAM_INTERFACE_TX_PACKET_WAIT)
    (hp : s.deref s.CurrentWorkingPacket = some pkt) :
    Upstream_TxOkInterrupt k s =
      some { s with UpstreamInterfaceState := UPSTREAM_INTERFACE_TX_PACKET,
                    SPI1_NSS := true,
                    log := s.log ++ [Call.HAL_SPI_TransmitReceive_IT
                      (Buffer.CommandClass s.CurrentWorkingPacket)
                      (Buffer.CommandClass s.CurrentWorkingPacket)
                      (if pkt.Length16 < 2 then 2 else pkt.Length16)] } := by
  have he : s.inError = false := (inError_eq_false_iff s).2 (by rw [hs]; simp)
  have hp1 : ({ s with UpstreamInterfaceState := UPSTREAM_INTERFACE_TX_PACKET,
                       SPI1_NSS := true } : Link).deref s.CurrentWorkingPacket = some pkt := by
    rw [← hp]; cases s.CurrentWorkingPacket <;> rfl
  simp [Upstream_TxOkInterrupt, he, hs, Upstream_BeginTransmitPacketBody, startTransfer, hal,
    Link.logged, hp1]

theorem spiProcess_in_tx_size (c : Config) (k : Hooks) (s : Link)
    (hs : s.UpstreamInterfaceState = UPSTREAM_INTERFACE_TX_SIZE)
    (hok : s.TxOkInterruptReceived = false) :
    Upstream_SPIProcess c k s =
      some { s with SPI1_NSS := false,
                    UpstreamInterfaceState := UPSTREAM_INTERFACE_TX_PACKET_WAIT } := by
  simp [Upstream_SPIProcess, Link.inError, InterfaceStateTypeDef.toNat, hs, hok]

theorem spiProcess_end_of_tx (c : Config) (k : Hooks) (s : Link)
    (hs : s.UpstreamInterfaceState = UPSTREAM_INTERFACE_TX_PACKET)
    (hnext : s.NextTxPacket = PacketPtr.NULL)
    (hwait : s.PendingFreePacketCallback = FreePacketCallbackTypeDef.NULL)
    (hrecv : s.ReceivePacketCallback = SpiPacketReceivedCallbackTypeDef.NULL) :
    Upstream_SPIProcess c k s =
      Upstream_ReleasePacket k s.CurrentWorkingPacket
        { s with SPI1_NSS := false, UpstreamInterfaceState := UPSTREAM_INTERFACE_IDLE } := by
  simp [Upstream_SPIProcess, Link.inError, InterfaceStateTypeDef.toNat, hs, hnext, hwait,
    hrecv]

theorem interruptSafe_after_completion (c : Config) (k : Hooks) (s : Link) :
    Upstream_SPIProcess_InterruptSafe c k (HAL_SPI_TxRxCpltCallback c s) =
      (Upstream_SPIProcess c k
        { s with SpiInterruptCompleted := false, BASEPRI := c.BASEPRI_USB }).map
        fun t => { t with BASEPRI := 0 } := by
  simp only [Upstream_SPIProcess_InterruptSafe, HAL_SPI_TxRxCpltCallback]
  generalize Upstream_SPIProcess c k _ = r
  cases r <;> simp

/-- C8: transmit-only round trip. Take a link in state IDLE with no ready edge
pending, no receive waiter, no free-packet waiter and nothing queued, and a
pool packet `p` that is `BUSY` with a valid length. If every transfer start
returns `HAL_OK`, then `Upstream_TransmitPacket p`, a ready edge, an SPI
completion, a ready edge and an SPI completion all return, the states after the
five steps are TX_SIZE_WAIT, TX_SIZE, TX_PACKET_WAIT, TX_PACKET and IDLE (so
never ERROR), and at the end `p` is `NOT_BUSY` and `NextTxPacket` is empty. An
SPI completion is `HAL_SPI_TxRxCpltCallback` followed by
`Upstream_SPIProcess_InterruptSafe`. -/
theorem tx_round_trip (c : Config) (k : Hooks) (s : Link) (p : PacketPtr)
    (pkt : UpstreamPacketTypeDef)
    (hal : ∀ a b n t, k.HAL_SPI_TransmitReceive_IT a b n t = HAL_OK)
    (hs : s.UpstreamInterfaceState = UPSTREAM_INTERFACE_IDLE)
    (hok : s.TxOkInterruptReceived = false)
    (hrecv : s.ReceivePacketCallback = SpiPacketReceivedCallbackTypeDef.NULL)
    (hwait : s.PendingFreePacketCallback = FreePacketCallbackTypeDef.NULL)
    (hnext : s.NextTxPacket = PacketPtr.NULL)
    (hp : s.deref p = some pkt) (hbusy : pkt.Busy = BUSY)
    (hmin : c.UPSTREAM_PACKET_LEN_MIN_16 ≤ pkt.Length16)
    (hmax : pkt.Length16 ≤ c.UPSTREAM_PACKET_LEN_16) :
    ∃ s1 s2 s3 s4 s5,
      Upstream_TransmitPacket c k p s = some (s1, HAL_OK) ∧
      s1.UpstreamInterfaceState = UPSTREAM_INTERFACE_TX_SIZE_WAIT ∧
      Upstream_TxOkInterrupt k s1 = some s2 ∧
      s2.UpstreamInterfaceState = UPSTREAM_INTERFACE_TX_SIZE ∧
      Upstream_SPIProcess_InterruptSafe c k (HAL_SPI_TxRxCpltCallback c s2) = some s3 ∧
      s3.UpstreamInterfaceState = UPSTREAM_INTERFACE_TX_PACKET_WAIT ∧
      Upstream_TxOkInterrupt k s3 = some s4 ∧
      s4.UpstreamInterfaceState = UPSTREAM_INTERFACE_TX_PACKET ∧
      Upstream_SPIProcess_InterruptSafe c k (HAL_SPI_TxRxCpltCallback c s4) = some s5 ∧
      s5.UpstreamInterfaceState = UPSTREAM_INTERFACE_IDLE ∧
      s5.busyOf p = some NOT_BUSY ∧
      s5.NextTxPacket = PacketPtr.NULL := by
  have he : s.inError = false := (inError_eq_false_iff s).2 (by rw [hs]; simp)
  have h1 := transmit_pool c k p s pkt he hp
  rw [if_neg (by simp [hbusy]; omega), if_neg (by simp [hnext]),
    if_neg (by rw [hs]; decide), if_pos hs] at h1
  dsimp only at h1
  rw [if_neg (by simp [hok])] at h1
  have hd : ∀ t : Link, t.UpstreamPacket0 = s.UpstreamPacket0 →
      t.UpstreamPacket1 = s.UpstreamPacket1 → t.deref p = some pkt := by
    intro t g0 g1
    cases p <;> simp [Link.deref] at hp ⊢ <;> simp [g0, g1, hp]
  cases p
  case NULL => simp [Link.deref] at hp
  case foreign => simp [Link.deref] at hp
  all_goals
    apply Exists.intro
    apply Exists.intro
    apply Exists.intro
    apply Exists.intro
    apply Exists.intro
    refine ⟨h1, rfl, txOk_in_tx_size_wait k _ hal rfl, rfl, ?_, ?_⟩
    · rw [interruptSafe_after_completion, spiProcess_in_tx_size c k _ ?_ ?_]
      · rfl
      · rfl
      · exact hok
    refine ⟨rfl, txOk_in_tx_packet_wait k _ pkt hal rfl (hd _ rfl rfl), rfl, ?_, ?_⟩
    · rw [interruptSafe_after_completion,
        spiProcess_end_of_tx c k _ ?_ ?_ ?_ ?_]
      · simp only [Upstream_ReleasePacket, Link.inError, InterfaceStateTypeDef.toNat, hwait]
        simp [Link.store]
        rfl
      · rfl
      · exact hnext
      · exact hwait
      · exact hrecv
    simp [hnext]

theorem tx_round_trip_witness :
    ∃ s1 s2 s3 s4 s5,
      Upstream_TransmitPacket Config.sample Hooks.quiet PacketPtr.UpstreamPacket0 sampleLoan =
        some (s1, HAL_OK) ∧
      s1.UpstreamInterfaceState = UPSTREAM_INTERFACE_TX_SIZE_WAIT ∧
      Upstream_TxOkInterrupt Hooks.quiet s1 = some s2 ∧
      s2.UpstreamInterfaceState = UPSTREAM_INTERFACE_TX_SIZE ∧
      Upstream_SPIProcess_InterruptSafe Config.sample Hooks.quiet
        (HAL_SPI_TxRxCpltCallback Config.sample s2) = some s3 ∧
      s3.UpstreamInterfaceState = UPSTREAM_INTERFACE_TX_PACKET_WAIT ∧
      Upstream_TxOkInterrupt Hooks.quiet s3 = some s4 ∧
      s4.UpstreamInterfaceState = UPSTREAM_INTERFACE_TX_PACKET ∧
      Upstream_SPIProcess_InterruptSafe Config.sample Hooks.quiet
        (HAL_SPI_TxRxCpltCallback Config.sample s4) = some s5 ∧
      s5.UpstreamInterfaceState = UPSTREAM_INTERFACE_IDLE ∧
      s5.busyOf PacketPtr.UpstreamPacket0 = some NOT_BUSY ∧
      s5.NextTxPacket = PacketPtr.NULL :=
  tx_round_trip Config.sample Hooks.quiet sampleLoan PacketPtr.UpstreamPacket0 ⟨BUSY, 4, 16, 1⟩
    (fun _ _ _ _ => rfl) rfl rfl rfl rfl rfl rfl rfl (by decide) (by decide)

theorem spiProcess_next_queued (c : Config) (k : Hooks) (s : Link)
    (next : UpstreamPacketTypeDef)
    (hs : s.UpstreamInterfaceState = UPSTREAM_INTERFACE_TX_PACKET)
    (hd : s.deref s.NextTxPacket = some next)
    (hok : s.TxOkInterruptReceived = false) :
    Upstream_SPIProcess c k s =
      Upstream_ReleasePacket k s.CurrentWorkingPacket
        { s with SPI1_NSS := false,
                 UpstreamInterfaceState := UPSTREAM_INTERFACE_TX_SIZE_WAIT,
                 CurrentWorkingPacket := s.NextTxPacket,
                 NextTxPacket := PacketPtr.NULL,
                 SentCommandClass := next.CommandClass,
                 SentCommand := next.Command } := by
  cases hn : s.NextTxPacket <;> simp [hn, Link.deref] at hd <;>
    simp [Upstream_SPIProcess, Link.inError, InterfaceStateTypeDef.toNat, hs, hn, hok,
      Link.deref, hd]

/-- C9: back-to-back transmit queue. Take a link in state TX_PACKET that is
transmitting the pool packet `p`, with nothing queued and no ready edge
pending, and another pool packet `q` that is `BUSY` with a valid length.
`Upstream_TransmitPacket q` returns `HAL_OK` and changes nothing but
`NextTxPacket`, which becomes `q` (the state stays TX_PACKET). The SPI
completion processing that follows makes `q` the current packet, empties
`NextTxPacket`, copies the class and command of `q` into the snapshot, sets the
state to TX_SIZE_WAIT without starting a transfer, and then releases `p`: with
no free-packet waiter `p` becomes `NOT_BUSY` (and `q` stays `BUSY`); with a
waiter the waiter slot is cleared and the waiter is called with `p` on exactly
that link. -/
theorem back_to_back_transmit (c : Config) (k : Hooks) (s : Link) (p q : PacketPtr)
    (pktq : UpstreamPacketTypeDef)
    (hs : s.UpstreamInterfaceState = UPSTREAM_INTERFACE_TX_PACKET)
    (hcur : s.CurrentWorkingPacket = p) (hp : p.isPool = true)
    (hnext : s.NextTxPacket = PacketPtr.NULL)
    (hok : s.TxOkInterruptReceived = false)
    (hq : s.deref q = some pktq) (hbusy : pktq.Busy = BUSY)
    (hmin : c.UPSTREAM_PACKET_LEN_MIN_16 ≤ pktq.Length16)
    (hmax : pktq.Length16 ≤ c.UPSTREAM_PACKET_LEN_16)
    (hne : q ≠ p) :
    Upstream_TransmitPacket c k q s = some ({ s with NextTxPacket := q }, HAL_OK) ∧
    (s.PendingFreePacketCallback = FreePacketCallbackTypeDef.NULL →
      ∃ s2, Upstream_SPIProcess c k { s with NextTxPacket := q } = some s2 ∧
        s2.UpstreamInterfaceState = UPSTREAM_INTERFACE_TX_SIZE_WAIT ∧
        s2.CurrentWorkingPacket = q ∧ s2.NextTxPacket = PacketPtr.NULL ∧
        s2.SentCommandClass = pktq.CommandClass ∧ s2.SentCommand = pktq.Command ∧
        s2.busyOf p = some NOT_BUSY ∧ s2.busyOf q = some BUSY ∧ s2.log = s.log) ∧
    (s.PendingFreePacketCallback ≠ FreePacketCallbackTypeDef.NULL →
      Upstream_SPIProcess c k { s with NextTxPacket := q } =
        callFreePacketCallback k s.PendingFreePacketCallback p
          { s with SPI1_NSS := false,
                   UpstreamInterfaceState := UPSTREAM_INTERFACE_TX_SIZE_WAIT,
                   CurrentWorkingPacket := q,
                   NextTxPacket := PacketPtr.NULL,
                   SentCommandClass := pktq.CommandClass,
                   SentCommand := pktq.Command,
                   PendingFreePacketCallback := FreePacketCallbackTypeDef.NULL }) := by
  have he : s.inError = false := (inError_eq_false_iff s).2 (by rw [hs]; simp)
  have h1 := transmit_pool c k q s pktq he hq
  rw [if_neg (by simp [hbusy]; omega), if_neg (by simp [hnext]),
    if_pos (by rw [hs]; rfl)] at h1
  have hd : ({ s with NextTxPacket := q } : Link).deref
      ({ s with NextTxPacket := q } : Link).NextTxPacket = some pktq := by
    rw [← hq]; cases q <;> rfl
  have h2 := spiProcess_next_queued c k { s with NextTxPacket := q } pktq hs hd hok
  refine ⟨h1, ?_, ?_⟩
  · intro hw
    rw [h2]
    subst hcur
    cases hc : s.CurrentWorkingPacket <;> simp [hc, PacketPtr.isPool] at hp <;>
      cases q <;> simp [Link.deref] at hq <;>
      simp_all [Upstream_ReleasePacket, Link.inError, InterfaceStateTypeDef.toNat, Link.store]
  · intro hw
    rw [h2]
    subst hcur
    cases hc : s.CurrentWorkingPacket <;> simp [hc, PacketPtr.isPool] at hp <;>
      simp [Upstream_ReleasePacket, Link.inError, InterfaceStateTypeDef.toNat, hw, hc]

theorem back_to_back_transmit_witness :
    Upstream_TransmitPacket Config.sample Hooks.quiet PacketPtr.UpstreamPacket1
        sampleInBody =
      some ({ sampleInBody with NextTxPacket := PacketPtr.UpstreamPacket1 }, HAL_OK) :=
  (back_to_back_transmit Config.sample Hooks.quiet sampleInBody PacketPtr.UpstreamPacket0
    PacketPtr.UpstreamPacket1 ⟨BUSY, 5, 16, 2⟩ rfl rfl rfl rfl rfl rfl rfl (by decide)
    (by decide) (by decide)).1

/-- C10, as stated, fails: in state TX_PACKET with nothing queued and a
free-packet waiter registered (both slots on loan), SPI completion processing
drives the link to ERROR, calls nobody and leaves the transmitted packet
`BUSY`. The link also ends in ERROR, with the packet still `BUSY`, when a
receive waiter is registered, a ready edge is pending and the HAL refuses the
transfer start, and it ends in ERROR when `CurrentWorkingPacket` is not a pool
slot. -/
theorem end_of_tx_counterexample :
    (sampleTxWaiting.UpstreamInterfaceState = UPSTREAM_INTERFACE_TX_PACKET ∧
      sampleTxWaiting.NextTxPacket = PacketPtr.NULL ∧
      Upstream_SPIProcess Config.sample Hooks.quiet sampleTxWaiting =
        some { sampleTxWaiting with UpstreamInterfaceState := UPSTREAM_INTERFACE_ERROR }) ∧
    (∃ s1, Upstream_SPIProcess Config.sample Hooks.halBusy (sampleTxReply true false) =
        some s1 ∧ s1.UpstreamInterfaceState = UPSTREAM_INTERFACE_ERROR ∧
        s1.busyOf PacketPtr.UpstreamPacket0 = some BUSY) ∧
    (∃ s1, Upstream_SPIProcess Config.sample Hooks.quiet
        { sampleInBody with CurrentWorkingPacket := PacketPtr.NULL } = some s1 ∧
        s1.UpstreamInterfaceState = UPSTREAM_INTERFACE_ERROR) ∧
    ¬ (∀ s : Link, s.UpstreamInterfaceState = UPSTREAM_INTERFACE_TX_PACKET →
        s.NextTxPacket = PacketPtr.NULL →
        ∃ s1, Upstream_SPIProcess Config.sample Hooks.quiet s = some s1 ∧
          s1.UpstreamInterfaceState ≠ UPSTREAM_INTERFACE_ERROR) := by
  refine ⟨⟨rfl, rfl, rfl⟩, ⟨_, rfl, rfl, rfl⟩, ⟨_, rfl, rfl⟩, ?_⟩
  intro hall
  obtain ⟨s1, h1, h2⟩ := hall sampleTxWaiting rfl rfl
  have h3 : Upstream_SPIProcess Config.sample Hooks.quiet sampleTxWaiting =
      some { sampleTxWaiting with UpstreamInterfaceState := UPSTREAM_INTERFACE_ERROR } := rfl
  rw [h3] at h1
  cases h1
  exact h2 rfl

/-- C10, amended: end of TX_PACKET with nothing queued. Take a link in state
TX_PACKET with `NextTxPacket` empty whose current packet `p` is a pool slot,
and let every transfer start return `HAL_OK`. If a free-packet waiter is
registered, SPI completion processing drives the link to ERROR and nothing is
released. If none is registered: with no receive waiter the link re-enters
IDLE and `p` becomes `NOT_BUSY`; with a receive waiter reception is initiated,
the link ends in RX_SIZE_WAIT, or in RX_SIZE when a ready edge was pending, and
`p` is released: it becomes `NOT_BUSY`, or, when a ready edge was pending and
both slots were on loan, it is handed through the waiter slot to the link's own
`Upstream_BeginReceivePacketSize` and becomes the receive buffer. In neither
case does the link enter ERROR. -/
theorem end_of_tx_nothing_queued (c : Config) (k : Hooks) (s : Link) (p : PacketPtr)
    (hal : ∀ a b n t, k.HAL_SPI_TransmitReceive_IT a b n t = HAL_OK)
    (hs : s.UpstreamInterfaceState = UPSTREAM_INTERFACE_TX_PACKET)
    (hnext : s.NextTxPacket = PacketPtr.NULL)
    (hcur : s.CurrentWorkingPacket = p) (hp : p.isPool = true) :
    (s.PendingFreePacketCallback ≠ FreePacketCallbackTypeDef.NULL →
      Upstream_SPIProcess c k s =
        some { s with SPI1_NSS := false,
                      UpstreamInterfaceState := UPSTREAM_INTERFACE_ERROR }) ∧
    (s.PendingFreePacketCallback = FreePacketCallbackTypeDef.NULL →
      s.ReceivePacketCallback = SpiPacketReceivedCallbackTypeDef.NULL →
      ∃ s1, Upstream_SPIProcess c k s = some s1 ∧
        s1.UpstreamInterfaceState = UPSTREAM_INTERFACE_IDLE ∧
        s1.busyOf p = some NOT_BUSY ∧ s1.log = s.log) ∧
    (s.PendingFreePacketCallback = FreePacketCallbackTypeDef.NULL →
      s.ReceivePacketCallback ≠ SpiPacketReceivedCallbackTypeDef.NULL →
      s.TxOkInterruptReceived = false →
      ∃ s1, Upstream_SPIProcess c k s = some s1 ∧
        s1.UpstreamInterfaceState = UPSTREAM_INTERFACE_RX_SIZE_WAIT ∧
        s1.busyOf p = some NOT_BUSY ∧ s1.log = s.log) ∧
    (s.PendingFreePacketCallback = FreePacketCallbackTypeDef.NULL →
      s.ReceivePacketCallback ≠ SpiPacketReceivedCallbackTypeDef.NULL →
      s.TxOkInterruptReceived = true →
      ∃ s1, Upstream_SPIProcess c k s = some s1 ∧
        s1.UpstreamInterfaceState = UPSTREAM_INTERFACE_RX_SIZE ∧
        s1.TxOkInterruptReceived = false ∧
        (s1.busyOf p = some NOT_BUSY ∨
          (s.UpstreamPacket0.Busy = BUSY ∧ s.UpstreamPacket1.Busy = BUSY ∧
            s1.CurrentWorkingPacket = p ∧ s1.busyOf p = some BUSY ∧
            Call.freePacketCallback
              FreePacketCallbackTypeDef.Upstream_BeginReceivePacketSize p ∈ s1.log))) := by
  subst hcur
  refine ⟨?_, ?_, ?_, ?_⟩
  · intro hw
    simp [Upstream_SPIProcess, Link.inError, InterfaceStateTypeDef.toNat, hs, hw, hnext,
      UPSTREAM_SPI_FREAKOUT]
  · intro hw hr
    rw [spiProcess_end_of_tx c k s hs hnext hw hr]
    cases hc : s.CurrentWorkingPacket <;> simp [hc, PacketPtr.isPool] at hp <;>
      simp [Upstream_ReleasePacket, Link.inError, InterfaceStateTypeDef.toNat, hw,
        Link.store]
  · intro hw hr hok
    cases hc : s.CurrentWorkingPacket <;> simp [hc, PacketPtr.isPool] at hp <;>
      simp [Upstream_SPIProcess, Upstream_CheckBeginPacketReception, Upstream_ReleasePacket,
        Link.inError, InterfaceStateTypeDef.toNat, hs, hw, hnext, hr, hok, Link.store, hc]
  · intro hw hr hok
    cases hc : s.CurrentWorkingPacket <;> simp [hc, PacketPtr.isPool] at hp <;>
      cases h0 : s.UpstreamPacket0.Busy <;> cases h1 : s.UpstreamPacket1.Busy <;>
      simp [Upstream_SPIProcess, Upstream_CheckBeginPacketReception, Upstream_ReleasePacket,
        Upstream_GetFreePacket, callFreePacketCallback, Upstream_BeginReceivePacketSize,
        startTransfer, hal, Link.logged, UPSTREAM_SPI_FREAKOUT,
        Link.inError, InterfaceStateTypeDef.toNat, hs, hw, hnext, hr, hok, Link.store, hc,
        h0, h1]

theorem end_of_tx_nothing_queued_witness :
    ∃ s1, Upstream_SPIProcess Config.sample Hooks.quiet (sampleTxReply true true) = some s1 ∧
      s1.UpstreamInterfaceState = UPSTREAM_INTERFACE_RX_SIZE ∧
      s1.TxOkInterruptReceived = false ∧
      (s1.busyOf PacketPtr.UpstreamPacket0 = some NOT_BUSY ∨
        ((sampleTxReply true true).UpstreamPacket0.Busy = BUSY ∧
          (sampleTxReply true true).UpstreamPacket1.Busy = BUSY ∧
          s1.CurrentWorkingPacket = PacketPtr.UpstreamPacket0 ∧
          s1.busyOf PacketPtr.UpstreamPacket0 = some BUSY ∧
          Call.freePacketCallback FreePacketCallbackTypeDef.Upstream_BeginReceivePacketSize
            PacketPtr.UpstreamPacket0 ∈ s1.log)) :=
  (end_of_tx_nothing_queued Config.sample Hooks.quiet (sampleTxReply true true)
    PacketPtr.UpstreamPacket0 (fun _ _ _ _ => rfl) rfl rfl rfl rfl).2.2.2 rfl (by decide) rfl

/-! ## Registering a receive waiter -/

/-- A request for a free packet on behalf of the link's own
`Upstream_BeginReceivePacketSize` always returns. -/
theorem getFreePacket_own_total (k : Hooks) (s : Link) :
    ∃ r, Upstream_GetFreePacket k FreePacketCallbackTypeDef.Upstream_BeginReceivePacketSize s =
      some r := by
  unfold Upstream_GetFreePacket
  split_ifs <;>
    simp [callFreePacketCallback, Upstream_BeginReceivePacketSize, Link.store, Link.logged] <;>
    split_ifs <;> simp

/-! ## SPI errors -/

theorem getFreePacket_in_error (k : Hooks) (cb : FreePacketCallbackTypeDef) (s : Link)
    (h : s.UpstreamInterfaceState = UPSTREAM_INTERFACE_ERROR) :
    Upstream_GetFreePacket k cb s = some (s, HAL_ERROR) := by
  simp [Upstream_GetFreePacket, (inError_iff s).2 h]

theorem getFreePacketImmediately_in_error (s : Link)
    (h : s.UpstreamInterfaceState = UPSTREAM_INTERFACE_ERROR) :
    Upstream_GetFreePacketImmediately s = (s, PacketPtr.NULL) := by
  simp [Upstream_GetFreePacketImmediately, (inError_iff s).2 h]

theorem transmit_in_error (c : Config) (k : Hooks) (p : PacketPtr) (s : Link)
    (h : s.UpstreamInterfaceState = UPSTREAM_INTERFACE_ERROR) :
    Upstream_TransmitPacket c k p s = some (s, HAL_ERROR) := by
  simp [Upstream_TransmitPacket, (inError_iff s).2 h]

theorem receive_in_error (k : Hooks) (cb : SpiPacketReceivedCallbackTypeDef) (s : Link)
    (h : s.UpstreamInterfaceState = UPSTREAM_INTERFACE_ERROR) :
    Upstream_ReceivePacket k cb s = some (s, HAL_ERROR) := by
  simp [Upstream_ReceivePacket, (inError_iff s).2 h]

theorem scriptRun_error (c : Config) (careful : Bool) (k : Hooks) (code : Script) :
    ∀ s s1 : Link, s.UpstreamInterfaceState = UPSTREAM_INTERFACE_ERROR →
      Script.run c careful k code s = some s1 →
      s1.UpstreamInterfaceState = UPSTREAM_INTERFACE_ERROR := by
  induction code with
  | done => intro s s1 h hr; cases hr; exact h
  | Upstream_GetFreePacket cb next ih =>
    intro s s1 h hr
    simp only [Script.run] at hr
    rw [getFreePacket_in_error k cb s h] at hr
    exact ih _ s s1 h hr
  | Upstream_GetFreePacketImmediately next ih =>
    intro s s1 h hr
    simp only [Script.run] at hr
    rw [getFreePacketImmediately_in_error s h] at hr
    exact ih _ s s1 h hr
  | Upstream_ReleasePacket p next ih =>
    intro s s1 h hr
    rw [scriptRun_release, release_in_error k p s h] at hr
    split_ifs at hr
    exact ih s s1 h hr
  | Upstream_TransmitPacket p next ih =>
    intro s s1 h hr
    rw [scriptRun_transmit, transmit_in_error c k p s h] at hr
    split_ifs at hr
    exact ih _ s s1 h hr
  | Upstream_ReceivePacket cb next ih =>
    intro s s1 h hr
    simp only [Script.run] at hr
    rw [receive_in_error k cb s h] at hr
    exact ih _ s s1 h hr
  | fill p l cc cmd next ih =>
    intro s s1 h hr
    simp only [Script.run] at hr
    refine ih _ s1 ?_ hr
    cases p <;> exact h
  | look next ih =>
    intro s s1 h hr
    simp only [Script.run] at hr
    exact ih s s s1 h hr

theorem scriptRun_error_total (c : Config) (k : Hooks) (code : Script) :
    ∀ s : Link, s.UpstreamInterfaceState = UPSTREAM_INTERFACE_ERROR →
      ∃ s1, Script.run c false k code s = some s1 := by
  induction code with
  | done => intro s _; exact ⟨s, rfl⟩
  | Upstream_GetFreePacket cb next ih =>
    intro s h
    simp only [Script.run]
    rw [getFreePacket_in_error k cb s h]
    exact ih _ s h
  | Upstream_GetFreePacketImmediately next ih =>
    intro s h
    simp only [Script.run]
    rw [getFreePacketImmediately_in_error s h]
    exact ih _ s h
  | Upstream_ReleasePacket p next ih =>
    intro s h
    rw [scriptRun_release, release_in_error k p s h]
    simpa using ih s h
  | Upstream_TransmitPacket p next ih =>
    intro s h
    rw [scriptRun_transmit, transmit_in_error c k p s h]
    simpa using ih _ s h
  | Upstream_ReceivePacket cb next ih =>
    intro s h
    simp only [Script.run]
    rw [receive_in_error k cb s h]
    exact ih _ s h
  | fill p l cc cmd next ih =>
    intro s h
    simp only [Script.run]
    refine ih _ ?_
    cases p <;> exact h
  | look next ih =>
    intro s h
    simp only [Script.run]
    exact ih s s h

theorem errorCallback_no_waiter (k : Hooks) (s : Link)
    (he : s.UpstreamInterfaceState ≠ UPSTREAM_INTERFACE_ERROR)
    (hr : s.ReceivePacketCallback = SpiPacketReceivedCallbackTypeDef.NULL) :
    HAL_SPI_ErrorCallback k s =
      some { s with UpstreamInterfaceState := UPSTREAM_INTERFACE_ERROR } := by
  simp [HAL_SPI_ErrorCallback, (inError_eq_false_iff s).2 he, hr, UPSTREAM_SPI_FREAKOUT]

theorem errorCallback_waiter (k : Hooks) (s : Link) (id : Nat)
    (he : s.UpstreamInterfaceState ≠ UPSTREAM_INTERFACE_ERROR)
    (hr : s.ReceivePacketCallback = SpiPacketReceivedCallbackTypeDef.app id) :
    HAL_SPI_ErrorCallback k s =
      k.packetReceivedCallback id PacketPtr.NULL
        { s with UpstreamInterfaceState := UPSTREAM_INTERFACE_ERROR,
                 ReceivePacketCallback := SpiPacketReceivedCallbackTypeDef.NULL,
                 log := s.log ++ [Call.packetReceivedCallback
                   (SpiPacketReceivedCallbackTypeDef.app id) PacketPtr.NULL] } := by
  simp [HAL_SPI_ErrorCallback, (inError_eq_false_iff s).2 he, hr, UPSTREAM_SPI_FREAKOUT,
    callPacketReceivedCallback, Link.logged]

/-- C14: SPI error outside ERROR. With no receive waiter registered,
`HAL_SPI_ErrorCallback` only sets the state to ERROR and calls nobody (the log
of outside calls is unchanged). With the waiter `app id` registered, the waiter
slot is cleared, the state is set to ERROR and the waiter is called once with
`NULL`, on exactly that link; the result is what the waiter returns. When the
callbacks are code of the upper layers (trees of public API calls, nested to
any depth) the waiter returns and the link is in ERROR whenever the handler
returns, and from then on each of the five public API calls fails and leaves
the link as it is. -/
theorem spi_error (k : Hooks) (s : Link)
    (he : s.UpstreamInterfaceState ≠ UPSTREAM_INTERFACE_ERROR) :
    (s.ReceivePacketCallback = SpiPacketReceivedCallbackTypeDef.NULL →
      HAL_SPI_ErrorCallback k s =
        some { s with UpstreamInterfaceState := UPSTREAM_INTERFACE_ERROR }) ∧
    (∀ id, s.ReceivePacketCallback = SpiPacketReceivedCallbackTypeDef.app id →
      HAL_SPI_ErrorCallback k s =
        k.packetReceivedCallback id PacketPtr.NULL
          { s with UpstreamInterfaceState := UPSTREAM_INTERFACE_ERROR,
                   ReceivePacketCallback := SpiPacketReceivedCallbackTypeDef.NULL,
                   log := s.log ++ [Call.packetReceivedCallback
                     (SpiPacketReceivedCallbackTypeDef.app id) PacketPtr.NULL] }) ∧
    (∀ c prog depth, ∃ s1,
      HAL_SPI_ErrorCallback (Program.hooks c false prog (depth + 1)) s = some s1) ∧
    (∀ c careful prog depth s1,
      HAL_SPI_ErrorCallback (Program.hooks c careful prog depth) s = some s1 →
      s1.UpstreamInterfaceState = UPSTREAM_INTERFACE_ERROR ∧
      ∀ (c2 : Config) (k2 : Hooks),
        (∀ callback, Upstream_GetFreePacket k2 callback s1 = some (s1, HAL_ERROR)) ∧
        Upstream_GetFreePacketImmediately s1 = (s1, PacketPtr.NULL) ∧
        (∀ p, Upstream_ReleasePacket k2 p s1 = some s1) ∧
        (∀ p, Upstream_TransmitPacket c2 k2 p s1 = some (s1, HAL_ERROR)) ∧
        (∀ callback, Upstream_ReceivePacket k2 callback s1 = some (s1, HAL_ERROR))) := by
  refine ⟨errorCallback_no_waiter k s he, fun id => errorCallback_waiter k s id he, ?_, ?_⟩
  · intro c prog depth
    cases hr : s.ReceivePacketCallback with
    | NULL => exact ⟨_, errorCallback_no_waiter _ s he hr⟩
    | app id =>
      rw [errorCallback_waiter _ s id he hr]
      exact scriptRun_error_total c _ _ _ rfl
  · intro c careful prog depth s1 h1
    have hs1 : s1.UpstreamInterfaceState = UPSTREAM_INTERFACE_ERROR := by
      cases hr : s.ReceivePacketCallback with
      | NULL =>
        rw [errorCallback_no_waiter _ s he hr] at h1
        cases h1; rfl
      | app id =>
        rw [errorCallback_waiter _ s id he hr] at h1
        cases depth with
        | zero => simp [Program.hooks] at h1
        | succ n => exact scriptRun_error c careful _ _ _ s1 rfl h1
    refine ⟨hs1, ?_⟩
    intro c2 k2
    exact ⟨fun cb => getFreePacket_in_error k2 cb s1 hs1,
      getFreePacketImmediately_in_error s1 hs1, fun p => release_in_error k2 p s1 hs1,
      fun p => transmit_in_error c2 k2 p s1 hs1, fun cb => receive_in_error k2 cb s1 hs1⟩

theorem spi_error_witness :
    HAL_SPI_ErrorCallback Hooks.quiet (sampleInReply 16 1) =
      some { sampleInReply 16 1 with
        UpstreamInterfaceState := UPSTREAM_INTERFACE_ERROR
        ReceivePacketCallback := SpiPacketReceivedCallbackTypeDef.NULL
        log := [Call.packetReceivedCallback (SpiPacketReceivedCallbackTypeDef.app 5)
          PacketPtr.NULL] } :=
  (spi_error Hooks.quiet (sampleInReply 16 1) (by decide)).2.1 5 rfl

/-! ## Completion of a reply -/

theorem receivePacket_idle_ok (k : Hooks) (cb : SpiPacketReceivedCallbackTypeDef) (s : Link)
    (hs : s.UpstreamInterfaceState = UPSTREAM_INTERFACE_IDLE)
    (hr : s.ReceivePacketCallback = SpiPacketReceivedCallbackTypeDef.NULL) :
    ∃ s1, Upstream_ReceivePacket k cb s = some (s1, HAL_OK) := by
  cases hok : s.TxOkInterruptReceived
  · simp [Upstream_ReceivePacket, Upstream_CheckBeginPacketReception, hr, hs, hok,
      Link.inError, InterfaceStateTypeDef.toNat]
  · obtain ⟨r2, h2⟩ := getFreePacket_own_total k
      { s with ReceivePacketCallback := cb,
               UpstreamInterfaceState := UPSTREAM_INTERFACE_RX_SIZE_WAIT,
               TxOkInterruptReceived := false }
    simp [Upstream_ReceivePacket, Upstream_CheckBeginPacketReception, hr, hs, hok,
      Link.inError, InterfaceStateTypeDef.toNat, h2]

theorem spiProcess_reply_delivered (c : Config) (k : Hooks) (s : Link)
    (pkt : UpstreamPacketTypeDef) (id : Nat)
    (hs : s.UpstreamInterfaceState = UPSTREAM_INTERFACE_RX_PACKET)
    (hrecv : s.ReceivePacketCallback = SpiPacketReceivedCallbackTypeDef.app id)
    (hd : s.deref s.CurrentWorkingPacket = some pkt)
    (hnd : ¬ (pkt.CommandClass = c.COMMAND_CLASS_ERROR ∧
      pkt.Command = c.COMMAND_ERROR_DEVICE_DISCONNECTED))
    (hcls : pkt.CommandClass &&& c.COMMAND_CLASS_MASK =
      s.SentCommandClass &&& c.COMMAND_CLASS_MASK)
    (hcmd : pkt.Command = s.SentCommand) :
    Upstream_SPIProcess c k s =
      k.packetReceivedCallback id s.CurrentWorkingPacket
        { s with SPI1_NSS := false,
                 UpstreamInterfaceState := UPSTREAM_INTERFACE_IDLE,
                 ReceivePacketCallback := SpiPacketReceivedCallbackTypeDef.NULL,
                 log := s.log ++ [Call.packetReceivedCallback
                   (SpiPacketReceivedCallbackTypeDef.app id) s.CurrentWorkingPacket] } := by
  cases hc : s.CurrentWorkingPacket <;> simp [hc, Link.deref] at hd <;>
    subst hd <;>
    simp [Upstream_SPIProcess, Link.inError, InterfaceStateTypeDef.toNat, hs, hrecv, hc,
      Link.deref, hnd, hcls, hcmd, callPacketReceivedCallback, Link.logged] <;>
    intro h1 h2 <;> exact absurd ⟨h1, hcmd.trans h2⟩ hnd

theorem spiProcess_reply_mismatch (c : Config) (k : Hooks) (s : Link)
    (pkt : UpstreamPacketTypeDef) (id : Nat)
    (hs : s.UpstreamInterfaceState = UPSTREAM_INTERFACE_RX_PACKET)
    (hrecv : s.ReceivePacketCallback = SpiPacketReceivedCallbackTypeDef.app id)
    (hd : s.deref s.CurrentWorkingPacket = some pkt)
    (hnd : ¬ (pkt.CommandClass = c.COMMAND_CLASS_ERROR ∧
      pkt.Command = c.COMMAND_ERROR_DEVICE_DISCONNECTED))
    (hmis : pkt.CommandClass &&& c.COMMAND_CLASS_MASK ≠
        s.SentCommandClass &&& c.COMMAND_CLASS_MASK ∨
      pkt.Command ≠ s.SentCommand) :
    Upstream_SPIProcess c k s =
      k.packetReceivedCallback id PacketPtr.NULL
        { s with SPI1_NSS := false,
                 UpstreamInterfaceState := UPSTREAM_INTERFACE_ERROR,
                 CurrentWorkingPacket := PacketPtr.NULL,
                 ReceivePacketCallback := SpiPacketReceivedCallbackTypeDef.NULL,
                 log := s.log ++ [Call.packetReceivedCallback
                   (SpiPacketReceivedCallbackTypeDef.app id) PacketPtr.NULL] } := by
  have hdis : ∀ x : UpstreamPacketTypeDef, x = pkt →
      ¬ (x.CommandClass = c.COMMAND_CLASS_ERROR ∧
        x.Command = c.COMMAND_ERROR_DEVICE_DISCONNECTED) := by
    intro x hx; rw [hx]; exact hnd
  have hm : ∀ x : UpstreamPacketTypeDef, x = pkt →
      (x.CommandClass &&& c.COMMAND_CLASS_MASK ≠
        s.SentCommandClass &&& c.COMMAND_CLASS_MASK ∨ x.Command ≠ s.SentCommand) := by
    intro x hx; rw [hx]; exact hmis
  cases hc : s.CurrentWorkingPacket <;> simp [hc, Link.deref] at hd
  · simp only [Upstream_SPIProcess, Link.inError, InterfaceStateTypeDef.toNat, hs, hrecv, hc,
      Link.deref]
    simp [if_neg (hdis _ hd), if_pos (hm _ hd), Upstream_ReleasePacket, UPSTREAM_SPI_FREAKOUT,
      Link.inError, InterfaceStateTypeDef.toNat, callPacketReceivedCallback, Link.logged]
  · simp only [Upstream_SPIProcess, Link.inError, InterfaceStateTypeDef.toNat, hs, hrecv, hc,
      Link.deref]
    simp [if_neg (hdis _ hd), if_pos (hm _ hd), Upstream_ReleasePacket, UPSTREAM_SPI_FREAKOUT,
      Link.inError, InterfaceStateTypeDef.toNat, callPacketReceivedCallback, Link.logged]

/-- C11: successful reply delivery. Take a link in state RX_PACKET with the
receive waiter `app id` registered, whose current packet `p` holds a reply
that is not the disconnect code and whose masked class and command match the
snapshot of the last transmit. SPI completion processing calls the waiter once
with `p`, as its last action, on the link `t` in which the state is already
IDLE and `ReceivePacketCallback` is already `NULL`; the packet is untouched
(so still `BUSY`), and on that link `Upstream_ReceivePacket`, with any
callback and in any surroundings, returns `HAL_OK`. -/
theorem reply_delivered (c : Config) (k : Hooks) (s : Link) (p : PacketPtr)
    (pkt : UpstreamPacketTypeDef) (id : Nat)
    (hs : s.UpstreamInterfaceState = UPSTREAM_INTERFACE_RX_PACKET)
    (hrecv : s.ReceivePacketCallback = SpiPacketReceivedCallbackTypeDef.app id)
    (hcur : s.CurrentWorkingPacket = p)
    (hd : s.deref p = some pkt)
    (hnd : ¬ (pkt.CommandClass = c.COMMAND_CLASS_ERROR ∧
      pkt.Command = c.COMMAND_ERROR_DEVICE_DISCONNECTED))
    (hcls : pkt.CommandClass &&& c.COMMAND_CLASS_MASK =
      s.SentCommandClass &&& c.COMMAND_CLASS_MASK)
    (hcmd : pkt.Command = s.SentCommand) :
    ∃ t, Upstream_SPIProcess c k s = k.packetReceivedCallback id p t ∧
      t = { s with SPI1_NSS := false,
                   UpstreamInterfaceState := UPSTREAM_INTERFACE_IDLE,
                   ReceivePacketCallback := SpiPacketReceivedCallbackTypeDef.NULL,
                   log := s.log ++ [Call.packetReceivedCallback
                     (SpiPacketReceivedCallbackTypeDef.app id) p] } ∧
      t.UpstreamInterfaceState = UPSTREAM_INTERFACE_IDLE ∧
      t.ReceivePacketCallback = SpiPacketReceivedCallbackTypeDef.NULL ∧
      t.deref p = some pkt ∧
      (pkt.Busy = BUSY → t.busyOf p = some BUSY) ∧
      ∀ (k2 : Hooks) (cb2 : SpiPacketReceivedCallbackTypeDef),
        ∃ t2, Upstream_ReceivePacket k2 cb2 t = some (t2, HAL_OK) := by
  subst hcur
  refine ⟨_, spiProcess_reply_delivered c k s pkt id hs hrecv hd hnd hcls hcmd, rfl, rfl, rfl,
    ?_, ?_, ?_⟩
  · rw [← hd]; cases s.CurrentWorkingPacket <;> rfl
  · intro hb
    have h1 : s.busyOf s.CurrentWorkingPacket = some BUSY := by
      simp [Link.busyOf, hd, hb]
    rw [← h1]
    exact busyOf_of_same s _ _ rfl rfl
  · intro k2 cb2
    exact receivePacket_idle_ok k2 cb2 _ rfl rfl

theorem reply_delivered_witness :
    ∃ t, Upstream_SPIProcess Config.sample Hooks.quiet (sampleInReply 16 1) = some t ∧
      t.UpstreamInterfaceState = UPSTREAM_INTERFACE_IDLE ∧
      t.busyOf PacketPtr.UpstreamPacket0 = some BUSY ∧
      t.log = [Call.packetReceivedCallback (SpiPacketReceivedCallbackTypeDef.app 5)
        PacketPtr.UpstreamPacket0] := by
  obtain ⟨t, h1, h2, h3, _, _, h4, _⟩ :=
    reply_delivered Config.sample Hooks.quiet (sampleInReply 16 1) PacketPtr.UpstreamPacket0
      ⟨BUSY, 4, 16, 1⟩ 5 rfl rfl rfl rfl (by decide) (by decide) rfl
  exact ⟨t, h1, h3, h4 rfl, by rw [h2]; rfl⟩

/-- C12 fails on the release: in state RX_PACKET with waiter 5 registered, a
reply of class 0x10 and command 0x02 after a request of class 0x10 and
command 0x01 is a mismatch. SPI completion processing sets the state to ERROR
and calls the waiter once with `NULL`, but the received packet in slot 0 is
still `BUSY` afterwards: `UPSTREAM_SPI_FREAKOUT` runs before
`Upstream_ReleasePacket`, which returns at once in ERROR. -/
theorem reply_mismatch_keeps_packet :
    (sampleInReply 16 2).UpstreamInterfaceState = UPSTREAM_INTERFACE_RX_PACKET ∧
    (sampleInReply 16 2).busyOf PacketPtr.UpstreamPacket0 = some BUSY ∧
    Upstream_SPIProcess Config.sample Hooks.quiet (sampleInReply 16 2) =
      some { sampleInReply 16 2 with
        UpstreamInterfaceState := UPSTREAM_INTERFACE_ERROR
        CurrentWorkingPacket := PacketPtr.NULL
        ReceivePacketCallback := SpiPacketReceivedCallbackTypeDef.NULL
        log := [Call.packetReceivedCallback (SpiPacketReceivedCallbackTypeDef.app 5)
          PacketPtr.NULL] } ∧
    (∀ t, Upstream_SPIProcess Config.sample Hooks.quiet (sampleInReply 16 2) = some t →
      t.busyOf PacketPtr.UpstreamPacket0 = some BUSY ∧
      t.busyOf PacketPtr.UpstreamPacket0 ≠ some NOT_BUSY) := by
  refine ⟨rfl, rfl, rfl, ?_⟩
  intro t ht
  have h : Upstream_SPIProcess Config.sample Hooks.quiet (sampleInReply 16 2) =
      some { sampleInReply 16 2 with
        UpstreamInterfaceState := UPSTREAM_INTERFACE_ERROR
        CurrentWorkingPacket := PacketPtr.NULL
        ReceivePacketCallback := SpiPacketReceivedCallbackTypeDef.NULL
        log := [Call.packetReceivedCallback (SpiPacketReceivedCallbackTypeDef.app 5)
          PacketPtr.NULL] } := rfl
  rw [h] at ht
  cases ht
  exact ⟨rfl, by decide⟩

/-! ## Length validation -/

theorem spiProcess_rx_size_invalid (c : Config) (k : Hooks) (s : Link)
    (pkt : UpstreamPacketTypeDef)
    (hs : s.UpstreamInterfaceState = UPSTREAM_INTERFACE_RX_SIZE)
    (hd : s.deref s.CurrentWorkingPacket = some pkt)
    (hl : pkt.Length16 < c.UPSTREAM_PACKET_LEN_MIN_16 ∨
      pkt.Length16 > c.UPSTREAM_PACKET_LEN_16) :
    Upstream_SPIProcess c k s =
      some { s with SPI1_NSS := false,
                    UpstreamInterfaceState := UPSTREAM_INTERFACE_ERROR } := by
  have hx : ∀ x : UpstreamPacketTypeDef, x = pkt →
      (x.Length16 < c.UPSTREAM_PACKET_LEN_MIN_16 ∨
        x.Length16 > c.UPSTREAM_PACKET_LEN_16) := by
    intro x hx; rw [hx]; exact hl
  cases hc : s.CurrentWorkingPacket <;> simp [hc, Link.deref] at hd <;>
    simp only [Upstream_SPIProcess, Link.inError, InterfaceStateTypeDef.toNat, hs, hc,
      Link.deref] <;>
    simp [if_pos (hx _ hd), UPSTREAM_SPI_FREAKOUT]

theorem spiProcess_rx_size_valid (c : Config) (k : Hooks) (s : Link)
    (pkt : UpstreamPacketTypeDef)
    (hs : s.UpstreamInterfaceState = UPSTREAM_INTERFACE_RX_SIZE)
    (hd : s.deref s.CurrentWorkingPacket = some pkt)
    (hmin : c.UPSTREAM_PACKET_LEN_MIN_16 ≤ pkt.Length16)
    (hmax : pkt.Length16 ≤ c.UPSTREAM_PACKET_LEN_16)
    (hok : s.TxOkInterruptReceived = false) :
    Upstream_SPIProcess c k s =
      some { s with SPI1_NSS := false,
                    UpstreamInterfaceState := UPSTREAM_INTERFACE_RX_PACKET_WAIT } := by
  have hx : ∀ x : UpstreamPacketTypeDef, x = pkt →
      ¬ (x.Length16 < c.UPSTREAM_PACKET_LEN_MIN_16 ∨
        x.Length16 > c.UPSTREAM_PACKET_LEN_16) := by
    intro x hx; rw [hx]; omega
  cases hc : s.CurrentWorkingPacket <;> simp [hc, Link.deref] at hd <;>
    simp only [Upstream_SPIProcess, Link.inError, InterfaceStateTypeDef.toNat, hs, hc,
      Link.deref] <;>
    simp [if_neg (hx _ hd), hok]

theorem spiProcess_rx_size_ready (c : Config) (k : Hooks) (s : Link)
    (pkt : UpstreamPacketTypeDef)
    (hal : ∀ a b n t, k.HAL_SPI_TransmitReceive_IT a b n t = HAL_OK)
    (hs : s.UpstreamInterfaceState = UPSTREAM_INTERFACE_RX_SIZE)
    (hd : s.deref s.CurrentWorkingPacket = some pkt)
    (hmin : c.UPSTREAM_PACKET_LEN_MIN_16 ≤ pkt.Length16)
    (hmax : pkt.Length16 ≤ c.UPSTREAM_PACKET_LEN_16)
    (hok : s.TxOkInterruptReceived = true) :
    Upstream_SPIProcess c k s =
      some { s with UpstreamInterfaceState := UPSTREAM_INTERFACE_RX_PACKET,
                    TxOkInterruptReceived := false,
                    SPI1_NSS := true,
                    log := s.log ++ [Call.HAL_SPI_TransmitReceive_IT
                      (Buffer.CommandClass s.CurrentWorkingPacket)
                      (Buffer.CommandClass s.CurrentWorkingPacket)
                      (if pkt.Length16 < 2 then 2 else pkt.Length16)] } := by
  have hx : ∀ x : UpstreamPacketTypeDef, x = pkt →
      ¬ (x.Length16 < c.UPSTREAM_PACKET_LEN_MIN_16 ∨
        x.Length16 > c.UPSTREAM_PACKET_LEN_16) := by
    intro x hx; rw [hx]; omega
  cases hc : s.CurrentWorkingPacket <;> simp [hc, Link.deref] at hd <;>
    subst hd <;>
    simp only [Upstream_SPIProcess, Link.inError, InterfaceStateTypeDef.toNat, hs, hc,
      Link.deref] <;>
    simp [if_neg (hx _ rfl), hok, Upstream_BeginReceivePacketBody, Link.deref, startTransfer,
      hal, Link.logged]

/-- C15: validation of the received length. Take a link in state RX_SIZE whose
current packet is a pool slot holding the received length `L`, and let the
transfer start return `HAL_OK` in case a ready edge is pending. SPI completion
processing returns; it leaves the link in RX_PACKET_WAIT or RX_PACKET exactly
when `UPSTREAM_PACKET_LEN_MIN_16 ≤ L ≤ UPSTREAM_PACKET_LEN_16`. An invalid
length only sets the state to ERROR (nothing is added to the log of outside
calls, so no body transfer is started). A valid length gives RX_PACKET_WAIT
with no edge pending and, with an edge pending, consumes the edge, starts the
body transfer and gives RX_PACKET. In particular `L + 1 = MIN` and
`L = MAX + 1` give ERROR, and `L = MIN` and `L = MAX` are accepted (for
`MIN ≤ MAX`). -/
theorem received_length_validation (c : Config) (k : Hooks) (s : Link)
    (pkt : UpstreamPacketTypeDef)
    (hs : s.UpstreamInterfaceState = UPSTREAM_INTERFACE_RX_SIZE)
    (hd : s.deref s.CurrentWorkingPacket = some pkt)
    (hal : s.TxOkInterruptReceived = true →
      ∀ a b n t, k.HAL_SPI_TransmitReceive_IT a b n t = HAL_OK) :
    ∃ s1, Upstream_SPIProcess c k s = some s1 ∧
      ((s1.UpstreamInterfaceState = UPSTREAM_INTERFACE_RX_PACKET_WAIT ∨
          s1.UpstreamInterfaceState = UPSTREAM_INTERFACE_RX_PACKET) ↔
        (c.UPSTREAM_PACKET_LEN_MIN_16 ≤ pkt.Length16 ∧
          pkt.Length16 ≤ c.UPSTREAM_PACKET_LEN_16)) ∧
      (¬ (c.UPSTREAM_PACKET_LEN_MIN_16 ≤ pkt.Length16 ∧
          pkt.Length16 ≤ c.UPSTREAM_PACKET_LEN_16) →
        s1 = { s with SPI1_NSS := false,
                      UpstreamInterfaceState := UPSTREAM_INTERFACE_ERROR }) ∧
      (c.UPSTREAM_PACKET_LEN_MIN_16 ≤ pkt.Length16 →
        pkt.Length16 ≤ c.UPSTREAM_PACKET_LEN_16 → s.TxOkInterruptReceived = false →
        s1 = { s with SPI1_NSS := false,
                      UpstreamInterfaceState := UPSTREAM_INTERFACE_RX_PACKET_WAIT }) ∧
      (c.UPSTREAM_PACKET_LEN_MIN_16 ≤ pkt.Length16 →
        pkt.Length16 ≤ c.UPSTREAM_PACKET_LEN_16 → s.TxOkInterruptReceived = true →
        s1 = { s with UpstreamInterfaceState := UPSTREAM_INTERFACE_RX_PACKET,
                      TxOkInterruptReceived := false,
                      SPI1_NSS := true,
                      log := s.log ++ [Call.HAL_SPI_TransmitReceive_IT
                        (Buffer.CommandClass s.CurrentWorkingPacket)
                        (Buffer.CommandClass s.CurrentWorkingPacket)
                        (if pkt.Length16 < 2 then 2 else pkt.Length16)] }) ∧
      (pkt.Length16 + 1 = c.UPSTREAM_PACKET_LEN_MIN_16 →
        s1.UpstreamInterfaceState = UPSTREAM_INTERFACE_ERROR) ∧
      (pkt.Length16 = c.UPSTREAM_PACKET_LEN_16 + 1 →
        s1.UpstreamInterfaceState = UPSTREAM_INTERFACE_ERROR) ∧
      (c.UPSTREAM_PACKET_LEN_MIN_16 ≤ c.UPSTREAM_PACKET_LEN_16 →
        pkt.Length16 = c.UPSTREAM_PACKET_LEN_MIN_16 ∨
          pkt.Length16 = c.UPSTREAM_PACKET_LEN_16 →
        s1.UpstreamInterfaceState = UPSTREAM_INTERFACE_RX_PACKET_WAIT ∨
          s1.UpstreamInterfaceState = UPSTREAM_INTERFACE_RX_PACKET) := by
  by_cases hv : c.UPSTREAM_PACKET_LEN_MIN_16 ≤ pkt.Length16 ∧
      pkt.Length16 ≤ c.UPSTREAM_PACKET_LEN_16
  · rcases Bool.eq_false_or_eq_true s.TxOkInterruptReceived with hok | hok
    · refine ⟨_, spiProcess_rx_size_ready c k s pkt (hal hok) hs hd hv.1 hv.2 hok, ?_, ?_, ?_,
        ?_, ?_, ?_, ?_⟩
      · simp [hv]
      · intro h; exact absurd hv h
      · intro _ _ h; rw [hok] at h; cases h
      · intro _ _ _; rfl
      · intro h; omega
      · intro h; omega
      · intro _ _; exact Or.inr rfl
    · refine ⟨_, spiProcess_rx_size_valid c k s pkt hs hd hv.1 hv.2 hok, ?_, ?_, ?_, ?_, ?_, ?_,
        ?_⟩
      · simp [hv]
      · intro h; exact absurd hv h
      · intro _ _ _; rfl
      · intro _ _ h; rw [hok] at h; cases h
      · intro h; omega
      · intro h; omega
      · intro _ _; exact Or.inl rfl
  · refine ⟨_, spiProcess_rx_size_invalid c k s pkt hs hd (by omega), ?_, ?_, ?_, ?_, ?_, ?_,
      ?_⟩
    · simp [hv]
    · intro _; rfl
    · intro h1 h2; exact absurd ⟨h1, h2⟩ hv
    · intro h1 h2; exact absurd ⟨h1, h2⟩ hv
    · intro _; rfl
    · intro _; rfl
    · intro h1 h2; omega

theorem received_length_validation_witness :
    (Upstream_SPIProcess Config.sample Hooks.quiet (sampleInSize 1 false) =
      some { sampleInSize 1 false with UpstreamInterfaceState := UPSTREAM_INTERFACE_ERROR }) ∧
    (Upstream_SPIProcess Config.sample Hooks.quiet (sampleInSize 258 false) =
      some { sampleInSize 258 false with
        UpstreamInterfaceState := UPSTREAM_INTERFACE_ERROR }) ∧
    (Upstream_SPIProcess Config.sample Hooks.quiet (sampleInSize 2 false) =
      some { sampleInSize 2 false with
        UpstreamInterfaceState := UPSTREAM_INTERFACE_RX_PACKET_WAIT }) ∧
    (Upstream_SPIProcess Config.sample Hooks.quiet (sampleInSize 257 false) =
      some { sampleInSize 257 false with
        UpstreamInterfaceState := UPSTREAM_INTERFACE_RX_PACKET_WAIT }) ∧
    (∃ s1, Upstream_SPIProcess Config.sample Hooks.quiet (sampleInSize 257 true) = some s1 ∧
      s1.UpstreamInterfaceState = UPSTREAM_INTERFACE_RX_PACKET) := by
  refine ⟨?_, ?_, ?_, ?_, ?_⟩
  · obtain ⟨s1, h1, _, h2, _⟩ :=
      received_length_validation Config.sample Hooks.quiet (sampleInSize 1 false)
        ⟨BUSY, 1, 0, 0⟩ rfl rfl (fun _ _ _ _ _ => rfl)
    rw [h1, h2 (by decide)]; rfl
  · rfl
  · rfl
  · rfl
  · exact ⟨_, rfl, rfl⟩

/-! ## The link invariant -/

theorem linkInv_of_same (s s1 : Link) (h : s.linkInv)
    (hf : s1.TxOkInterruptReceived = s.TxOkInterruptReceived)
    (hn : s1.NextTxPacket = s.NextTxPacket)
    (hc : s1.CurrentWorkingPacket = s.CurrentWorkingPacket)
    (hs : s1.UpstreamInterfaceState = s.UpstreamInterfaceState) : s1.linkInv := by
  obtain ⟨a, b, d, e⟩ := h
  constructor
  · rw [hf, hs]; exact a
  · rw [hn, hs]; exact b
  · rw [hn]; exact d
  · rw [hs, hc]; exact e

theorem linkInv_of_error (s s1 : Link) (h : s.linkInv)
    (hn : s1.NextTxPacket = s.NextTxPacket)
    (hs : s1.UpstreamInterfaceState = UPSTREAM_INTERFACE_ERROR) : s1.linkInv := by
  obtain ⟨a, b, d, e⟩ := h
  constructor
  · intro _; exact Or.inr hs
  · intro _; exact Or.inr hs
  · rw [hn]; exact d
  · rw [hs]; intro x; cases x

/-- Moving between states with the same current and queued packets. -/
theorem linkInv_of_state (s s1 : Link) (h : s.linkInv)
    (hn : s1.NextTxPacket = s.NextTxPacket)
    (hc : s1.CurrentWorkingPacket = s.CurrentWorkingPacket)
    (hf : s1.TxOkInterruptReceived = true →
      s1.UpstreamInterfaceState = UPSTREAM_INTERFACE_IDLE ∨
        s1.UpstreamInterfaceState = UPSTREAM_INTERFACE_ERROR)
    (ht : s1.UpstreamInterfaceState.inTransfer = true →
      s.UpstreamInterfaceState.inTransfer = true)
    (hx : s.NextTxPacket ≠ PacketPtr.NULL → s1.UpstreamInterfaceState.isTx = true ∨
      s1.UpstreamInterfaceState = UPSTREAM_INTERFACE_ERROR) : s1.linkInv := by
  obtain ⟨a, b, d, e⟩ := h
  constructor
  · exact hf
  · rw [hn]; exact hx
  · rw [hn]; exact d
  · rw [hc]; exact fun x => e (ht x)

theorem flag_absurd (b : Bool) (P : Prop) (h1 : b = false) (h2 : b = true) : P := by
  rw [h1] at h2; cases h2

/-- Outside IDLE and ERROR no ready edge is pending. -/
theorem flag_clear_of_linkInv (s : Link) (h : s.linkInv)
    (h1 : s.UpstreamInterfaceState ≠ UPSTREAM_INTERFACE_IDLE)
    (h2 : s.UpstreamInterfaceState ≠ UPSTREAM_INTERFACE_ERROR) :
    s.TxOkInterruptReceived = false := by
  cases hf : s.TxOkInterruptReceived
  · rfl
  · rcases h.ready hf with x | x
    · exact absurd x h1
    · exact absurd x h2

theorem flag_clear_of_tx (s : Link) (h : s.linkInv)
    (ht : s.UpstreamInterfaceState.isTx = true) : s.TxOkInterruptReceived = false :=
  flag_clear_of_linkInv s h (by intro x; rw [x] at ht; cases ht)
    (by intro x; rw [x] at ht; cases ht)

theorem next_null_of_linkInv (s : Link) (h : s.linkInv)
    (ht : s.UpstreamInterfaceState.isTx = false)
    (he : s.UpstreamInterfaceState ≠ UPSTREAM_INTERFACE_ERROR) :
    s.NextTxPacket = PacketPtr.NULL := by
  by_contra hne
  rcases h.next_tx hne with x | x
  · rw [ht] at x; cases x
  · exact he x

theorem Upstream_BeginTransmitPacketSize_linkInv (k : Hooks) (s : Link) (h : s.linkInv)
    (ht : s.UpstreamInterfaceState.isTx = true) :
    (Upstream_BeginTransmitPacketSize k s).linkInv := by
  have hin : s.UpstreamInterfaceState.inTransfer = true := by
    revert ht; cases s.UpstreamInterfaceState <;> simp [InterfaceStateTypeDef.isTx,
      InterfaceStateTypeDef.inTransfer]
  have hfl := flag_clear_of_tx s h ht
  unfold Upstream_BeginTransmitPacketSize
  dsimp only
  split_ifs
  · exact linkInv_of_error s _ h rfl rfl
  · exact linkInv_of_state s _ h rfl rfl (fun x => flag_absurd _ _ hfl x) (fun _ => hin)
      (fun _ => Or.inl rfl)

theorem Upstream_BeginTransmitPacketBody_linkInv (k : Hooks) (s s1 : Link) (h : s.linkInv)
    (ht : s.UpstreamInterfaceState.isTx = true)
    (hr : Upstream_BeginTransmitPacketBody k s = some s1) : s1.linkInv := by
  have hin : s.UpstreamInterfaceState.inTransfer = true := by
    revert ht; cases s.UpstreamInterfaceState <;> simp [InterfaceStateTypeDef.isTx,
      InterfaceStateTypeDef.inTransfer]
  have hfl := flag_clear_of_tx s h ht
  unfold Upstream_BeginTransmitPacketBody at hr
  dsimp only at hr
  split at hr
  · cases hr
  · split_ifs at hr <;> cases hr <;>
      first
      | exact linkInv_of_error s _ h rfl rfl
      | exact linkInv_of_state s _ h rfl rfl (fun x => flag_absurd _ _ hfl x) (fun _ => hin)
          (fun _ => Or.inl rfl)

theorem Upstream_BeginReceivePacketBody_linkInv (k : Hooks) (s s1 : Link) (h : s.linkInv)
    (ht : s.UpstreamInterfaceState = UPSTREAM_INTERFACE_RX_PACKET_WAIT)
    (hr : Upstream_BeginReceivePacketBody k s = some s1) : s1.linkInv := by
  have hnext := next_null_of_linkInv s h (by rw [ht]; rfl) (by rw [ht]; simp)
  have hfl := flag_clear_of_linkInv s h (by rw [ht]; simp) (by rw [ht]; simp)
  unfold Upstream_BeginReceivePacketBody at hr
  dsimp only at hr
  split at hr
  · cases hr
  · split_ifs at hr <;> cases hr <;>
      first
      | exact linkInv_of_error s _ h rfl rfl
      | exact linkInv_of_state s _ h rfl rfl (fun x => flag_absurd _ _ hfl x)
          (fun _ => by rw [ht]; rfl) (fun x => absurd hnext x)

theorem Upstream_BeginReceivePacketSize_linkInv (k : Hooks) (p : PacketPtr) (s s1 : Link)
    (h : s.linkInv) (hr : Upstream_BeginReceivePacketSize k p s = some s1) : s1.linkInv := by
  unfold Upstream_BeginReceivePacketSize at hr
  split_ifs at hr with e1 e2
  · cases hr; exact h
  · cases hr; exact linkInv_of_error s _ h rfl rfl
  · have hst : s.UpstreamInterfaceState = UPSTREAM_INTERFACE_RX_SIZE_WAIT := by
      simpa using e2
    have hnext := next_null_of_linkInv s h (by rw [hst]; rfl) (by rw [hst]; simp)
    have hfl := flag_clear_of_linkInv s h (by rw [hst]; simp) (by rw [hst]; simp)
    cases p <;> simp only [Link.store] at hr <;> cases hr <;> split_ifs <;>
      constructor <;>
      simp_all [UPSTREAM_SPI_FREAKOUT, startTransfer, Link.logged, PacketPtr.isPool,
        InterfaceStateTypeDef.inTransfer, InterfaceStateTypeDef.isTx]

theorem callFreePacketCallback_linkInv (k : Hooks) (hk : k.Preserves Link.linkInv)
    (cb : FreePacketCallbackTypeDef) (p : PacketPtr) (s s1 : Link) (h : s.linkInv)
    (hr : callFreePacketCallback k cb p s = some s1) : s1.linkInv := by
  cases cb with
  | NULL => simp [callFreePacketCallback] at hr
  | Upstream_BeginReceivePacketSize =>
    exact Upstream_BeginReceivePacketSize_linkInv k p
      (s.logged (Call.freePacketCallback
        FreePacketCallbackTypeDef.Upstream_BeginReceivePacketSize p)) s1
      (linkInv_of_same s _ h rfl rfl rfl rfl) hr
  | app id =>
    exact hk.freePacketCallback id p
      (s.logged (Call.freePacketCallback (FreePacketCallbackTypeDef.app id) p)) s1
      (linkInv_of_same s _ h rfl rfl rfl rfl) hr

theorem callPacketReceivedCallback_linkInv (k : Hooks) (hk : k.Preserves Link.linkInv)
    (cb : SpiPacketReceivedCallbackTypeDef) (p : PacketPtr) (s s1 : Link) (h : s.linkInv)
    (hr : callPacketReceivedCallback k cb p s = some s1) : s1.linkInv := by
  cases cb with
  | NULL => simp [callPacketReceivedCallback] at hr
  | app id =>
    exact hk.packetReceivedCallback id p
      (s.logged (Call.packetReceivedCallback (SpiPacketReceivedCallbackTypeDef.app id) p)) s1
      (linkInv_of_same s _ h rfl rfl rfl rfl) hr

theorem callDeviceDisconnected_linkInv (k : Hooks) (hk : k.Preserves Link.linkInv)
    (s s1 : Link) (h : s.linkInv) (hr : callDeviceDisconnected k s = some s1) :
    s1.linkInv :=
  hk.Upstream_StateMachine_DeviceDisconnected
    (s.logged Call.Upstream_StateMachine_DeviceDisconnected) s1
    (linkInv_of_same s _ h rfl rfl rfl rfl) hr

theorem Upstream_GetFreePacket_linkInv (k : Hooks) (hk : k.Preserves Link.linkInv)
    (cb : FreePacketCallbackTypeDef) (s s1 : Link) (r : HAL_StatusTypeDef) (h : s.linkInv)
    (hr : Upstream_GetFreePacket k cb s = some (s1, r)) : s1.linkInv := by
  unfold Upstream_GetFreePacket at hr
  split_ifs at hr with h1 h2 h3 h4
  · cases hr; exact h
  · cases hr; exact linkInv_of_error s _ h rfl rfl
  · split at hr
    · cases hr
    · rename_i s2 hc
      cases hr
      refine callFreePacketCallback_linkInv k hk cb _ _ _ ?_ hc
      exact linkInv_of_same s _ h rfl rfl rfl rfl
  · split at hr
    · cases hr
    · rename_i s2 hc
      cases hr
      refine callFreePacketCallback_linkInv k hk cb _ _ _ ?_ hc
      exact linkInv_of_same s _ h rfl rfl rfl rfl
  · cases hr
    exact linkInv_of_same s _ h rfl rfl rfl rfl

theorem Upstream_GetFreePacketImmediately_linkInv (s : Link) (h : s.linkInv) :
    (Upstream_GetFreePacketImmediately s).1.linkInv := by
  unfold Upstream_GetFreePacketImmediately
  split_ifs
  · exact h
  · exact linkInv_of_same s _ h rfl rfl rfl rfl
  · exact linkInv_of_same s _ h rfl rfl rfl rfl
  · exact linkInv_of_error s _ h rfl rfl

theorem Upstream_ReleasePacket_linkInv (k : Hooks) (hk : k.Preserves Link.linkInv)
    (p : PacketPtr) (s s1 : Link) (h : s.linkInv)
    (hr : Upstream_ReleasePacket k p s = some s1) : s1.linkInv := by
  unfold Upstream_ReleasePacket at hr
  split_ifs at hr with h1 h2 h3
  · cases hr; exact h
  · cases hr; exact linkInv_of_error s _ h rfl rfl
  · refine callFreePacketCallback_linkInv k hk _ p _ s1 ?_ hr
    exact linkInv_of_same s _ h rfl rfl rfl rfl
  · cases p <;> simp only [Link.store] at hr <;> cases hr <;>
      exact linkInv_of_same s _ h rfl rfl rfl rfl

theorem Upstream_TransmitPacket_linkInv (c : Config) (k : Hooks) (p : PacketPtr)
    (s s1 : Link) (r : HAL_StatusTypeDef) (h : s.linkInv)
    (hr : Upstream_TransmitPacket c k p s = some (s1, r)) : s1.linkInv := by
  by_cases he : s.inError = true
  · simp [Upstream_TransmitPacket, he] at hr
    rw [← hr.1]; exact h
  · by_cases hp : p.isPool = true
    · obtain ⟨pkt, hpkt⟩ := (deref_isSome_iff s p).1 hp
      rw [transmit_pool c k p s pkt (by simpa using he) hpkt] at hr
      dsimp only at hr
      have hpn : p ≠ PacketPtr.NULL := by
        intro x; rw [x] at hp; cases hp
      split_ifs at hr with h1 h2 h3 h4 h5 <;> cases hr
      · exact linkInv_of_error s _ h rfl rfl
      · exact linkInv_of_error s _ h rfl rfl
      · obtain ⟨a, b, d, e⟩ := h
        exact ⟨a, fun _ => Or.inl h3, fun _ => hp, e⟩
      · have hn : s.NextTxPacket = PacketPtr.NULL := by simpa using h2
        refine Upstream_BeginTransmitPacketSize_linkInv k _ ?_ rfl
        exact ⟨fun x => (by cases x), fun x => absurd hn x, fun x => absurd hn x, fun _ => hp⟩
      · have hn : s.NextTxPacket = PacketPtr.NULL := by simpa using h2
        exact ⟨fun x => absurd x h5, fun x => absurd hn x, fun x => absurd hn x, fun _ => hp⟩
      · exact linkInv_of_error s _ h rfl rfl
    · rw [transmit_not_pool c k p s (by simpa using he) (by simpa using hp)] at hr
      cases hr
      exact linkInv_of_error s _ h rfl rfl

theorem Upstream_CheckBeginPacketReception_linkInv (k : Hooks)
    (hk : k.Preserves Link.linkInv) (s s1 : Link) (r : HAL_StatusTypeDef) (h : s.linkInv)
    (hr : Upstream_CheckBeginPacketReception k s = some (s1, r)) : s1.linkInv := by
  unfold Upstream_CheckBeginPacketReception at hr
  dsimp only at hr
  split_ifs at hr with h1 h2 h3 h4
  · cases hr; exact h
  · cases hr; exact linkInv_of_error s _ h rfl rfl
  · have hn := next_null_of_linkInv s h (by rw [h3]; rfl) (by rw [h3]; simp)
    split at hr
    · cases hr
    · rename_i r2 hg
      cases hr
      refine Upstream_GetFreePacket_linkInv k hk _ _ r2.1 r2.2 ?_ hg
      exact linkInv_of_state s _ h rfl rfl (fun x => (by cases x)) (fun x => (by cases x))
        (fun x => absurd hn x)
  · have hn := next_null_of_linkInv s h (by rw [h3]; rfl) (by rw [h3]; simp)
    cases hr
    exact linkInv_of_state s _ h rfl rfl (fun x => absurd x h4) (fun x => (by cases x))
      (fun x => absurd hn x)
  · cases hr; exact h

theorem Upstream_ReceivePacket_linkInv (k : Hooks) (hk : k.Preserves Link.linkInv)
    (cb : SpiPacketReceivedCallbackTypeDef) (s s1 : Link) (r : HAL_StatusTypeDef)
    (h : s.linkInv) (hr : Upstream_ReceivePacket k cb s = some (s1, r)) : s1.linkInv := by
  unfold Upstream_ReceivePacket at hr
  split_ifs at hr
  · cases hr; exact h
  · cases hr; exact linkInv_of_error s _ h rfl rfl
  · refine Upstream_CheckBeginPacketReception_linkInv k hk _ s1 r ?_ hr
    exact linkInv_of_same s _ h rfl rfl rfl rfl

theorem Upstream_TxOkInterrupt_linkInv (k : Hooks) (hk : k.Preserves Link.linkInv)
    (s s1 : Link) (h : s.linkInv) (hr : Upstream_TxOkInterrupt k s = some s1) :
    s1.linkInv := by
  unfold Upstream_TxOkInterrupt at hr
  split_ifs at hr
  · cases hr; exact h
  · split at hr
    · rename_i hst
      cases hr
      exact linkInv_of_state s _ h rfl rfl (fun _ => Or.inl hst) (fun x => x)
        (fun x => h.next_tx x)
    · rename_i hst
      cases hr; exact Upstream_BeginTransmitPacketSize_linkInv k s h (by rw [hst]; rfl)
    · rename_i hst
      exact Upstream_BeginTransmitPacketBody_linkInv k s s1 h (by rw [hst]; rfl) hr
    · split at hr
      · cases hr
      · rename_i r2 hg
        cases hr
        exact Upstream_GetFreePacket_linkInv k hk _ s r2.1 r2.2 h hg
    · rename_i hst
      exact Upstream_BeginReceivePacketBody_linkInv k s s1 h hst hr
    · cases hr; exact linkInv_of_error s _ h rfl rfl

theorem HAL_SPI_ErrorCallback_linkInv (k : Hooks) (hk : k.Preserves Link.linkInv)
    (s s1 : Link) (h : s.linkInv) (hr : HAL_SPI_ErrorCallback k s = some s1) :
    s1.linkInv := by
  unfold HAL_SPI_ErrorCallback at hr
  dsimp only at hr
  split_ifs at hr
  · cases hr; exact h
  · refine callPacketReceivedCallback_linkInv k hk _ _ _ s1 ?_ hr
    exact linkInv_of_error s _ h rfl rfl
  · cases hr; exact linkInv_of_error s _ h rfl rfl

theorem fill_linkInv (s : Link) (p : PacketPtr) (l cc cmd : Nat) (h : s.linkInv) :
    (s.fill p l cc cmd).linkInv := by
  cases p <;> exact linkInv_of_same s _ h rfl rfl rfl rfl

theorem Upstream_SPIProcess_linkInv (c : Config) (k : Hooks) (hk : k.Preserves Link.linkInv)
    (s s1 : Link) (h : s.linkInv) (hr : Upstream_SPIProcess c k s = some s1) :
    s1.linkInv := by
  unfold Upstream_SPIProcess at hr
  dsimp only at hr
  split_ifs at hr with e1 e2 e3 e4 e5 e6 e7 e8 e9 e10 e11 e12
  · cases hr; exact linkInv_of_same s _ h rfl rfl rfl rfl
  · refine Upstream_BeginTransmitPacketBody_linkInv k _ s1 ?_ ?_ hr
    · exact linkInv_of_state s _ h rfl rfl (fun x => (by cases x)) (fun _ => by rw [e2]; rfl)
        (fun _ => Or.inl rfl)
    · rfl
  · cases hr
    exact linkInv_of_state s _ h rfl rfl (fun x => absurd x e3) (fun _ => by rw [e2]; rfl)
      (fun _ => Or.inl rfl)
  · cases hr; exact linkInv_of_error s _ h rfl rfl
  · -- a queued packet becomes the current one; a ready edge is pending
    split at hr
    · cases hr
    · rename_i next hd
      refine Upstream_ReleasePacket_linkInv k hk _ _ s1 ?_ hr
      refine Upstream_BeginTransmitPacketSize_linkInv k _ ?_ rfl
      exact ⟨fun x => (by cases x), fun x => absurd rfl x, fun x => absurd rfl x,
        fun _ => h.next_pool e6⟩
  · split at hr
    · cases hr
    · rename_i next hd
      refine Upstream_ReleasePacket_linkInv k hk _ _ s1 ?_ hr
      exact ⟨fun x => absurd x e7, fun x => absurd rfl x, fun x => absurd rfl x,
        fun _ => h.next_pool e6⟩
  · -- nothing queued, a receive waiter is registered
    have hn : s.NextTxPacket = PacketPtr.NULL := by simpa using e6
    split at hr
    · cases hr
    · rename_i r2 hg
      refine Upstream_ReleasePacket_linkInv k hk _ _ s1 ?_ hr
      refine Upstream_CheckBeginPacketReception_linkInv k hk _ r2.1 r2.2 ?_ hg
      exact linkInv_of_state s _ h rfl rfl (fun _ => Or.inl rfl) (fun x => (by cases x))
        (fun x => absurd hn x)
  · have hn : s.NextTxPacket = PacketPtr.NULL := by simpa using e6
    refine Upstream_ReleasePacket_linkInv k hk _ _ s1 ?_ hr
    exact linkInv_of_state s _ h rfl rfl (fun _ => Or.inl rfl) (fun x => (by cases x))
      (fun x => absurd hn x)
  · have hn := next_null_of_linkInv s h (by rw [e9]; rfl) (by rw [e9]; simp)
    split at hr
    · cases hr
    · split_ifs at hr
      · cases hr; exact linkInv_of_error s _ h rfl rfl
      · refine Upstream_BeginReceivePacketBody_linkInv k _ s1 ?_ ?_ hr
        · exact linkInv_of_state s _ h rfl rfl (fun x => (by cases x))
            (fun _ => by rw [e9]; rfl) (fun x => absurd hn x)
        · rfl
  · have hn := next_null_of_linkInv s h (by rw [e9]; rfl) (by rw [e9]; simp)
    split at hr
    · cases hr
    · split_ifs at hr
      · cases hr; exact linkInv_of_error s _ h rfl rfl
      · cases hr
        exact linkInv_of_state s _ h rfl rfl (fun x => absurd x e10)
          (fun _ => by rw [e9]; rfl) (fun x => absurd hn x)
  · cases hr; exact linkInv_of_error s _ h rfl rfl
  · have hn := next_null_of_linkInv s h (by rw [e11]; rfl) (by rw [e11]; simp)
    split at hr
    · cases hr
    · split_ifs at hr
      · split at hr
        · cases hr
        · rename_i s2 hrel
          refine callDeviceDisconnected_linkInv k hk _ s1 ?_ hr
          have h2 : s2.linkInv := by
            refine Upstream_ReleasePacket_linkInv k hk _ _ s2 ?_ hrel
            exact linkInv_of_state s _ h rfl rfl (fun _ => Or.inl rfl) (fun x => (by cases x))
              (fun x => absurd hn x)
          exact linkInv_of_same s2 _ h2 rfl rfl rfl rfl
      · rw [release_in_error k _ _ rfl] at hr
        dsimp only at hr
        refine callPacketReceivedCallback_linkInv k hk _ _ _ s1 ?_ hr
        exact ⟨fun _ => Or.inr rfl, fun x => absurd hn x, fun x => absurd hn x,
          fun x => (by cases x)⟩
      · refine callPacketReceivedCallback_linkInv k hk _ _ _ s1 ?_ hr
        exact linkInv_of_state s _ h rfl rfl (fun _ => Or.inl rfl) (fun x => (by cases x))
          (fun x => absurd hn x)
  · cases hr; exact linkInv_of_error s _ h rfl rfl

theorem Upstream_SPIProcess_InterruptSafe_linkInv (c : Config) (k : Hooks)
    (hk : k.Preserves Link.linkInv) (s s1 : Link) (h : s.linkInv)
    (hr : Upstream_SPIProcess_InterruptSafe c k s = some s1) : s1.linkInv := by
  unfold Upstream_SPIProcess_InterruptSafe at hr
  split_ifs at hr
  · cases hr; exact h
  · split at hr
    · cases hr
    · rename_i s2 hp
      cases hr
      have h2 : s2.linkInv := by
        refine Upstream_SPIProcess_linkInv c k hk _ s2 ?_ hp
        exact linkInv_of_same s _ h rfl rfl rfl rfl
      exact linkInv_of_same s2 _ h2 rfl rfl rfl rfl

theorem scriptRun_linkInv (c : Config) (careful : Bool) (k : Hooks)
    (hk : k.Preserves Link.linkInv) (code : Script) :
    ∀ s s1 : Link, s.linkInv → Script.run c careful k code s = some s1 → s1.linkInv := by
  induction code with
  | done => intro s s1 h hr; cases hr; exact h
  | Upstream_GetFreePacket cb next ih =>
    intro s s1 h hr
    simp only [Script.run] at hr
    split at hr
    · cases hr
    · rename_i r hg
      exact ih r.2 r.1 s1 (Upstream_GetFreePacket_linkInv k hk cb s r.1 r.2 h hg) hr
  | Upstream_GetFreePacketImmediately next ih =>
    intro s s1 h hr
    simp only [Script.run] at hr
    exact ih _ _ s1 (Upstream_GetFreePacketImmediately_linkInv s h) hr
  | Upstream_ReleasePacket p next ih =>
    intro s s1 h hr
    rw [scriptRun_release] at hr
    split_ifs at hr
    split at hr
    · cases hr
    · rename_i s2 hrel
      exact ih s2 s1 (Upstream_ReleasePacket_linkInv k hk p s s2 h hrel) hr
  | Upstream_TransmitPacket p next ih =>
    intro s s1 h hr
    rw [scriptRun_transmit] at hr
    split_ifs at hr
    split at hr
    · cases hr
    · rename_i r htx
      exact ih r.2 r.1 s1 (Upstream_TransmitPacket_linkInv c k p s r.1 r.2 h htx) hr
  | Upstream_ReceivePacket cb next ih =>
    intro s s1 h hr
    simp only [Script.run] at hr
    split at hr
    · cases hr
    · rename_i r hg
      exact ih r.2 r.1 s1 (Upstream_ReceivePacket_linkInv k hk cb s r.1 r.2 h hg) hr
  | fill p l cc cmd next ih =>
    intro s s1 h hr
    simp only [Script.run] at hr
    exact ih _ s1 (fill_linkInv s p l cc cmd h) hr
  | look next ih =>
    intro s s1 h hr
    simp only [Script.run] at hr
    exact ih s s s1 h hr

theorem programHooks_linkInv (c : Config) (careful : Bool) (prog : Program) (depth : Nat) :
    (Program.hooks c careful prog depth).Preserves Link.linkInv := by
  induction depth with
  | zero =>
    constructor <;> intros <;> simp_all [Program.hooks]
  | succ n ih =>
    constructor
    · intro id p s s1 h hr
      exact scriptRun_linkInv c careful _ ih _ s s1 h hr
    · intro id p s s1 h hr
      exact scriptRun_linkInv c careful _ ih _ s s1 h hr
    · intro s s1 h hr
      exact scriptRun_linkInv c careful _ ih _ s s1 h hr

theorem eventRun_linkInv (c : Config) (careful : Bool) (k : Hooks)
    (hk : k.Preserves Link.linkInv) (e : Event) (s s1 : Link) (h : s.linkInv)
    (hr : e.run c careful k s = some s1) : s1.linkInv := by
  cases e with
  | upper code => exact scriptRun_linkInv c careful k hk code s s1 h hr
  | Upstream_TxOkInterrupt => exact Upstream_TxOkInterrupt_linkInv k hk s s1 h hr
  | HAL_SPI_TxRxCpltCallback =>
    simp only [Event.run, Option.some.injEq] at hr
    subst hr
    exact linkInv_of_same s _ h rfl rfl rfl rfl
  | Upstream_SPIProcess_InterruptSafe =>
    exact Upstream_SPIProcess_InterruptSafe_linkInv c k hk s s1 h hr
  | Upstream_SPIProcess => exact Upstream_SPIProcess_linkInv c k hk s s1 h hr
  | HAL_SPI_ErrorCallback => exact HAL_SPI_ErrorCallback_linkInv k hk s s1 h hr

theorem reachable_linkInv (c : Config) (careful : Bool) (prog : Program) (s : Link)
    (h : Reachable c careful prog s) : s.linkInv := by
  induction h with
  | boot b =>
    cases b <;> exact ⟨fun _ => Or.inl rfl, fun x => absurd rfl x, fun x => absurd rfl x,
      fun x => (by cases x)⟩
  | step depth e s s1 _ hr ih =>
    exact eventRun_linkInv c careful _ (programHooks_linkInv c careful prog depth) e s s1 ih hr

/-! ## Invariants of the reachable links -/

theorem reachable_runAll (c : Config) (careful : Bool) (prog : Program) (depth : Nat)
    (es : List Event) :
    ∀ s s1 : Link, Reachable c careful prog s →
      Event.runAll c careful (Program.hooks c careful prog depth) es s = some s1 →
      Reachable c careful prog s1 := by
  induction es with
  | nil => intro s s1 h hr; cases hr; exact h
  | cons e es ih =>
    intro s s1 h hr
    simp only [Event.runAll] at hr
    split at hr
    · cases hr
    · rename_i s2 he
      exact ih s2 s1 (Reachable.step depth e s s2 h he) hr

/-- C18, as stated, fails in both halves: after a complete transmission
(`sampleRoundTrip`) the link is back in IDLE and `CurrentWorkingPacket` still
points at slot 0, and after `Upstream_ReceivePacket` at boot the link is in
RX_SIZE_WAIT with `CurrentWorkingPacket` still `NULL`. Both links are reached
by upper layers that keep to the loan discipline. -/
theorem current_packet_counterexample :
    (Reachable Config.sample true Program.quiet sampleAfterRoundTrip ∧
      sampleAfterRoundTrip.UpstreamInterfaceState = UPSTREAM_INTERFACE_IDLE ∧
      sampleAfterRoundTrip.CurrentWorkingPacket ≠ PacketPtr.NULL) ∧
    (Reachable Config.sample true Program.quiet sampleAfterReceive ∧
      sampleAfterReceive.UpstreamInterfaceState = UPSTREAM_INTERFACE_RX_SIZE_WAIT ∧
      sampleAfterReceive.CurrentWorkingPacket = PacketPtr.NULL) ∧
    ¬ (∀ s, Reachable Config.sample true Program.quiet s →
        ((s.UpstreamInterfaceState.isTx = true ∨ s.UpstreamInterfaceState.isRx = true) →
          s.CurrentWorkingPacket ≠ PacketPtr.NULL) ∧
        (s.UpstreamInterfaceState = UPSTREAM_INTERFACE_IDLE →
          s.CurrentWorkingPacket = PacketPtr.NULL)) := by
  have h1 : Reachable Config.sample true Program.quiet sampleAfterRoundTrip :=
    reachable_runAll Config.sample true Program.quiet 0 sampleRoundTrip _ _
      (Reachable.boot false) rfl
  have h2 : Reachable Config.sample true Program.quiet sampleAfterReceive :=
    Reachable.step 0 (Event.upper sampleReceive) _ _ (Reachable.boot false) rfl
  refine ⟨⟨h1, rfl, by decide⟩, ⟨h2, rfl, rfl⟩, ?_⟩
  intro hall
  exact (hall _ h2).1 (Or.inr rfl) rfl

/-- C18, amended: in every link that a program can bring about by events from
the link after `Upstream_InitSPI`, whatever the upper layers do, if the state is
one of the four transmit states or RX_SIZE, RX_PACKET_WAIT or RX_PACKET, then
`CurrentWorkingPacket` is not `NULL`: it points at one of the two pool slots.
Nothing is said about IDLE and RX_SIZE_WAIT. -/
theorem current_packet_in_transfer (c : Config) (careful : Bool) (prog : Program) (s : Link)
    (h : Reachable c careful prog s)
    (ht : s.UpstreamInterfaceState.isTx = true ∨
      s.UpstreamInterfaceState = UPSTREAM_INTERFACE_RX_SIZE ∨
      s.UpstreamInterfaceState = UPSTREAM_INTERFACE_RX_PACKET_WAIT ∨
      s.UpstreamInterfaceState = UPSTREAM_INTERFACE_RX_PACKET) :
    s.CurrentWorkingPacket ≠ PacketPtr.NULL ∧
    (s.CurrentWorkingPacket = PacketPtr.UpstreamPacket0 ∨
      s.CurrentWorkingPacket = PacketPtr.UpstreamPacket1) := by
  have hin : s.UpstreamInterfaceState.inTransfer = true := by
    rcases ht with x | x | x | x
    · revert x; cases s.UpstreamInterfaceState <;> simp [InterfaceStateTypeDef.isTx,
        InterfaceStateTypeDef.inTransfer]
    · rw [x]; rfl
    · rw [x]; rfl
    · rw [x]; rfl
  have hp := (reachable_linkInv c careful prog s h).cur_pool hin
  revert hp
  cases s.CurrentWorkingPacket <;> simp [PacketPtr.isPool]

theorem current_packet_in_transfer_witness :
    Reachable Config.sample false Program.quiet sampleInSizeTransfer ∧
    sampleInSizeTransfer.CurrentWorkingPacket ≠ PacketPtr.NULL :=
  ⟨Reachable.step 0 (Event.upper sampleSubmitOne) _ _ (Reachable.boot true) rfl,
   (current_packet_in_transfer Config.sample false Program.quiet sampleInSizeTransfer
     (Reachable.step 0 (Event.upper sampleSubmitOne) _ _ (Reachable.boot true) rfl)
     (Or.inl rfl)).1⟩

/-- C19, as stated, fails: with one packet in transmission and a second one
queued (`sampleQueueTwo`), an SPI error, or a rejected call such as
`Upstream_ReleasePacket` of `NULL`, drives the link to ERROR and leaves
`NextTxPacket` as it is, so the link is in none of the four transmit states
while a packet is queued. -/
theorem queued_packet_counterexample :
    Reachable Config.sample true Program.quiet sampleQueuedInError ∧
    sampleQueuedInError.NextTxPacket ≠ PacketPtr.NULL ∧
    sampleQueuedInError.UpstreamInterfaceState = UPSTREAM_INTERFACE_ERROR ∧
    sampleQueuedInError.UpstreamInterfaceState.isTx = false ∧
    Event.runAll Config.sample true (Program.hooks Config.sample true Program.quiet 0)
      [Event.upper (sampleQueueTwo false), Event.HAL_SPI_ErrorCallback] (initLink false) =
        some sampleQueuedInError ∧
    Event.runAll Config.sample true (Program.hooks Config.sample true Program.quiet 0)
      [Event.upper (sampleQueueTwo false),
       Event.upper (Script.Upstream_ReleasePacket PacketPtr.NULL Script.done)]
      (initLink false) = some sampleQueuedInError ∧
    ¬ (∀ s, Reachable Config.sample true Program.quiet s →
        s.NextTxPacket ≠ PacketPtr.NULL → s.UpstreamInterfaceState.isTx = true) := by
  have h1 : Reachable Config.sample true Program.quiet sampleQueuedInError :=
    reachable_runAll Config.sample true Program.quiet 0
      [Event.upper (sampleQueueTwo false), Event.HAL_SPI_ErrorCallback] _ _
      (Reachable.boot false) rfl
  refine ⟨h1, by decide, rfl, rfl, rfl, rfl, ?_⟩
  intro hall
  have := hall _ h1 (by decide)
  cases this

/-- C19, amended: in every link that a program can bring about by events from
the link after `Upstream_InitSPI`, whatever the upper layers do, a non-empty
`NextTxPacket` implies that the state is one of TX_SIZE_WAIT, TX_SIZE,
TX_PACKET_WAIT, TX_PACKET, or ERROR; the queued packet is one of the two pool
slots. -/
theorem queued_packet_in_tx (c : Config) (careful : Bool) (prog : Program) (s : Link)
    (h : Reachable c careful prog s) (hn : s.NextTxPacket ≠ PacketPtr.NULL) :
    (s.UpstreamInterfaceState = UPSTREAM_INTERFACE_TX_SIZE_WAIT ∨
      s.UpstreamInterfaceState = UPSTREAM_INTERFACE_TX_SIZE ∨
      s.UpstreamInterfaceState = UPSTREAM_INTERFACE_TX_PACKET_WAIT ∨
      s.UpstreamInterfaceState = UPSTREAM_INTERFACE_TX_PACKET ∨
      s.UpstreamInterfaceState = UPSTREAM_INTERFACE_ERROR) ∧
    (s.NextTxPacket = PacketPtr.UpstreamPacket0 ∨
      s.NextTxPacket = PacketPtr.UpstreamPacket1) := by
  have hi := reachable_linkInv c careful prog s h
  have h1 := hi.next_tx hn
  have h2 := hi.next_pool hn
  constructor
  · revert h1
    cases s.UpstreamInterfaceState <;> simp [InterfaceStateTypeDef.isTx]
  · revert h2
    cases s.NextTxPacket <;> simp [PacketPtr.isPool]

theorem queued_packet_in_tx_witness :
    Reachable Config.sample false Program.quiet (sampleAfterQueueTwo false) ∧
    (sampleAfterQueueTwo false).NextTxPacket ≠ PacketPtr.NULL ∧
    (sampleAfterQueueTwo false).NextTxPacket = PacketPtr.UpstreamPacket1 :=
  ⟨Reachable.step 0 (Event.upper (sampleQueueTwo false)) _ _ (Reachable.boot false) rfl,
   by decide,
   ((queued_packet_in_tx Config.sample false Program.quiet (sampleAfterQueueTwo false)
     (Reachable.step 0 (Event.upper (sampleQueueTwo false)) _ _ (Reachable.boot false) rfl)
     (by decide)).2).resolve_left (by decide)⟩

/-- C20: ready-flag invariant. In every link `s` that a program can bring about
by events from the link after `Upstream_InitSPI`, whatever the upper layers do,
a pending ready edge (`TxOkInterruptReceived` set) implies that the state is
IDLE or ERROR. Consequently, in such a link and in any surroundings, SPI
completion processing in TX_SIZE only sets the state to TX_PACKET_WAIT; in
RX_SIZE, where the current packet is a pool slot, a valid length only sets the
state to RX_PACKET_WAIT; and in TX_PACKET with a packet queued it makes the
queued packet current, sets the state to TX_SIZE_WAIT without starting a
transfer and releases the transmitted packet on that link: with no free-packet
waiter the link ends in TX_SIZE_WAIT with the log of outside calls unchanged,
and with the waiter `app fid` the waiter is called on the link in
TX_SIZE_WAIT. -/
theorem ready_flag_invariant (c : Config) (careful : Bool) (prog : Program) (s : Link)
    (h : Reachable c careful prog s) :
    (s.TxOkInterruptReceived = true →
      s.UpstreamInterfaceState = UPSTREAM_INTERFACE_IDLE ∨
        s.UpstreamInterfaceState = UPSTREAM_INTERFACE_ERROR) ∧
    (∀ k : Hooks, s.UpstreamInterfaceState = UPSTREAM_INTERFACE_TX_SIZE →
      Upstream_SPIProcess c k s =
        some { s with SPI1_NSS := false,
                      UpstreamInterfaceState := UPSTREAM_INTERFACE_TX_PACKET_WAIT }) ∧
    (∀ k : Hooks, s.UpstreamInterfaceState = UPSTREAM_INTERFACE_RX_SIZE →
      ∃ pkt, s.deref s.CurrentWorkingPacket = some pkt ∧
        (c.UPSTREAM_PACKET_LEN_MIN_16 ≤ pkt.Length16 →
          pkt.Length16 ≤ c.UPSTREAM_PACKET_LEN_16 →
          Upstream_SPIProcess c k s =
            some { s with SPI1_NSS := false,
                          UpstreamInterfaceState := UPSTREAM_INTERFACE_RX_PACKET_WAIT })) ∧
    (∀ k : Hooks, s.UpstreamInterfaceState = UPSTREAM_INTERFACE_TX_PACKET →
      s.NextTxPacket ≠ PacketPtr.NULL →
      ∃ next, s.deref s.NextTxPacket = some next ∧
        Upstream_SPIProcess c k s =
          Upstream_ReleasePacket k s.CurrentWorkingPacket
            { s with SPI1_NSS := false,
                     UpstreamInterfaceState := UPSTREAM_INTERFACE_TX_SIZE_WAIT,
                     CurrentWorkingPacket := s.NextTxPacket,
                     NextTxPacket := PacketPtr.NULL,
                     SentCommandClass := next.CommandClass,
                     SentCommand := next.Command } ∧
        (s.PendingFreePacketCallback = FreePacketCallbackTypeDef.NULL →
          ∃ s1, Upstream_SPIProcess c k s = some s1 ∧
            s1.UpstreamInterfaceState = UPSTREAM_INTERFACE_TX_SIZE_WAIT ∧
            s1.TxOkInterruptReceived = false ∧ s1.log = s.log) ∧
        (∀ fid, s.PendingFreePacketCallback = FreePacketCallbackTypeDef.app fid →
          Upstream_SPIProcess c k s =
            k.freePacketCallback fid s.CurrentWorkingPacket
              { s with SPI1_NSS := false,
                       UpstreamInterfaceState := UPSTREAM_INTERFACE_TX_SIZE_WAIT,
                       CurrentWorkingPacket := s.NextTxPacket,
                       NextTxPacket := PacketPtr.NULL,
                       SentCommandClass := next.CommandClass,
                       SentCommand := next.Command,
                       PendingFreePacketCallback := FreePacketCallbackTypeDef.NULL,
                       log := s.log ++ [Call.freePacketCallback
                         (FreePacketCallbackTypeDef.app fid) s.CurrentWorkingPacket] })) := by
  have hi := reachable_linkInv c careful prog s h
  refine ⟨hi.ready, ?_, ?_, ?_⟩
  · intro k hs
    exact spiProcess_in_tx_size c k s hs
      (flag_clear_of_linkInv s hi (by rw [hs]; simp) (by rw [hs]; simp))
  · intro k hs
    have hp := hi.cur_pool (by rw [hs]; rfl)
    obtain ⟨pkt, hd⟩ := (deref_isSome_iff s s.CurrentWorkingPacket).1 hp
    refine ⟨pkt, hd, ?_⟩
    intro hmin hmax
    exact spiProcess_rx_size_valid c k s pkt hs hd hmin hmax
      (flag_clear_of_linkInv s hi (by rw [hs]; simp) (by rw [hs]; simp))
  · intro k hs hn
    have hok := flag_clear_of_linkInv s hi (by rw [hs]; simp) (by rw [hs]; simp)
    have hp := hi.cur_pool (by rw [hs]; rfl)
    obtain ⟨next, hd⟩ := (deref_isSome_iff s s.NextTxPacket).1 (hi.next_pool hn)
    have h2 := spiProcess_next_queued c k s next hs hd hok
    refine ⟨next, hd, h2, ?_, ?_⟩
    · intro hw
      rw [h2]
      cases hc : s.CurrentWorkingPacket <;> simp [hc, PacketPtr.isPool] at hp <;>
        simp [Upstream_ReleasePacket, Link.inError, InterfaceStateTypeDef.toNat, hw,
          Link.store, hok]
    · intro fid hw
      rw [h2]
      cases hc : s.CurrentWorkingPacket <;> simp [hc, PacketPtr.isPool] at hp <;>
        simp [Upstream_ReleasePacket, Link.inError, InterfaceStateTypeDef.toNat, hw,
          callFreePacketCallback, callAppFreePacketCallback, Link.logged]

theorem ready_flag_invariant_witness :
    Reachable Config.sample true Program.quiet sampleInSizeTransfer ∧
    Upstream_SPIProcess Config.sample Hooks.quiet sampleInSizeTransfer =
      some { sampleInSizeTransfer with
        SPI1_NSS := false
        UpstreamInterfaceState := UPSTREAM_INTERFACE_TX_PACKET_WAIT } :=
  ⟨Reachable.step 0 (Event.upper sampleSubmitOne) _ _ (Reachable.boot true) rfl,
   (ready_flag_invariant Config.sample true Program.quiet sampleInSizeTransfer
     (Reachable.step 0 (Event.upper sampleSubmitOne) _ _ (Reachable.boot true) rfl)).2.1
     Hooks.quiet rfl⟩

/-! ## Calls made by the public API -/

theorem upcalls_of_log (s s1 : Link) (h : s1.log = s.log) : s1.upcalls = s.upcalls := by
  unfold Link.upcalls; rw [h]

theorem receivePacket_total (k : Hooks) (cb : SpiPacketReceivedCallbackTypeDef) (s : Link) :
    ∃ s1 r, Upstream_ReceivePacket k cb s = some (s1, r) := by
  unfold Upstream_ReceivePacket Upstream_CheckBeginPacketReception
  dsimp only
  split_ifs
  any_goals exact ⟨_, _, rfl⟩
  obtain ⟨r2, h2⟩ := getFreePacket_own_total k
    { s with ReceivePacketCallback := cb,
             UpstreamInterfaceState := UPSTREAM_INTERFACE_RX_SIZE_WAIT,
             TxOkInterruptReceived := false }
  rw [h2]
  exact ⟨_, _, rfl⟩

theorem receivePacket_registered (k : Hooks) (cb : SpiPacketReceivedCallbackTypeDef) (s : Link)
    (he : s.UpstreamInterfaceState ≠ UPSTREAM_INTERFACE_ERROR)
    (hr : s.ReceivePacketCallback ≠ SpiPacketReceivedCallbackTypeDef.NULL) :
    Upstream_ReceivePacket k cb s =
      some ({ s with UpstreamInterfaceState := UPSTREAM_INTERFACE_ERROR }, HAL_ERROR) := by
  simp [Upstream_ReceivePacket, (inError_eq_false_iff s).2 he, hr, UPSTREAM_SPI_FREAKOUT]

theorem receivePacket_in_tx (k : Hooks) (cb : SpiPacketReceivedCallbackTypeDef) (s : Link)
    (hr : s.ReceivePacketCallback = SpiPacketReceivedCallbackTypeDef.NULL)
    (ht : s.UpstreamInterfaceState.isTx = true) :
    Upstream_ReceivePacket k cb s = some ({ s with ReceivePacketCallback := cb }, HAL_OK) := by
  cases hst : s.UpstreamInterfaceState <;> simp [hst, InterfaceStateTypeDef.isTx] at ht <;>
    simp [Upstream_ReceivePacket, Upstream_CheckBeginPacketReception, hr, hst,
      Link.inError, InterfaceStateTypeDef.toNat]

theorem receivePacket_in_rx (k : Hooks) (cb : SpiPacketReceivedCallbackTypeDef) (s : Link)
    (hr : s.ReceivePacketCallback = SpiPacketReceivedCallbackTypeDef.NULL)
    (ht : s.UpstreamInterfaceState.isRx = true) :
    Upstream_ReceivePacket k cb s =
      some ({ s with ReceivePacketCallback := cb,
                     UpstreamInterfaceState := UPSTREAM_INTERFACE_ERROR }, HAL_ERROR) := by
  cases hst : s.UpstreamInterfaceState <;> simp [hst, InterfaceStateTypeDef.isRx] at ht <;>
    simp [Upstream_ReceivePacket, Upstream_CheckBeginPacketReception, hr, hst,
      Link.inError, InterfaceStateTypeDef.toNat, UPSTREAM_SPI_FREAKOUT]

theorem receivePacket_idle (k : Hooks) (cb : SpiPacketReceivedCallbackTypeDef) (s : Link)
    (hr : s.ReceivePacketCallback = SpiPacketReceivedCallbackTypeDef.NULL)
    (hi : s.UpstreamInterfaceState = UPSTREAM_INTERFACE_IDLE)
    (hok : s.TxOkInterruptReceived = false) :
    Upstream_ReceivePacket k cb s =
      some ({ s with ReceivePacketCallback := cb,
                     UpstreamInterfaceState := UPSTREAM_INTERFACE_RX_SIZE_WAIT }, HAL_OK) := by
  simp [Upstream_ReceivePacket, Upstream_CheckBeginPacketReception, hr, hi, hok,
    Link.inError, InterfaceStateTypeDef.toNat]

theorem receivePacket_ready_waiter (k : Hooks) (cb : SpiPacketReceivedCallbackTypeDef)
    (s : Link)
    (hr : s.ReceivePacketCallback = SpiPacketReceivedCallbackTypeDef.NULL)
    (hi : s.UpstreamInterfaceState = UPSTREAM_INTERFACE_IDLE)
    (hok : s.TxOkInterruptReceived = true)
    (hw : s.PendingFreePacketCallback ≠ FreePacketCallbackTypeDef.NULL) :
    Upstream_ReceivePacket k cb s =
      some ({ s with ReceivePacketCallback := cb,
                     UpstreamInterfaceState := UPSTREAM_INTERFACE_ERROR,
                     TxOkInterruptReceived := false }, HAL_OK) := by
  simp [Upstream_ReceivePacket, Upstream_CheckBeginPacketReception, Upstream_GetFreePacket,
    hr, hi, hok, hw, Link.inError, InterfaceStateTypeDef.toNat, UPSTREAM_SPI_FREAKOUT]

theorem receivePacket_ready_full (k : Hooks) (cb : SpiPacketReceivedCallbackTypeDef)
    (s : Link)
    (hr : s.ReceivePacketCallback = SpiPacketReceivedCallbackTypeDef.NULL)
    (hi : s.UpstreamInterfaceState = UPSTREAM_INTERFACE_IDLE)
    (hok : s.TxOkInterruptReceived = true)
    (hw : s.PendingFreePacketCallback = FreePacketCallbackTypeDef.NULL)
    (h0 : s.UpstreamPacket0.Busy = BUSY) (h1 : s.UpstreamPacket1.Busy = BUSY) :
    Upstream_ReceivePacket k cb s =
      some ({ s with ReceivePacketCallback := cb,
                     UpstreamInterfaceState := UPSTREAM_INTERFACE_RX_SIZE_WAIT,
                     TxOkInterruptReceived := false,
                     PendingFreePacketCallback :=
                       FreePacketCallbackTypeDef.Upstream_BeginReceivePacketSize },
            HAL_OK) := by
  simp [Upstream_ReceivePacket, Upstream_CheckBeginPacketReception, Upstream_GetFreePacket,
    hr, hi, hok, hw, h0, h1, Link.inError, InterfaceStateTypeDef.toNat]

theorem receivePacket_ready_slot0 (k : Hooks) (cb : SpiPacketReceivedCallbackTypeDef)
    (s t : Link)
    (hr : s.ReceivePacketCallback = SpiPacketReceivedCallbackTypeDef.NULL)
    (hi : s.UpstreamInterfaceState = UPSTREAM_INTERFACE_IDLE)
    (hok : s.TxOkInterruptReceived = true)
    (hw : s.PendingFreePacketCallback = FreePacketCallbackTypeDef.NULL)
    (h0 : s.UpstreamPacket0.Busy = NOT_BUSY)
    (ht : t = { s with
      ReceivePacketCallback := cb,
      UpstreamInterfaceState := UPSTREAM_INTERFACE_RX_SIZE,
      TxOkInterruptReceived := false,
      UpstreamPacket0 := { s.UpstreamPacket0 with Busy := BUSY, Length16 := 0 },
      CurrentWorkingPacket := PacketPtr.UpstreamPacket0,
      SPI1_NSS := true,
      TemporaryIncomingPacketLength := 0,
      log := s.log ++ [Call.freePacketCallback
        FreePacketCallbackTypeDef.Upstream_BeginReceivePacketSize
        PacketPtr.UpstreamPacket0] }) :
    Upstream_ReceivePacket k cb s =
      some ({ t with
        UpstreamInterfaceState :=
          if k.HAL_SPI_TransmitReceive_IT Buffer.TemporaryIncomingPacketLength
              (Buffer.Length16 PacketPtr.UpstreamPacket0) 2 t = HAL_OK
          then UPSTREAM_INTERFACE_RX_SIZE else UPSTREAM_INTERFACE_ERROR,
        log := t.log ++ [Call.HAL_SPI_TransmitReceive_IT Buffer.TemporaryIncomingPacketLength
          (Buffer.Length16 PacketPtr.UpstreamPacket0) 2] }, HAL_OK) := by
  subst ht
  simp only [Upstream_ReceivePacket, Upstream_CheckBeginPacketReception,
    Upstream_GetFreePacket, callFreePacketCallback, Upstream_BeginReceivePacketSize,
    Link.store, startTransfer, Link.logged, UPSTREAM_SPI_FREAKOUT, hr, hi, hok, hw, h0,
    Link.inError, InterfaceStateTypeDef.toNat]
  simp
  split_ifs <;> simp_all

theorem receivePacket_ready_slot1 (k : Hooks) (cb : SpiPacketReceivedCallbackTypeDef)
    (s t : Link)
    (hr : s.ReceivePacketCallback = SpiPacketReceivedCallbackTypeDef.NULL)
    (hi : s.UpstreamInterfaceState = UPSTREAM_INTERFACE_IDLE)
    (hok : s.TxOkInterruptReceived = true)
    (hw : s.PendingFreePacketCallback = FreePacketCallbackTypeDef.NULL)
    (h0 : s.UpstreamPacket0.Busy = BUSY) (h1 : s.UpstreamPacket1.Busy = NOT_BUSY)
    (ht : t = { s with
      ReceivePacketCallback := cb,
      UpstreamInterfaceState := UPSTREAM_INTERFACE_RX_SIZE,
      TxOkInterruptReceived := false,
      UpstreamPacket1 := { s.UpstreamPacket1 with Busy := BUSY, Length16 := 0 },
      CurrentWorkingPacket := PacketPtr.UpstreamPacket1,
      SPI1_NSS := true,
      TemporaryIncomingPacketLength := 0,
      log := s.log ++ [Call.freePacketCallback
        FreePacketCallbackTypeDef.Upstream_BeginReceivePacketSize
        PacketPtr.UpstreamPacket1] }) :
    Upstream_ReceivePacket k cb s =
      some ({ t with
        UpstreamInterfaceState :=
          if k.HAL_SPI_TransmitReceive_IT Buffer.TemporaryIncomingPacketLength
              (Buffer.Length16 PacketPtr.UpstreamPacket1) 2 t = HAL_OK
          then UPSTREAM_INTERFACE_RX_SIZE else UPSTREAM_INTERFACE_ERROR,
        log := t.log ++ [Call.HAL_SPI_TransmitReceive_IT Buffer.TemporaryIncomingPacketLength
          (Buffer.Length16 PacketPtr.UpstreamPacket1) 2] }, HAL_OK) := by
  subst ht
  simp only [Upstream_ReceivePacket, Upstream_CheckBeginPacketReception,
    Upstream_GetFreePacket, callFreePacketCallback, Upstream_BeginReceivePacketSize,
    Link.store, startTransfer, Link.logged, UPSTREAM_SPI_FREAKOUT, hr, hi, hok, hw, h0, h1,
    Link.inError, InterfaceStateTypeDef.toNat]
  simp
  split_ifs <;> simp_all

/-- C17, as stated, fails on a success from IDLE with a ready edge pending
while a free-packet waiter is registered. The link below is reached from boot
by a ready edge and upper-layer code that takes both packets and asks for one
more with callback 7. `Upstream_ReceivePacket` returns `HAL_OK`, but the
request for a free packet it makes is refused, and the link is left in ERROR
with no packet acquired, not in RX_SIZE_WAIT. -/
theorem receive_packet_counterexample :
    Reachable Config.sample true Program.quiet sampleBothOnLoanReady ∧
    sampleBothOnLoanReady.UpstreamInterfaceState = UPSTREAM_INTERFACE_IDLE ∧
    sampleBothOnLoanReady.ReceivePacketCallback = SpiPacketReceivedCallbackTypeDef.NULL ∧
    Upstream_ReceivePacket Hooks.quiet (SpiPacketReceivedCallbackTypeDef.app 5)
        sampleBothOnLoanReady =
      some ({ sampleBothOnLoanReady with
        ReceivePacketCallback := SpiPacketReceivedCallbackTypeDef.app 5
        UpstreamInterfaceState := UPSTREAM_INTERFACE_ERROR
        TxOkInterruptReceived := false }, HAL_OK) ∧
    ¬ (∀ s1 r, Upstream_ReceivePacket Hooks.quiet (SpiPacketReceivedCallbackTypeDef.app 5)
        sampleBothOnLoanReady = some (s1, r) → r = HAL_OK →
        s1.UpstreamInterfaceState = UPSTREAM_INTERFACE_RX_SIZE_WAIT ∨
          s1.UpstreamInterfaceState = UPSTREAM_INTERFACE_RX_SIZE) := by
  refine ⟨?_, rfl, rfl, rfl, ?_⟩
  · exact reachable_runAll Config.sample true Program.quiet 0
      [Event.Upstream_TxOkInterrupt, Event.upper sampleTakeBoth] _ _ (Reachable.boot false) rfl
  · intro hall
    have h := hall _ _ (rfl : Upstream_ReceivePacket Hooks.quiet
      (SpiPacketReceivedCallbackTypeDef.app 5) sampleBothOnLoanReady = some (_, HAL_OK)) rfl
    rcases h with h | h <;> cases h

/-- C17, amended: `Upstream_ReceivePacket` outside ERROR. The call returns,
with `HAL_OK` exactly when no receive waiter is registered and the state is
IDLE or one of the four transmit states, and with `HAL_ERROR` and the link in
ERROR otherwise, in particular when a waiter is registered or the state is one
of the four receive states. On success from a transmit state nothing changes
but `ReceivePacketCallback`, which becomes `cb`. On success from IDLE `cb` is
stored, and with no ready edge pending the state becomes RX_SIZE_WAIT and
nothing else changes. With a ready edge pending the edge is consumed and a
free packet is requested for `Upstream_BeginReceivePacketSize`: if a
free-packet waiter is registered the link is left in ERROR; if both slots are
`BUSY` the link's own routine becomes the free-packet waiter and the state is
RX_SIZE_WAIT; otherwise the first free slot is marked `BUSY`, made the current
packet with its length word cleared, and the size transfer is started, which
leaves the link in RX_SIZE when the HAL accepts the start and in ERROR when it
refuses. -/
theorem receive_packet_result (k : Hooks) (cb : SpiPacketReceivedCallbackTypeDef) (s : Link)
    (he : s.UpstreamInterfaceState ≠ UPSTREAM_INTERFACE_ERROR) :
    ∃ s1 r, Upstream_ReceivePacket k cb s = some (s1, r) ∧
      (r = HAL_OK ↔
        (s.ReceivePacketCallback = SpiPacketReceivedCallbackTypeDef.NULL ∧
          (s.UpstreamInterfaceState = UPSTREAM_INTERFACE_IDLE ∨
            s.UpstreamInterfaceState.isTx = true))) ∧
      (r ≠ HAL_OK → r = HAL_ERROR) ∧
      (s.ReceivePacketCallback ≠ SpiPacketReceivedCallbackTypeDef.NULL ∨
          s.UpstreamInterfaceState.isRx = true → r = HAL_ERROR) ∧
      (r = HAL_ERROR → s1.UpstreamInterfaceState = UPSTREAM_INTERFACE_ERROR) ∧
      (r = HAL_OK → s.UpstreamInterfaceState.isTx = true →
        s1 = { s with ReceivePacketCallback := cb }) ∧
      (r = HAL_OK → s.UpstreamInterfaceState = UPSTREAM_INTERFACE_IDLE →
        s.TxOkInterruptReceived = false →
        s1 = { s with ReceivePacketCallback := cb,
                      UpstreamInterfaceState := UPSTREAM_INTERFACE_RX_SIZE_WAIT }) ∧
      (r = HAL_OK → s.UpstreamInterfaceState = UPSTREAM_INTERFACE_IDLE →
        s.TxOkInterruptReceived = true →
        s.PendingFreePacketCallback ≠ FreePacketCallbackTypeDef.NULL →
        s1 = { s with ReceivePacketCallback := cb,
                      UpstreamInterfaceState := UPSTREAM_INTERFACE_ERROR,
                      TxOkInterruptReceived := false }) ∧
      (r = HAL_OK → s.UpstreamInterfaceState = UPSTREAM_INTERFACE_IDLE →
        s.TxOkInterruptReceived = true →
        s.PendingFreePacketCallback = FreePacketCallbackTypeDef.NULL →
        s.UpstreamPacket0.Busy = BUSY → s.UpstreamPacket1.Busy = BUSY →
        s1 = { s with ReceivePacketCallback := cb,
                      UpstreamInterfaceState := UPSTREAM_INTERFACE_RX_SIZE_WAIT,
                      TxOkInterruptReceived := false,
                      PendingFreePacketCallback :=
                        FreePacketCallbackTypeDef.Upstream_BeginReceivePacketSize }) ∧
      (r = HAL_OK → s.UpstreamInterfaceState = UPSTREAM_INTERFACE_IDLE →
        s.TxOkInterruptReceived = true →
        s.PendingFreePacketCallback = FreePacketCallbackTypeDef.NULL →
        s.UpstreamPacket0.Busy = NOT_BUSY →
        ∃ t, t = { s with
            ReceivePacketCallback := cb,
            UpstreamInterfaceState := UPSTREAM_INTERFACE_RX_SIZE,
            TxOkInterruptReceived := false,
            UpstreamPacket0 := { s.UpstreamPacket0 with Busy := BUSY, Length16 := 0 },
            CurrentWorkingPacket := PacketPtr.UpstreamPacket0,
            SPI1_NSS := true,
            TemporaryIncomingPacketLength := 0,
            log := s.log ++ [Call.freePacketCallback
              FreePacketCallbackTypeDef.Upstream_BeginReceivePacketSize
              PacketPtr.UpstreamPacket0] } ∧
          s1 = { t with
            UpstreamInterfaceState :=
              if k.HAL_SPI_TransmitReceive_IT Buffer.TemporaryIncomingPacketLength
                  (Buffer.Length16 PacketPtr.UpstreamPacket0) 2 t = HAL_OK
              then UPSTREAM_INTERFACE_RX_SIZE else UPSTREAM_INTERFACE_ERROR,
            log := t.log ++ [Call.HAL_SPI_TransmitReceive_IT
              Buffer.TemporaryIncomingPacketLength
              (Buffer.Length16 PacketPtr.UpstreamPacket0) 2] }) ∧
      (r = HAL_OK → s.UpstreamInterfaceState = UPSTREAM_INTERFACE_IDLE →
        s.TxOkInterruptReceived = true →
        s.PendingFreePacketCallback = FreePacketCallbackTypeDef.NULL →
        s.UpstreamPacket0.Busy = BUSY → s.UpstreamPacket1.Busy = NOT_BUSY →
        ∃ t, t = { s with
            ReceivePacketCallback := cb,
            UpstreamInterfaceState := UPSTREAM_INTERFACE_RX_SIZE,
            TxOkInterruptReceived := false,
            UpstreamPacket1 := { s.UpstreamPacket1 with Busy := BUSY, Length16 := 0 },
            CurrentWorkingPacket := PacketPtr.UpstreamPacket1,
            SPI1_NSS := true,
            TemporaryIncomingPacketLength := 0,
            log := s.log ++ [Call.freePacketCallback
              FreePacketCallbackTypeDef.Upstream_BeginReceivePacketSize
              PacketPtr.UpstreamPacket1] } ∧
          s1 = { t with
            UpstreamInterfaceState :=
              if k.HAL_SPI_TransmitReceive_IT Buffer.TemporaryIncomingPacketLength
                  (Buffer.Length16 PacketPtr.UpstreamPacket1) 2 t = HAL_OK
              then UPSTREAM_INTERFACE_RX_SIZE else UPSTREAM_INTERFACE_ERROR,
            log := t.log ++ [Call.HAL_SPI_TransmitReceive_IT
              Buffer.TemporaryIncomingPacketLength
              (Buffer.Length16 PacketPtr.UpstreamPacket1) 2] }) := by
  obtain ⟨s1, r, h⟩ := receivePacket_total k cb s
  have hiff : r = HAL_OK ↔
      (s.ReceivePacketCallback = SpiPacketReceivedCallbackTypeDef.NULL ∧
        (s.UpstreamInterfaceState = UPSTREAM_INTERFACE_IDLE ∨
          s.UpstreamInterfaceState.isTx = true)) := by
    by_cases hr : s.ReceivePacketCallback = SpiPacketReceivedCallbackTypeDef.NULL
    · by_cases ht : s.UpstreamInterfaceState.isTx = true
      · rw [receivePacket_in_tx k cb s hr ht] at h
        cases h; simp [hr, ht]
      · by_cases hx : s.UpstreamInterfaceState.isRx = true
        · rw [receivePacket_in_rx k cb s hr hx] at h
          cases h
          revert hx
          cases s.UpstreamInterfaceState <;>
            simp [hr, InterfaceStateTypeDef.isRx, InterfaceStateTypeDef.isTx]
        · have hi : s.UpstreamInterfaceState = UPSTREAM_INTERFACE_IDLE := by
            revert he ht hx
            cases s.UpstreamInterfaceState <;>
              simp [InterfaceStateTypeDef.isRx, InterfaceStateTypeDef.isTx]
          simp only [hr, hi, true_and, true_or, iff_true]
          rcases Bool.eq_false_or_eq_true s.TxOkInterruptReceived with hok | hok
          · by_cases hw : s.PendingFreePacketCallback = FreePacketCallbackTypeDef.NULL
            · by_cases h0 : s.UpstreamPacket0.Busy = NOT_BUSY
              · rw [receivePacket_ready_slot0 k cb s _ hr hi hok hw h0 rfl] at h
                cases h; rfl
              · by_cases h1 : s.UpstreamPacket1.Busy = NOT_BUSY
                · rw [receivePacket_ready_slot1 k cb s _ hr hi hok hw (busy_cases _ h0) h1
                    rfl] at h
                  cases h; rfl
                · rw [receivePacket_ready_full k cb s hr hi hok hw (busy_cases _ h0)
                    (busy_cases _ h1)] at h
                  cases h; rfl
            · rw [receivePacket_ready_waiter k cb s hr hi hok hw] at h
              cases h; rfl
          · rw [receivePacket_idle k cb s hr hi hok] at h
            cases h; rfl
    · rw [receivePacket_registered k cb s he hr] at h
      cases h; simp [hr]
  refine ⟨s1, r, h, hiff, ?_, ?_, ?_, ?_, ?_, ?_, ?_, ?_, ?_⟩
  · intro hne
    by_cases hr : s.ReceivePacketCallback = SpiPacketReceivedCallbackTypeDef.NULL
    · have hx : s.UpstreamInterfaceState.isRx = true := by
        have hn : ¬ (s.UpstreamInterfaceState = UPSTREAM_INTERFACE_IDLE ∨
            s.UpstreamInterfaceState.isTx = true) := fun x => hne (hiff.2 ⟨hr, x⟩)
        revert he hn
        cases s.UpstreamInterfaceState <;>
          simp [InterfaceStateTypeDef.isRx, InterfaceStateTypeDef.isTx]
      rw [receivePacket_in_rx k cb s hr hx] at h
      cases h; rfl
    · rw [receivePacket_registered k cb s he hr] at h
      cases h; rfl
  · intro hx
    by_cases hr : s.ReceivePacketCallback = SpiPacketReceivedCallbackTypeDef.NULL
    · rw [receivePacket_in_rx k cb s hr (hx.resolve_left (fun y => y hr))] at h
      cases h; rfl
    · rw [receivePacket_registered k cb s he hr] at h
      cases h; rfl
  · intro hre
    by_cases hr : s.ReceivePacketCallback = SpiPacketReceivedCallbackTypeDef.NULL
    · have hx : s.UpstreamInterfaceState.isRx = true := by
        have hn : ¬ (s.UpstreamInterfaceState = UPSTREAM_INTERFACE_IDLE ∨
            s.UpstreamInterfaceState.isTx = true) := by
          intro x
          have := hiff.2 ⟨hr, x⟩
          rw [hre] at this
          cases this
        revert he hn
        cases s.UpstreamInterfaceState <;>
          simp [InterfaceStateTypeDef.isRx, InterfaceStateTypeDef.isTx]
      rw [receivePacket_in_rx k cb s hr hx] at h
      cases h; rfl
    · rw [receivePacket_registered k cb s he hr] at h
      cases h; rfl
  · intro hok ht
    rw [receivePacket_in_tx k cb s (hiff.1 hok).1 ht] at h
    cases h; rfl
  · intro hok hi hf
    rw [receivePacket_idle k cb s (hiff.1 hok).1 hi hf] at h
    cases h; rfl
  · intro hok hi hf hw
    rw [receivePacket_ready_waiter k cb s (hiff.1 hok).1 hi hf hw] at h
    cases h; rfl
  · intro hok hi hf hw h0 h1
    rw [receivePacket_ready_full k cb s (hiff.1 hok).1 hi hf hw h0 h1] at h
    cases h; rfl
  · intro hok hi hf hw h0
    rw [receivePacket_ready_slot0 k cb s _ (hiff.1 hok).1 hi hf hw h0 rfl] at h
    cases h
    exact ⟨_, rfl, rfl⟩
  · intro hok hi hf hw h0 h1
    rw [receivePacket_ready_slot1 k cb s _ (hiff.1 hok).1 hi hf hw h0 h1 rfl] at h
    cases h
    exact ⟨_, rfl, rfl⟩

theorem receive_packet_result_witness :
    ∃ s1 r, Upstream_ReceivePacket Hooks.quiet (SpiPacketReceivedCallbackTypeDef.app 5)
        bootLink = some (s1, r) ∧ r = HAL_OK ∧ s1 = sampleAfterReceive := by
  obtain ⟨s1, r, h1, h2, _, _, _, _, h3, _⟩ :=
    receive_packet_result Hooks.quiet (SpiPacketReceivedCallbackTypeDef.app 5) bootLink
      (by decide)
  have hr : r = HAL_OK := h2.2 ⟨rfl, Or.inl rfl⟩
  exact ⟨s1, r, h1, hr, h3 hr rfl rfl⟩

/-! ## The early ready edge -/

/-- C16, as stated, fails when the HAL refuses the transfer start. The link
below is reached from boot by a ready edge and upper-layer code that takes
slot 0 and fills it; it is in IDLE with the edge pending.
`Upstream_TransmitPacket` of slot 0 returns `HAL_OK` and consumes the edge, but
`HAL_SPI_TransmitReceive_IT` answers `HAL_BUSY` and the link is left in ERROR,
not in TX_SIZE. -/
theorem early_ready_edge_counterexample :
    Reachable Config.sample true Program.halBusy
      { sampleLoan with TxOkInterruptReceived := true } ∧
    ({ sampleLoan with TxOkInterruptReceived := true } : Link).UpstreamInterfaceState =
      UPSTREAM_INTERFACE_IDLE ∧
    Upstream_TransmitPacket Config.sample
        (Program.hooks Config.sample true Program.halBusy 0) PacketPtr.UpstreamPacket0
        { sampleLoan with TxOkInterruptReceived := true } =
      some ({ sampleInSizeTransfer with UpstreamInterfaceState := UPSTREAM_INTERFACE_ERROR },
        HAL_OK) ∧
    ({ sampleInSizeTransfer with UpstreamInterfaceState := UPSTREAM_INTERFACE_ERROR } :
      Link).TxOkInterruptReceived = false ∧
    ({ sampleInSizeTransfer with UpstreamInterfaceState := UPSTREAM_INTERFACE_ERROR } :
      Link).UpstreamInterfaceState ≠ UPSTREAM_INTERFACE_TX_SIZE := by
  refine ⟨?_, rfl, rfl, rfl, by decide⟩
  exact reachable_runAll Config.sample true Program.halBusy 0
    [Event.Upstream_TxOkInterrupt,
     Event.upper (Script.Upstream_GetFreePacketImmediately fun p =>
       Script.fill p 4 16 1 Script.done)] _ _ (Reachable.boot false) rfl

/-- C16, amended: early ready edge. In every link in state IDLE
`Upstream_TxOkInterrupt` sets `TxOkInterruptReceived` and changes nothing else,
and a second edge gives the same link as the first. Let `p` be a pool packet
that is `BUSY` with a valid length and let nothing be queued: then
`Upstream_TransmitPacket p` on the link with the edge pending returns `HAL_OK`,
clears the flag, makes `p` the current packet and starts the size transfer at
once. When the HAL accepts the start the link is in TX_SIZE, and the SPI
completion processing that follows starts no transfer and leaves the link in
TX_PACKET_WAIT; when the HAL refuses the start the link is in ERROR. -/
theorem early_ready_edge (c : Config) (k : Hooks) (s : Link)
    (hs : s.UpstreamInterfaceState = UPSTREAM_INTERFACE_IDLE) :
    Upstream_TxOkInterrupt k s = some { s with TxOkInterruptReceived := true } ∧
    Upstream_TxOkInterrupt k { s with TxOkInterruptReceived := true } =
      some { s with TxOkInterruptReceived := true } ∧
    ∀ (p : PacketPtr) (pkt : UpstreamPacketTypeDef),
      s.deref p = some pkt → pkt.Busy = BUSY →
      c.UPSTREAM_PACKET_LEN_MIN_16 ≤ pkt.Length16 →
      pkt.Length16 ≤ c.UPSTREAM_PACKET_LEN_16 →
      s.NextTxPacket = PacketPtr.NULL →
      ∃ t, t = { s with UpstreamInterfaceState := UPSTREAM_INTERFACE_TX_SIZE,
                        CurrentWorkingPacket := p,
                        SentCommandClass := pkt.CommandClass,
                        SentCommand := pkt.Command,
                        TxOkInterruptReceived := false,
                        SPI1_NSS := true } ∧
        Upstream_TransmitPacket c k p { s with TxOkInterruptReceived := true } =
          some ({ t with
            UpstreamInterfaceState :=
              if k.HAL_SPI_TransmitReceive_IT (Buffer.Length16 p)
                  Buffer.TemporaryIncomingPacketLength 2 t = HAL_OK
              then UPSTREAM_INTERFACE_TX_SIZE else UPSTREAM_INTERFACE_ERROR,
            log := s.log ++ [Call.HAL_SPI_TransmitReceive_IT (Buffer.Length16 p)
              Buffer.TemporaryIncomingPacketLength 2] }, HAL_OK) ∧
        (k.HAL_SPI_TransmitReceive_IT (Buffer.Length16 p)
            Buffer.TemporaryIncomingPacketLength 2 t = HAL_OK →
          Upstream_SPIProcess c k
              { t with log := s.log ++ [Call.HAL_SPI_TransmitReceive_IT (Buffer.Length16 p)
                Buffer.TemporaryIncomingPacketLength 2] } =
            some { t with
              SPI1_NSS := false,
              UpstreamInterfaceState := UPSTREAM_INTERFACE_TX_PACKET_WAIT,
              log := s.log ++ [Call.HAL_SPI_TransmitReceive_IT (Buffer.Length16 p)
                Buffer.TemporaryIncomingPacketLength 2] }) := by
  have he : s.inError = false := (inError_eq_false_iff s).2 (by rw [hs]; simp)
  refine ⟨?_, ?_, ?_⟩
  · simp [Upstream_TxOkInterrupt, he, hs]
  · simp [Upstream_TxOkInterrupt, Link.inError, InterfaceStateTypeDef.toNat, hs]
  · intro p pkt hp hbusy hmin hmax hnext
    have hd : ({ s with TxOkInterruptReceived := true } : Link).deref p = some pkt := by
      rw [← hp]; cases p <;> rfl
    have h1 := transmit_pool c k p { s with TxOkInterruptReceived := true } pkt he hd
    rw [if_neg (by simp [hbusy]; omega), if_neg (by simp [hnext]),
      if_neg (by rw [hs]; decide), if_pos hs] at h1
    dsimp only at h1
    rw [if_pos rfl] at h1
    refine ⟨_, rfl, ?_, ?_⟩
    · rw [h1]
      simp only [Upstream_BeginTransmitPacketSize, startTransfer, Link.logged,
        UPSTREAM_SPI_FREAKOUT]
      split_ifs <;> simp_all
    · intro _
      rw [spiProcess_in_tx_size c k _ rfl rfl]

theorem early_ready_edge_witness :
    Upstream_TxOkInterrupt Hooks.quiet bootLink =
      some { bootLink with TxOkInterruptReceived := true } ∧
    Upstream_TxOkInterrupt Hooks.quiet { bootLink with TxOkInterruptReceived := true } =
      some { bootLink with TxOkInterruptReceived := true } ∧
    Upstream_TransmitPacket Config.sample Hooks.quiet PacketPtr.UpstreamPacket0
        { sampleLoan with TxOkInterruptReceived := true } =
      some (sampleInSizeTransfer, HAL_OK) := by
  have h := early_ready_edge Config.sample Hooks.quiet bootLink rfl
  obtain ⟨t, ht, h2, _⟩ :=
    (early_ready_edge Config.sample Hooks.quiet sampleLoan rfl).2.2 PacketPtr.UpstreamPacket0
      ⟨BUSY, 4, 16, 1⟩ rfl rfl (by decide) (by decide) rfl
  refine ⟨h.1, h.2.1, ?_⟩
  rw [h2, ht]
  rfl

end Upstream
